import Mathlib

/-!
# Bankbot: the ledger operations and the conversation flows of `server/server.js`

A shallow embedding of the ledger functions (`checkBalance`, `createAccount`,
`transferFunds`, `withdrawFunds`, `depositFunds`, also in `server/buisness_logic/*.js`)
over an explicit model of the SQLite tables declared in `server/db.js`, and of the flow
engine (`initializeSessionState`, the four step arrays, `processConversationalFlow`,
`executeFlowAction`, `getBankingBotResponse`) over the map `sessionStates`.

Modelling conventions.

* JavaScript numbers are `JsNum`: a finite value given by its exact rational value, one
  of the two infinities, or `NaN`; the two zeros are one value (no function here
  tells them apart).  The values the program computes are doubles: `parseFloat` rounds the
  decimal it reads to the nearest double, ties to even, with overflow to `Infinity` and
  underflow to zero (`roundToDouble`); `+` and `-` round their exact result in the same
  way; `toFixed` prints the value it is given as the language prescribes.  The `+` and
  `-` of the SQL statements are the same operations, those of SQLite on `REAL` values
  (SQLite holds a number without fraction as a 64-bit integer and adds two of them as
  integers, which is the same sum as long as it stays below `2^53` in magnitude).  A
  SQL `NULL` in a numeric column is identified with `NaN` (SQLite stores a `NaN` as
  `NULL`, and `parseFloat(null)` is `NaN`).
* The database is `Db`: the `accounts` and `transactions` tables as lists of rows in
  insertion order, plus the snapshot taken by an open `BEGIN TRANSACTION`.  The columns
  `id`, `created_at` and `timestamp`, which no ledger function reads, are left out.
* Every callback's `err` argument is an explicit input (`Option String`, the driver's
  error message), so storage failures can be injected at each statement.
* `uuidv4()`, `Date.now()` and `new Date().toISOString()` are inputs of the functions.
* A promise is modelled by its settlement, `Outcome`, returned next to the final `Db`.
* Calls run one after the other on one connection: a call starts with no transaction
  open (`saved = none`), which `reachable_closed` shows to hold between calls.
* The flow engine works on a `World` (database and session map) and returns a `Reply`; a
  mutation of the session object is a write of the new object into the map.  String
  literals are those of the source file, code point by code point.
-/

namespace Bankbot

/-! ## JavaScript numbers -/

/-- A JavaScript number: `NaN`, plus or minus `Infinity`, or a finite value. -/
inductive JsNum where
  | nan
  | inf (negative : Bool)
  | fin (q : ℚ)
  deriving DecidableEq

namespace JsNum

/-- The global `isNaN` on a number. -/
def isNaN : JsNum → Bool
  | nan => true
  | _ => false

/-- The operator `<` on numbers; a comparison with `NaN` is false. -/
def lt : JsNum → JsNum → Bool
  | fin a, fin b => decide (a < b)
  | inf true, fin _ => true
  | inf true, inf false => true
  | fin _, inf false => true
  | _, _ => false

/-- The operator `>`. -/
def gt (a b : JsNum) : Bool := lt b a

/-- The operator `<=`; a comparison with `NaN` is false. -/
def le (a b : JsNum) : Bool := !a.isNaN && !b.isNaN && !lt b a

/-- The operator `>=`. -/
def ge (a b : JsNum) : Bool := le b a

/-- Unary minus. -/
def neg : JsNum → JsNum
  | nan => nan
  | inf s => inf (!s)
  | fin a => fin (-a)

end JsNum

/-- The position of the highest binary digit of a positive number. -/
def floorLog2 (n : Nat) : Nat := (Nat.toDigits 2 n).length - 1

/-- Whether `2 ^ e ≤ n / d`, for a positive denominator `d`. -/
def powTwoLe (e : Int) (n d : Nat) : Bool :=
  if e ≥ 0 then decide (2 ^ e.toNat * d ≤ n) else decide (d ≤ n * 2 ^ (-e).toNat)

/-- The magnitude of a nonzero real number rounded to the precision of a double, before
the overflow check: with `e` the binary exponent of the magnitude (taken as `-1022` if it
is lower, which gives the subnormal range), it is the nearest multiple of `2 ^ (e - 52)`,
the even multiple of the two at equal distance. -/
def roundMagnitude (q : ℚ) : ℚ :=
  let n := q.num.natAbs
  let d := q.den
  let e0 : Int := (floorLog2 n : Int) - (floorLog2 d : Int)
  let e : Int := if powTwoLe e0 n d then e0 else e0 - 1
  let s : Int := max e (-1022) - 52
  let num := if s ≥ 0 then n else n * 2 ^ (-s).toNat
  let den := if s ≥ 0 then d * 2 ^ s.toNat else d
  let m0 := num / den
  let r := num % den
  let m := if 2 * r < den then m0
    else if den < 2 * r then m0 + 1
    else if m0 % 2 = 0 then m0 else m0 + 1
  if s ≥ 0 then ((m * 2 ^ s.toNat : Nat) : ℚ)
  else (m : ℚ) / ((2 ^ (-s).toNat : Nat) : ℚ)

/-- The Number value of a real number: the nearest IEEE 754 double, ties to the even
significand, `Infinity` when the rounded magnitude reaches `2 ^ 1024`, and zero when the
value underflows. -/
def roundToDouble (q : ℚ) : JsNum :=
  if q = 0 then .fin 0
  else if ((2 ^ 1024 : Nat) : ℚ) ≤ roundMagnitude q then .inf (decide (q < 0))
  else .fin (if q < 0 then -roundMagnitude q else roundMagnitude q)

/-- The Number value of a mathematical value that may also be infinite or undefined. -/
def JsNum.toDouble : JsNum → JsNum
  | .fin q => roundToDouble q
  | x => x

/-- The operator `+` on numbers (also the `+` of SQL on `REAL` values, with `NULL` read as
`NaN`): the sum of two finite values is the double nearest to their exact sum, or an
infinity when that overflows. -/
def JsNum.add : JsNum → JsNum → JsNum
  | .fin a, .fin b => roundToDouble (a + b)
  | .inf s, .fin _ => .inf s
  | .fin _, .inf s => .inf s
  | .inf s, .inf t => if s = t then .inf s else .nan
  | _, _ => .nan

/-- The operator `-` on numbers (also the `-` of SQL on `REAL` values, with `NULL` read as
`NaN`). -/
def JsNum.sub (a b : JsNum) : JsNum := a.add b.neg

/-! ## Strings -/

/-- Code points that `String.prototype.trim` and `parseFloat` skip: the ECMAScript
`WhiteSpace` and `LineTerminator` productions. -/
def isStrWhiteSpaceChar (c : Char) : Bool :=
  let n := c.toNat
  n = 0x09 || n = 0x0A || n = 0x0B || n = 0x0C || n = 0x0D || n = 0x20 || n = 0xA0 ||
  n = 0x1680 || (0x2000 ≤ n && n ≤ 0x200A) || n = 0x2028 || n = 0x2029 || n = 0x202F ||
  n = 0x205F || n = 0x3000 || n = 0xFEFF

/-- The method `String.prototype.trim` on the list of code points. -/
def trimChars (cs : List Char) : List Char :=
  ((cs.dropWhile isStrWhiteSpaceChar).reverse.dropWhile isStrWhiteSpaceChar).reverse

/-- The method `String.prototype.trim`. -/
def jsTrim (s : String) : String := String.mk (trimChars s.toList)

/-- The property `length` of a string: the number of UTF-16 code units. -/
def jsLength (s : String) : Nat :=
  (s.toList.map (fun c => if c.toNat < 0x10000 then 1 else 2)).sum

/-- Lower-casing of one code point.  Exact on ASCII and on the two code points outside
ASCII whose lower case contains an ASCII letter (U+212A KELVIN SIGN, U+0130); any other
code point is kept, which never produces an ASCII letter, as in JavaScript. -/
def jsToLowerChar (c : Char) : List Char :=
  if c.toNat = 0x212A then ['k']
  else if c.toNat = 0x0130 then ['i', Char.ofNat 0x0307]
  else [c.toLower]

/-- The method `String.prototype.toLowerCase` (see `jsToLowerChar`). -/
def jsToLowerCase (s : String) : String := String.mk (s.toList.flatMap jsToLowerChar)

/-- The expression `s.slice(-n)`: the last `n` code units of `s` (used on digit strings). -/
def sliceLast (n : Nat) (cs : List Char) : List Char := cs.drop (cs.length - n)

/-! ## `parseFloat` and `toFixed` -/

/-- The value of a string of decimal digits. -/
def digitsValue (ds : List Char) : Nat :=
  ds.foldl (fun acc c => 10 * acc + (c.toNat - '0'.toNat)) 0

/-- The optional `ExponentPart` of a `StrDecimalLiteral`: `e` or `E`, an optional sign and
at least one digit; anything else contributes nothing to the parsed prefix. -/
def parseExponent : List Char → Int
  | [] => 0
  | c :: r =>
    if c = 'e' || c = 'E' then
      match r with
      | '+' :: t =>
        if (t.takeWhile Char.isDigit).isEmpty then 0
        else (digitsValue (t.takeWhile Char.isDigit) : Int)
      | '-' :: t =>
        if (t.takeWhile Char.isDigit).isEmpty then 0
        else -(digitsValue (t.takeWhile Char.isDigit) : Int)
      | _ =>
        if (r.takeWhile Char.isDigit).isEmpty then 0
        else (digitsValue (r.takeWhile Char.isDigit) : Int)
    else 0

/-- The unsigned part of `parseFloat`: `Infinity`, or the exact value of the longest
prefix that is a `StrUnsignedDecimalLiteral`; `negative` is the sign already consumed. -/
def parseUnsigned (negative : Bool) (cs : List Char) : JsNum :=
  if "Infinity".toList.isPrefixOf cs then JsNum.inf negative
  else
    let ip := cs.takeWhile Char.isDigit
    let r1 := cs.dropWhile Char.isDigit
    let fp := match r1 with
      | '.' :: r => r.takeWhile Char.isDigit
      | _ => []
    let r2 := match r1 with
      | '.' :: r => r.dropWhile Char.isDigit
      | _ => r1
    if ip.isEmpty && fp.isEmpty then JsNum.nan
    else
      let mantissa : ℚ := (digitsValue ip : ℚ) + (digitsValue fp : ℚ) / (10 : ℚ) ^ fp.length
      let value : ℚ := mantissa * (10 : ℚ) ^ parseExponent r2
      JsNum.fin (if negative then -value else value)

/-- The mathematical value `parseFloat` reads from a string: leading white space is
skipped, then the longest prefix that is a decimal literal is read; `NaN` if there is
none. -/
def decimalPrefixValue (s : String) : JsNum :=
  match s.toList.dropWhile isStrWhiteSpaceChar with
  | '+' :: r => parseUnsigned false r
  | '-' :: r => parseUnsigned true r
  | cs => parseUnsigned false cs

/-- The global `parseFloat` applied to a string: the Number value of the decimal literal
it reads. -/
def parseFloatString (s : String) : JsNum := (decimalPrefixValue s).toDouble

/-- An argument of a ledger function that the code passes through `parseFloat`: a
string (as collected by a flow) or a number. -/
inductive JsValue where
  | str (s : String)
  | num (n : JsNum)
  deriving DecidableEq

/-- The global `parseFloat`.  On a number it is the identity (the number is printed and
read back). -/
def parseFloat : JsValue → JsNum
  | .str s => parseFloatString s
  | .num n => n

/-- Left-pads a digit string with zeros to at least `n` characters. -/
def padZeros (n : Nat) (cs : List Char) : List Char :=
  List.replicate (n - cs.length) '0' ++ cs

/-- Drops the trailing zeros of a digit string. -/
def stripTrailingZeros (cs : List Char) : List Char :=
  (cs.reverse.dropWhile (fun c => c = '0')).reverse

/-- The candidate with `k` significant digits for the digits of `Number::toString` of a
value `x` with `n` integer digits: an integer `s` such that `s * 10 ^ (n - k)` has the
Number value of `x`, the one nearer to `x` if both neighbours qualify, the even one at
equal distance. -/
def shortestCandidate (x : ℚ) (n k : Nat) : Option Nat :=
  let p : ℚ := (10 : ℚ) ^ (n - k)
  let lo : Nat := ⌊x / p⌋.toNat
  let okLo := decide (roundToDouble ((lo : ℚ) * p) = roundToDouble x)
  let okHi := decide (roundToDouble (((lo + 1 : Nat) : ℚ) * p) = roundToDouble x)
  if okLo && okHi then
    if x - (lo : ℚ) * p < ((lo + 1 : Nat) : ℚ) * p - x then some lo
    else if ((lo + 1 : Nat) : ℚ) * p - x < x - (lo : ℚ) * p then some (lo + 1)
    else if lo % 2 = 0 then some lo else some (lo + 1)
  else if okLo then some lo
  else if okHi then some (lo + 1)
  else none

/-- The exponent notation of `Number::toString` for a value of at least `10 ^ 21`: the
fewest significant digits that still denote the same Number value. -/
def exponentNotation (x : ℚ) : String :=
  let n := (Nat.toDigits 10 ⌊x⌋.toNat).length
  match (List.range n).findSome?
      (fun i => (shortestCandidate x n (i + 1)).map (fun s => (i + 1, s))) with
  | none => "0"
  | some (k, s) =>
    let e := if s = 10 ^ k then n else n - 1
    match stripTrailingZeros (Nat.toDigits 10 s) with
    | [] => "0"
    | [d] => String.mk ([d] ++ "e+".toList ++ Nat.toDigits 10 e)
    | d :: rest => String.mk ([d, '.'] ++ rest ++ "e+".toList ++ Nat.toDigits 10 e)

/-- The method `Number.prototype.toFixed(f)`: the value rounded to `f` fraction digits
(ties away from zero) in fixed notation.  From `10^21` on JavaScript falls back to
`Number::toString`, which is in exponent notation there. -/
def toFixed (x : JsNum) (f : Nat) : String :=
  match x with
  | .nan => "NaN"
  | .inf false => "Infinity"
  | .inf true => "-Infinity"
  | .fin q =>
    let sign := if q < 0 then "-" else ""
    if (10 : ℚ) ^ 21 ≤ |q| then sign ++ exponentNotation |q|
    else
      let n : Nat := ⌊|q| * (10 : ℚ) ^ f + 1 / 2⌋.toNat
      if f = 0 then sign ++ String.mk (Nat.toDigits 10 n)
      else
        let ds := padZeros (f + 1) (Nat.toDigits 10 n)
        sign ++ String.mk (ds.take (ds.length - f) ++ ['.'] ++ ds.drop (ds.length - f))

/-! ## The database of `server/db.js` -/

/-- A row of the table `accounts`. -/
structure Account where
  accountNumber : String
  customerName : String
  balance : JsNum
  accountType : String
  status : String
  creditLimit : JsNum
  deriving DecidableEq

/-- A row of the table `transactions`; `fromAccount` and `toAccount` are nullable. -/
structure Transaction where
  transactionId : String
  fromAccount : Option String
  toAccount : Option String
  amount : JsNum
  transactionType : String
  description : String
  status : String
  deriving DecidableEq

/-- The contents of the two ledger tables. -/
structure Tables where
  accounts : List Account
  transactions : List Transaction
  deriving DecidableEq

/-- The database connection: the current tables and, while a transaction is open, the
tables as they were at its `BEGIN TRANSACTION`. -/
structure Db where
  tables : Tables
  saved : Option Tables
  deriving DecidableEq

namespace Db

/-- The rows of `accounts`. -/
def accounts (d : Db) : List Account := d.tables.accounts

/-- The rows of `transactions`, oldest first. -/
def transactions (d : Db) : List Transaction := d.tables.transactions

/-- `BEGIN TRANSACTION`, which every call of a sequence issues with no transaction open
(`reachable_closed`).  A `BEGIN` inside a transaction that another, still pending call has
opened is outside the model: the statement fails without a callback, the driver raises
the error as an event, and the handler for uncaught exceptions in `db.js` ends the
process.  That case is written here as leaving the connection as it is; no statement on
sequential calls reaches it. -/
def beginTransaction (d : Db) : Db :=
  match d.saved with
  | none => { d with saved := some d.tables }
  | some _ => d

/-- `ROLLBACK`: back to the tables saved at `BEGIN`; fails silently without a transaction. -/
def rollback (d : Db) : Db :=
  match d.saved with
  | some t => { tables := t, saved := none }
  | none => d

/-- `COMMIT`: the open transaction, if any, is closed and its changes kept. -/
def commit (d : Db) : Db := { d with saved := none }

/-- `SELECT ... FROM accounts WHERE account_number = ? AND status = "active"` through
`db.get`: the first matching row. -/
def selectActive (d : Db) (accountNumber : String) : Option Account :=
  d.accounts.find? (fun a => a.accountNumber = accountNumber && a.status = "active")

/-- `SELECT balance FROM accounts WHERE account_number = ?` through `db.get`. -/
def selectByNumber (d : Db) (accountNumber : String) : Option Account :=
  d.accounts.find? (fun a => a.accountNumber = accountNumber)

/-- The effect of `UPDATE accounts SET balance = <f balance> WHERE account_number = ?`
on one row. -/
def updateRow (accountNumber : String) (f : JsNum → JsNum) (a : Account) : Account :=
  if a.accountNumber = accountNumber then { a with balance := f a.balance } else a

/-- `UPDATE accounts SET balance = <f balance> WHERE account_number = ?`. -/
def updateBalance (d : Db) (accountNumber : String) (f : JsNum → JsNum) : Db :=
  { d with tables := { d.tables with accounts := d.accounts.map (updateRow accountNumber f) } }

/-- Whether a nullable foreign key `REFERENCES accounts (account_number)` is satisfied
(`PRAGMA foreign_keys = ON`). -/
def referencesAccount (d : Db) : Option String → Bool
  | none => true
  | some n => d.accounts.any (fun a => a.accountNumber = n)

/-- `INSERT INTO transactions ...`: rejected when `amount` is `NULL` (the column is
`NOT NULL`, and a bound `NaN` is stored as `NULL`), when `transaction_id` is already
present (`UNIQUE`), or when an account reference names no account. -/
def insertTransaction (d : Db) (t : Transaction) : Except String Db :=
  if t.amount.isNaN then
    .error "SQLITE_CONSTRAINT: NOT NULL constraint failed: transactions.amount"
  else if d.transactions.any (fun u => u.transactionId = t.transactionId) then
    .error "SQLITE_CONSTRAINT: UNIQUE constraint failed: transactions.transaction_id"
  else if !(d.referencesAccount t.fromAccount && d.referencesAccount t.toAccount) then
    .error "SQLITE_CONSTRAINT: FOREIGN KEY constraint failed"
  else
    .ok { d with tables := { d.tables with transactions := d.transactions ++ [t] } }

/-- `INSERT INTO accounts ...`: rejected when `account_number` is already present
(`UNIQUE`). -/
def insertAccount (d : Db) (a : Account) : Except String Db :=
  if d.accounts.any (fun b => b.accountNumber = a.accountNumber) then
    .error "SQLITE_CONSTRAINT: UNIQUE constraint failed: accounts.account_number"
  else
    .ok { d with tables := { d.tables with accounts := d.accounts ++ [a] } }

end Db

/-- The sample accounts inserted by `db.js` into an empty `accounts` table. -/
def sampleAccounts : List Account :=
  [ { accountNumber := "ACC001", customerName := "John Doe", balance := .fin 5000,
      accountType := "savings", status := "active", creditLimit := .fin 10000 },
    { accountNumber := "ACC002", customerName := "Jane Smith", balance := .fin 3500,
      accountType := "checking", status := "active", creditLimit := .fin 5000 },
    { accountNumber := "ACC003", customerName := "Bob Johnson", balance := .fin 1200,
      accountType := "savings", status := "active", creditLimit := .fin 2000 },
    { accountNumber := "ACC004", customerName := "Alice Brown", balance := .fin 7500,
      accountType := "checking", status := "active", creditLimit := .fin 8000 },
    { accountNumber := "ACC005", customerName := "Charlie Wilson", balance := .fin 2800,
      accountType := "business", status := "active", creditLimit := .fin 15000 } ]

/-- The database with both tables empty. -/
def emptyDb : Db := { tables := { accounts := [], transactions := [] }, saved := none }

/-- The database after `db.js` has run on a fresh file: the five sample accounts. -/
def seededDb : Db := { tables := { accounts := sampleAccounts, transactions := [] }, saved := none }

/-! ## Ledger operations -/

/-- The object a ledger promise is rejected with. -/
structure LedgerError where
  error : String
  details : Option String
  available : Option String
  requested : Option String
  deriving DecidableEq

/-- The rejection `{ error: msg }`. -/
def LedgerError.ofMessage (msg : String) : LedgerError :=
  { error := msg, details := none, available := none, requested := none }

/-- How a promise settles; `thrown` stands for an exception raised inside a database
callback, which leaves the promise pending. -/
inductive Outcome (α : Type) where
  | resolved (value : α)
  | rejected (error : LedgerError)
  | thrown
  deriving DecidableEq

/-- Whether the promise was resolved. -/
def Outcome.isResolved {α : Type} : Outcome α → Bool
  | .resolved _ => true
  | _ => false

/-- The payload `withdrawFunds` resolves with. -/
structure WithdrawResult where
  success : Bool
  transactionId : String
  accountNumber : String
  amount : String
  description : String
  timestamp : String
  deriving DecidableEq

/-- The `err` arguments received by the callbacks of `withdrawFunds`, in statement order. -/
structure WithdrawErrs where
  select : Option String
  update : Option String
  insert : Option String
  deriving DecidableEq

/-- The function `withdrawFunds` of `server.js` and `buisness_logic/withdraw.js`.
`transactionId` is the value of `uuidv4()`, `timestamp` that of `toISOString()`. -/
def withdrawFunds (errs : WithdrawErrs) (transactionId timestamp : String) (d : Db)
    (accountNumber : String) (amount : JsValue) (description : String) :
    Db × Outcome WithdrawResult :=
  let withdrawAmount := parseFloat amount
  if withdrawAmount.le (.fin 0) then
    (d, .rejected (.ofMessage "Withdrawal amount must be greater than zero"))
  else
    let d1 := d.beginTransaction
    match errs.select, d1.selectActive accountNumber with
    | some _, _ => (d1.rollback, .rejected (.ofMessage "Account not found or inactive"))
    | none, none => (d1.rollback, .rejected (.ofMessage "Account not found or inactive"))
    | none, some account =>
      let availableBalance :=
        (parseFloat (.num account.balance)).add (parseFloat (.num account.creditLimit))
      if withdrawAmount.gt availableBalance then
        (d1.rollback, .rejected
          { error := "Insufficient funds for withdrawal", details := none,
            available := some (toFixed availableBalance 2),
            requested := some (toFixed withdrawAmount 2) })
      else
        match errs.update with
        | some _ => (d1.rollback, .rejected (.ofMessage "Failed to process withdrawal"))
        | none =>
          let d2 := d1.updateBalance accountNumber (fun b => b.sub withdrawAmount)
          match errs.insert, d2.insertTransaction
              { transactionId := transactionId, fromAccount := some accountNumber,
                toAccount := none, amount := withdrawAmount,
                transactionType := "withdrawal", description := description,
                status := "completed" } with
          | some _, _ => (d2.rollback, .rejected (.ofMessage "Failed to record transaction"))
          | none, .error _ =>
            (d2.rollback, .rejected (.ofMessage "Failed to record transaction"))
          | none, .ok d3 =>
            (d3.commit, .resolved
              { success := true, transactionId := transactionId,
                accountNumber := accountNumber, amount := toFixed withdrawAmount 2,
                description := description, timestamp := timestamp })

/-- The payload `transferFunds` resolves with. -/
structure TransferResult where
  success : Bool
  transactionId : String
  fromAccount : String
  toAccount : String
  amount : String
  description : String
  timestamp : String
  deriving DecidableEq

/-- The `err` arguments received by the callbacks of `transferFunds`, in statement order. -/
structure TransferErrs where
  selectSource : Option String
  selectDest : Option String
  debit : Option String
  credit : Option String
  insert : Option String
  deriving DecidableEq

/-- The function `transferFunds` of `server.js` and `buisness_logic/fund_transfer.js`. -/
def transferFunds (errs : TransferErrs) (transactionId timestamp : String) (d : Db)
    (fromAccount toAccount : String) (amount : JsValue) (description : String) :
    Db × Outcome TransferResult :=
  let transferAmount := parseFloat amount
  if transferAmount.le (.fin 0) then
    (d, .rejected (.ofMessage "Transfer amount must be greater than zero"))
  else if fromAccount = toAccount then
    (d, .rejected (.ofMessage "Cannot transfer to the same account"))
  else
    let d1 := d.beginTransaction
    match errs.selectSource, d1.selectActive fromAccount with
    | some _, _ => (d1.rollback, .rejected (.ofMessage "Source account not found or inactive"))
    | none, none => (d1.rollback, .rejected (.ofMessage "Source account not found or inactive"))
    | none, some sourceAccount =>
      let availableBalance :=
        (parseFloat (.num sourceAccount.balance)).add (parseFloat (.num sourceAccount.creditLimit))
      if transferAmount.gt availableBalance then
        (d1.rollback, .rejected
          { error := "Insufficient funds", details := none,
            available := some (toFixed availableBalance 2),
            requested := some (toFixed transferAmount 2) })
      else
        match errs.selectDest, d1.selectActive toAccount with
        | some _, _ =>
          (d1.rollback, .rejected (.ofMessage "Destination account not found or inactive"))
        | none, none =>
          (d1.rollback, .rejected (.ofMessage "Destination account not found or inactive"))
        | none, some _ =>
          match errs.debit with
          | some _ => (d1.rollback, .rejected (.ofMessage "Failed to debit source account"))
          | none =>
            let d2 := d1.updateBalance fromAccount (fun b => b.sub transferAmount)
            match errs.credit with
            | some _ =>
              (d2.rollback, .rejected (.ofMessage "Failed to credit destination account"))
            | none =>
              let d3 := d2.updateBalance toAccount (fun b => b.add transferAmount)
              match errs.insert, d3.insertTransaction
                  { transactionId := transactionId, fromAccount := some fromAccount,
                    toAccount := some toAccount, amount := transferAmount,
                    transactionType := "transfer", description := description,
                    status := "completed" } with
              | some _, _ =>
                (d3.rollback, .rejected (.ofMessage "Failed to record transaction"))
              | none, .error _ =>
                (d3.rollback, .rejected (.ofMessage "Failed to record transaction"))
              | none, .ok d4 =>
                (d4.commit, .resolved
                  { success := true, transactionId := transactionId,
                    fromAccount := fromAccount, toAccount := toAccount,
                    amount := toFixed transferAmount 2, description := description,
                    timestamp := timestamp })

/-- The payload `depositFunds` resolves with. -/
structure DepositResult where
  success : Bool
  transactionId : String
  accountNumber : String
  amount : String
  newBalance : String
  description : String
  timestamp : String
  deriving DecidableEq

/-- The `err` arguments received by the callbacks of `depositFunds`, in statement order. -/
structure DepositErrs where
  select : Option String
  update : Option String
  insert : Option String
  readBack : Option String
  deriving DecidableEq

/-- The function `depositFunds` of `server.js`.  Reading `balance` of a missing read-back
row raises a `TypeError` in the callback: the promise stays pending and the open
transaction is never committed. -/
def depositFunds (errs : DepositErrs) (transactionId timestamp : String) (d : Db)
    (accountNumber : String) (amount : JsValue) (description : String) :
    Db × Outcome DepositResult :=
  let depositAmount := parseFloat amount
  if depositAmount.le (.fin 0) then
    (d, .rejected (.ofMessage "Deposit amount must be greater than zero"))
  else
    let d1 := d.beginTransaction
    match errs.select, d1.selectActive accountNumber with
    | some _, _ => (d1.rollback, .rejected (.ofMessage "Account not found or inactive"))
    | none, none => (d1.rollback, .rejected (.ofMessage "Account not found or inactive"))
    | none, some _ =>
      match errs.update with
      | some _ => (d1.rollback, .rejected (.ofMessage "Failed to process deposit"))
      | none =>
        let d2 := d1.updateBalance accountNumber (fun b => b.add depositAmount)
        match errs.insert, d2.insertTransaction
            { transactionId := transactionId, fromAccount := none,
              toAccount := some accountNumber, amount := depositAmount,
              transactionType := "deposit", description := description,
              status := "completed" } with
        | some _, _ => (d2.rollback, .rejected (.ofMessage "Failed to record transaction"))
        | none, .error _ => (d2.rollback, .rejected (.ofMessage "Failed to record transaction"))
        | none, .ok d3 =>
          match errs.readBack, d3.selectByNumber accountNumber with
          | some _, _ => (d3.rollback, .rejected (.ofMessage "Failed to get updated balance"))
          | none, none => (d3.rollback, .thrown)
          | none, some updatedAccount =>
            (d3.commit, .resolved
              { success := true, transactionId := transactionId,
                accountNumber := accountNumber, amount := toFixed depositAmount 2,
                newBalance := toFixed (parseFloat (.num updatedAccount.balance)) 2,
                description := description, timestamp := timestamp })

/-- The payload `createAccount` resolves with. -/
structure CreateAccountResult where
  success : Bool
  accountNumber : String
  customerName : String
  accountType : String
  initialBalance : String
  creditLimit : String
  deriving DecidableEq

/-- The array `validAccountTypes`. -/
def validAccountTypes : List String := ["savings", "checking", "business"]

/-- The function `createAccount` of `server.js` and `buisness_logic/create_account.js`;
`now` is the value of `Date.now()` and `err` the `err` argument of the `INSERT` callback.
All three arguments are given (the defaults `'savings'` and `0` stand for omitted ones),
and the two names are strings.  The inserted row takes `status` from the column default. -/
def createAccount (err : Option String) (now : Nat) (d : Db)
    (customerName accountType : String) (initialDeposit : JsValue) :
    Db × Outcome CreateAccountResult :=
  let accountNumber := "ACC" ++ String.mk (sliceLast 6 (Nat.toDigits 10 now))
  let deposit := parseFloat initialDeposit
  if deposit.lt (.fin 0) then
    (d, .rejected (.ofMessage "Initial deposit cannot be negative"))
  else if customerName = "" || jsLength (jsTrim customerName) < 2 then
    (d, .rejected (.ofMessage "Valid customer name is required"))
  else if !validAccountTypes.contains (jsToLowerCase accountType) then
    (d, .rejected (.ofMessage "Invalid account type. Must be savings, checking, or business"))
  else
    let creditLimit : JsNum :=
      if jsToLowerCase accountType = "checking" then .fin 1000 else .fin 0
    match err, d.insertAccount
        { accountNumber := accountNumber, customerName := jsTrim customerName,
          balance := deposit, accountType := jsToLowerCase accountType,
          status := "active", creditLimit := creditLimit } with
    | some m, _ =>
      (d, .rejected { error := "Failed to create account", details := some m,
                      available := none, requested := none })
    | none, .error m =>
      (d, .rejected { error := "Failed to create account", details := some m,
                      available := none, requested := none })
    | none, .ok d1 =>
      (d1, .resolved
        { success := true, accountNumber := accountNumber,
          customerName := jsTrim customerName, accountType := jsToLowerCase accountType,
          initialBalance := toFixed deposit 2, creditLimit := toFixed creditLimit 2 })

/-- The payload `checkBalance` resolves with. -/
structure BalanceResult where
  success : Bool
  account : String
  customer : String
  balance : String
  accountType : String
  deriving DecidableEq

/-- The function `checkBalance` of `server.js` and `buisness_logic/balance_check.js`: one
`SELECT`, so the database is returned as it was received. -/
def checkBalance (err : Option String) (d : Db) (accountNumber : String) :
    Db × Outcome BalanceResult :=
  match err with
  | some m =>
    (d, .rejected { error := "Database error occurred", details := some m,
                    available := none, requested := none })
  | none =>
    match d.selectActive accountNumber with
    | none => (d, .rejected (.ofMessage "Account not found or inactive"))
    | some row =>
      (d, .resolved
        { success := true, account := row.accountNumber, customer := row.customerName,
          balance := toFixed (parseFloat (.num row.balance)) 2,
          accountType := row.accountType })

/-! ## Auxiliary definitions for the statements -/

/-- The `err` arguments of a withdrawal without storage failure. -/
def WithdrawErrs.none : WithdrawErrs := { select := .none, update := .none, insert := .none }

/-- The `err` arguments of a transfer without storage failure. -/
def TransferErrs.none : TransferErrs :=
  { selectSource := .none, selectDest := .none, debit := .none, credit := .none,
    insert := .none }

/-- The `err` arguments of a deposit without storage failure. -/
def DepositErrs.none : DepositErrs :=
  { select := .none, update := .none, insert := .none, readBack := .none }

/-- The transaction row written by a withdrawal. -/
def withdrawalRecord (transactionId accountNumber : String) (amount : JsNum)
    (description : String) : Transaction :=
  { transactionId := transactionId, fromAccount := some accountNumber, toAccount := none,
    amount := amount, transactionType := "withdrawal", description := description,
    status := "completed" }

/-- The transaction row written by a transfer. -/
def transferRecord (transactionId fromAccount toAccount : String) (amount : JsNum)
    (description : String) : Transaction :=
  { transactionId := transactionId, fromAccount := some fromAccount,
    toAccount := some toAccount, amount := amount, transactionType := "transfer",
    description := description, status := "completed" }

/-- The transaction row written by a deposit. -/
def depositRecord (transactionId accountNumber : String) (amount : JsNum)
    (description : String) : Transaction :=
  { transactionId := transactionId, fromAccount := none, toAccount := some accountNumber,
    amount := amount, transactionType := "deposit", description := description,
    status := "completed" }

/-- The constraint `account_number TEXT UNIQUE` of the table `accounts`. -/
def Db.UniqueAccountNumbers (d : Db) : Prop := (d.accounts.map (fun a => a.accountNumber)).Nodup

instance (d : Db) : Decidable d.UniqueAccountNumbers :=
  inferInstanceAs (Decidable (d.accounts.map (fun a : Account => a.accountNumber)).Nodup)

/-- An active savings account with the given number, balance and credit limit. -/
def plainAccount (accountNumber : String) (balance creditLimit : ℚ) : Account :=
  { accountNumber := accountNumber, customerName := "Test Customer", balance := .fin balance,
    accountType := "savings", status := "active", creditLimit := .fin creditLimit }

/-- The database holding the given accounts and no transaction. -/
def dbOf (accounts : List Account) : Db :=
  { tables := { accounts := accounts, transactions := [] }, saved := none }

/-- The invariant of the specification on one account: `balance >= -creditLimit`. -/
def Account.withinCreditLimit (a : Account) : Bool := a.balance.ge a.creditLimit.neg

/-- Whether every account of the database satisfies `balance >= -creditLimit`. -/
def Db.withinCreditLimits (d : Db) : Bool := d.accounts.all Account.withinCreditLimit

/-- The account number `createAccount` generates at time `now`. -/
def generatedAccountNumber (now : Nat) : String :=
  "ACC" ++ String.mk (sliceLast 6 (Nat.toDigits 10 now))

/-- The row `createAccount` inserts. -/
def createdAccount (now : Nat) (customerName accountType : String) (initialDeposit : JsValue) :
    Account :=
  { accountNumber := generatedAccountNumber now, customerName := jsTrim customerName,
    balance := parseFloat initialDeposit, accountType := jsToLowerCase accountType,
    status := "active",
    creditLimit := if jsToLowerCase accountType = "checking" then .fin 1000 else .fin 0 }

/-- One call of a mutating ledger function, with everything it reads from its
environment. -/
inductive LedgerCall where
  | createAccount (err : Option String) (now : Nat) (customerName accountType : String)
      (initialDeposit : JsValue)
  | deposit (errs : DepositErrs) (transactionId timestamp accountNumber : String)
      (amount : JsValue) (description : String)
  | withdraw (errs : WithdrawErrs) (transactionId timestamp accountNumber : String)
      (amount : JsValue) (description : String)
  | transfer (errs : TransferErrs) (transactionId timestamp fromAccount toAccount : String)
      (amount : JsValue) (description : String)

/-- The database after one call has run to its end. -/
def LedgerCall.run (d : Db) : LedgerCall → Db
  | .createAccount err now customerName accountType initialDeposit =>
    (Bankbot.createAccount err now d customerName accountType initialDeposit).1
  | .deposit errs transactionId timestamp accountNumber amount description =>
    (depositFunds errs transactionId timestamp d accountNumber amount description).1
  | .withdraw errs transactionId timestamp accountNumber amount description =>
    (withdrawFunds errs transactionId timestamp d accountNumber amount description).1
  | .transfer errs transactionId timestamp fromAccount toAccount amount description =>
    (transferFunds errs transactionId timestamp d fromAccount toAccount amount description).1

/-- The database after a sequence of calls, each run after the previous one has ended. -/
def runCalls (d : Db) (calls : List LedgerCall) : Db := calls.foldl LedgerCall.run d

/-- The states reachable by sequentially executed calls from the empty or the seeded
database. -/
def Reachable (d : Db) : Prop :=
  ∃ calls : List LedgerCall, d = runCalls emptyDb calls ∨ d = runCalls seededDb calls

/-! ## More string methods -/

/-- Upper-casing of one code point.  Exact on ASCII and on the code points outside ASCII
whose upper case contains an ASCII letter; any other code point is kept, which never
produces an ASCII letter, as in JavaScript. -/
def jsToUpperChar (c : Char) : List Char :=
  let n := c.toNat
  if n = 0x00DF then ['S', 'S']
  else if n = 0x0131 then ['I']
  else if n = 0x017F then ['S']
  else if n = 0x0149 then [Char.ofNat 0x02BC, 'N']
  else if n = 0x01F0 then ['J', Char.ofNat 0x030C]
  else if n = 0x1E96 then ['H', Char.ofNat 0x0331]
  else if n = 0x1E97 then ['T', Char.ofNat 0x0308]
  else if n = 0x1E98 then ['W', Char.ofNat 0x030A]
  else if n = 0x1E99 then ['Y', Char.ofNat 0x030A]
  else if n = 0x1E9A then ['A', Char.ofNat 0x02BE]
  else if n = 0xFB00 then ['F', 'F']
  else if n = 0xFB01 then ['F', 'I']
  else if n = 0xFB02 then ['F', 'L']
  else if n = 0xFB03 then ['F', 'F', 'I']
  else if n = 0xFB04 then ['F', 'F', 'L']
  else if n = 0xFB05 then ['S', 'T']
  else if n = 0xFB06 then ['S', 'T']
  else [c.toUpper]

/-- The method `String.prototype.toUpperCase` (see `jsToUpperChar`). -/
def jsToUpperCase (s : String) : String := String.mk (s.toList.flatMap jsToUpperChar)

/-- Whether `pat` occurs in the list of characters. -/
def includesChars (pat : List Char) : List Char → Bool
  | [] => pat.isEmpty
  | c :: cs => pat.isPrefixOf (c :: cs) || includesChars pat cs

/-- The method `String.prototype.includes`. -/
def jsIncludes (s pat : String) : Bool := includesChars pat.toList s.toList

/-! ## Regular expressions -/

/-- The constructs of the regular expressions `/^ACC\d{3,}$/i` and `/ACC\d{3,}/i`. -/
inductive Regex where
  | inputStart
  | inputEnd
  | letter (c : Char)
  | digits (atLeast : Nat)
  | seq (r s : Regex)

namespace Regex

/-- Whether an input character matches the ASCII pattern character `p` under the flag
`i`: both are canonicalized by upper-casing, and a character outside ASCII never
canonicalizes to an ASCII one. -/
def letterMatches (p c : Char) : Bool := decide (c.toNat < 128) && c.toUpper = p.toUpper

/-- The backtracking matcher: all ways of matching `r` at a position with `before`
characters in front of it and `cs` from it on, each given by the input left over, in the
order the matcher tries them (`\d{n,}` is greedy).  `^` and `$` are without the flag `m`:
they hold at the start and at the end of the input only. -/
def run : Regex → Nat → List Char → List (List Char)
  | inputStart, before, cs => if before = 0 then [cs] else []
  | inputEnd, _, cs => if cs.isEmpty then [cs] else []
  | letter _, _, [] => []
  | letter p, _, c :: cs => if letterMatches p c then [cs] else []
  | digits atLeast, _, cs =>
    let k := (cs.takeWhile Char.isDigit).length
    (List.range (k + 1 - atLeast)).map (fun i => cs.drop (k - i))
  | seq r s, before, cs =>
    (run r before cs).flatMap (fun rest => run s (before + (cs.length - rest.length)) rest)

/-- The method `RegExp.prototype.test`: whether the expression matches at some position. -/
def test (r : Regex) (input : String) : Bool :=
  (List.range (input.length + 1)).any
    (fun i => !(r.run i (input.toList.drop i)).isEmpty)

/-- The first match from the given position on: the text matched by the first way the
matcher finds at the leftmost position that has one.  `fuel` bounds the positions left. -/
def firstMatchFrom (r : Regex) : Nat → Nat → List Char → Option String
  | 0, _, _ => none
  | fuel + 1, before, cs =>
    match r.run before cs with
    | rest :: _ => some (String.mk (cs.take (cs.length - rest.length)))
    | [] =>
      match cs with
      | [] => none
      | _ :: tail => firstMatchFrom r fuel (before + 1) tail

/-- The value `input.match(r)[0]` for an expression without the flag `g`, `none` when
`match` returns `null`. -/
def firstMatch (r : Regex) (input : String) : Option String :=
  firstMatchFrom r (input.length + 1) 0 input.toList

end Regex

/-- The expression `/^ACC\d{3,}$/i` of the account steps. -/
def accountNumberPattern : Regex :=
  .seq .inputStart (.seq (.letter 'A') (.seq (.letter 'C') (.seq (.letter 'C')
    (.seq (.digits 3) .inputEnd))))

/-- The expression `/ACC\d{3,}/i` of the balance and history inquiries. -/
def accountNumberSearch : Regex :=
  .seq (.letter 'A') (.seq (.letter 'C') (.seq (.letter 'C') (.digits 3)))

/-! ## The conversation flows of `server.js` -/

/-- One step of a flow: field name, prompt, validation predicate and error message. -/
structure FlowStep where
  step : String
  prompt : String
  validation : String → Bool
  errorMessage : String

/-- The array `accountCreationFlow`. -/
def accountCreationFlow : List FlowStep :=
  [ { step := "name",
      prompt := "What is your full name?",
      validation := fun input => decide (jsLength (jsTrim input) ≥ 2),
      errorMessage := "Please enter a valid name (at least 2 characters)." },
    { step := "accountType",
      prompt := "What type of account would you like to create?\u00e2\u20ac\u00a2 Savings\n\u00e2\u20ac\u00a2 Checking\n\u00e2\u20ac\u00a2 Business\n\nPlease type your choice:",
      validation := fun input =>
        ["savings", "checking", "business"].contains (jsToLowerCase input),
      errorMessage := "Please choose from: Savings, Checking, or Business." },
    { step := "initialDeposit",
      prompt := "How much would you like to deposit initially? (Enter amount in dollars, minimum $0):",
      validation := fun input =>
        !(parseFloat (.str input)).isNaN && (parseFloat (.str input)).ge (.fin 0),
      errorMessage := "Please enter a valid amount (numbers only, minimum $0)." } ]

/-- The array `transferFlow`. -/
def transferFlow : List FlowStep :=
  [ { step := "fromAccount",
      prompt := "Which account would you like to transfer FROM? (Enter account number like ACC001):",
      validation := fun input => accountNumberPattern.test input,
      errorMessage := "Please enter a valid account number (format: ACC001)." },
    { step := "toAccount",
      prompt := "Which account would you like to transfer TO? (Enter account number like ACC002):",
      validation := fun input => accountNumberPattern.test input,
      errorMessage := "Please enter a valid account number (format: ACC002)." },
    { step := "amount",
      prompt := "How much would you like to transfer? (Enter amount in dollars):",
      validation := fun input =>
        !(parseFloat (.str input)).isNaN && (parseFloat (.str input)).gt (.fin 0),
      errorMessage := "Please enter a valid amount greater than $0." } ]

/-- The array `withdrawalFlow`. -/
def withdrawalFlow : List FlowStep :=
  [ { step := "account",
      prompt := "Which account would you like to withdraw from? (Enter account number like ACC001):",
      validation := fun input => accountNumberPattern.test input,
      errorMessage := "Please enter a valid account number (format: ACC001)." },
    { step := "amount",
      prompt := "How much would you like to withdraw? (Enter amount in dollars):",
      validation := fun input =>
        !(parseFloat (.str input)).isNaN && (parseFloat (.str input)).gt (.fin 0),
      errorMessage := "Please enter a valid amount greater than $0." } ]

/-- The array `depositFlow`. -/
def depositFlow : List FlowStep :=
  [ { step := "account",
      prompt := "Which account would you like to deposit to? (Enter account number like ACC001):",
      validation := fun input => accountNumberPattern.test input,
      errorMessage := "Please enter a valid account number (format: ACC001)." },
    { step := "amount",
      prompt := "How much would you like to deposit? (Enter amount in dollars):",
      validation := fun input =>
        !(parseFloat (.str input)).isNaN && (parseFloat (.str input)).gt (.fin 0),
      errorMessage := "Please enter a valid amount greater than $0." } ]
/-! ## Sessions and replies -/

/-- The per-session object kept in `sessionStates`; `data` is the object of collected
fields, as the list of its properties. -/
structure SessionState where
  currentFlow : Option String
  currentStep : Nat
  data : List (String × String)
  waitingFor : Option String
  deriving DecidableEq

/-- The map `sessionStates`. -/
def SessionStore := String → Option SessionState

/-- The call `sessionStates.set(sessionId, state)`. -/
def SessionStore.set (s : SessionStore) (sessionId : String) (state : SessionState) :
    SessionStore :=
  fun k => if k = sessionId then some state else s k

/-- The call `sessionStates.delete(sessionId)`. -/
def SessionStore.delete (s : SessionStore) (sessionId : String) : SessionStore :=
  fun k => if k = sessionId then none else s k

/-- The map without entries. -/
def SessionStore.empty : SessionStore := fun _ => none

/-- Truthiness of a value that is `null` or a string. -/
def truthy : Option String → Bool
  | none => false
  | some s => s != ""

/-- The property read `data[key]`, `none` for `undefined`. -/
def getField (data : List (String × String)) (key : String) : Option String :=
  (data.find? (fun p => p.1 = key)).map (fun p => p.2)

/-- The property write `data[key] = value`. -/
def setField (data : List (String × String)) (key value : String) : List (String × String) :=
  if data.any (fun p => p.1 = key) then
    data.map (fun p => if p.1 = key then (key, value) else p)
  else data ++ [(key, value)]

/-- The function `initializeSessionState`: the store, with a fresh entry added when the
session had none, and the session's state. -/
def initializeSessionState (sessionStates : SessionStore) (sessionId : String) :
    SessionStore × SessionState :=
  match sessionStates sessionId with
  | some state => (sessionStates, state)
  | none =>
    (sessionStates.set sessionId
        { currentFlow := none, currentStep := 0, data := [], waitingFor := none },
      { currentFlow := none, currentStep := 0, data := [], waitingFor := none })

/-- The database and the session map. -/
structure World where
  db : Db
  sessionStates : SessionStore

/-- One row of the payload of `getTransactionHistory`. -/
structure HistoryRow where
  transactionId : String
  fromAccount : Option String
  toAccount : Option String
  amount : String
  type : String
  description : String
  status : String
  timestamp : String
  direction : String
  deriving DecidableEq

/-- The payload `getTransactionHistory` resolves with. -/
structure HistoryResult where
  success : Bool
  accountNumber : String
  transactions : List HistoryRow
  count : Nat
  deriving DecidableEq

/-- What a bot reply carries in `data`. -/
inductive Payload where
  | account (r : CreateAccountResult)
  | transfer (r : TransferResult)
  | withdrawal (r : WithdrawResult)
  | deposit (r : DepositResult)
  | balance (r : BalanceResult)
  | history (r : HistoryResult)
  deriving DecidableEq

/-- What a `catch` block receives: the object a ledger promise was rejected with, or a
`TypeError` raised by a method call on `undefined`. -/
inductive Thrown where
  | ledger (e : LedgerError)
  | typeError
  deriving DecidableEq

/-- The expression `error.error || 'An unexpected error occurred'`. -/
def Thrown.message : Thrown → String
  | .ledger e => if e.error = "" then "An unexpected error occurred" else e.error
  | .typeError => "An unexpected error occurred"

/-- The object `getBankingBotResponse` returns. -/
structure BotResponse where
  text : String
  type : String
  data : Option Payload
  error : Option Thrown
  deriving DecidableEq

/-- How an `async` function of the flow engine ends: with a reply, with `undefined`, or
never (`pending`, when the awaited ledger promise stays pending). -/
inductive Reply where
  | response (r : BotResponse)
  | undefined
  | pending
  deriving DecidableEq

/-- What the flow engine reads from its environment: the clock, the id generator, the
locale formatting of dates, the `err` arguments of the database callbacks, and the answer
of the history query, whose `ORDER BY timestamp` is over a column the table model leaves
out (each row comes with its `timestamp`). -/
structure Env where
  now : Nat
  transactionId : String
  timestamp : String
  toLocaleString : String → String
  toLocaleDateString : String → String
  createErr : Option String
  transferErrs : TransferErrs
  withdrawErrs : WithdrawErrs
  depositErrs : DepositErrs
  balanceErr : Option String
  historyErr : Option String
  historyRows : List (Transaction × String)

/-- The reply built by both `catch` blocks. -/
def errorResponse (error : Thrown) : BotResponse :=
  { text := "\u00e2\u0152 Error: " ++ error.message ++
            ". Please try again or contact customer service at 1-800-BANK-HELP.",
    type := "error", data := none, error := some error }

/-- The function `getTransactionHistory`, on the answer of its query. -/
def getTransactionHistory (err : Option String) (rows : List (Transaction × String))
    (accountNumber : String) : Outcome HistoryResult :=
  match err with
  | some m =>
    .rejected { error := "Failed to fetch transaction history", details := some m,
                available := none, requested := none }
  | none =>
    .resolved
      { success := true, accountNumber := accountNumber,
        transactions := rows.map (fun row =>
          { transactionId := row.1.transactionId, fromAccount := row.1.fromAccount,
            toAccount := row.1.toAccount,
            amount := toFixed (parseFloat (.num row.1.amount)) 2,
            type := row.1.transactionType, description := row.1.description,
            status := row.1.status, timestamp := row.2,
            direction := if row.1.fromAccount = some accountNumber then "debit" else "credit" }),
        count := rows.length }

/-- The text the `forEach` over the history rows appends, from position `index` on. -/
def historyLines (env : Env) : Nat → List HistoryRow → String
  | _, [] => ""
  | index, txn :: rest =>
    Nat.repr (index + 1) ++ ". " ++ jsToUpperCase txn.type ++ " - $" ++ txn.amount ++ " (" ++
      jsToUpperCase txn.direction ++ ")\n" ++
      "   " ++ txn.description ++ " - " ++ env.toLocaleDateString txn.timestamp ++ "\n\n" ++
      historyLines env (index + 1) rest

/-- `createAccount` called with a name and a type that may be `undefined`: an undefined
type takes the default `'savings'`, an undefined name fails the name check. -/
def createAccountArgs (err : Option String) (now : Nat) (d : Db)
    (customerName accountType : Option String) (initialDeposit : JsValue) :
    Db × Outcome CreateAccountResult :=
  match customerName with
  | some name => createAccount err now d name (accountType.getD "savings") initialDeposit
  | none =>
    if (parseFloat initialDeposit).lt (.fin 0) then
      (d, .rejected (.ofMessage "Initial deposit cannot be negative"))
    else (d, .rejected (.ofMessage "Valid customer name is required"))

/-- The argument `data.amount` as the ledger parses it: `parseFloat(undefined)` is `NaN`. -/
def amountArg (data : List (String × String)) : JsValue :=
  match getField data "amount" with
  | some a => .str a
  | none => .num .nan

/-- The function `executeFlowAction`.  Both the success path and the `catch` block
delete the session; an unknown `flowType` falls out of the `switch` and the function
returns `undefined`. -/
def executeFlowAction (env : Env) (w : World) (sessionId flowType : String)
    (data : List (String × String)) : World × Reply :=
  if flowType = "account_creation" then
    match createAccountArgs env.createErr env.now w.db (getField data "name")
        (getField data "accountType")
        (.num (parseFloat (match getField data "initialDeposit" with
          | some s => .str s
          | none => .num .nan))) with
    | (db, .resolved r) =>
      ({ db := db, sessionStates := w.sessionStates.delete sessionId },
        .response
          { text := "\u00f0\u0178\u017d\u2030 Account Created Successfully!\n\n\u00f0\u0178\u201c\u2039 Account Details:\n\u00e2\u20ac\u00a2 Account Number: " ++
                    r.accountNumber ++ "\n\u00e2\u20ac\u00a2 Customer Name: " ++ r.customerName ++
                    "\n\u00e2\u20ac\u00a2 Account Type: " ++ r.accountType ++
                    "\n\u00e2\u20ac\u00a2 Initial Balance: $" ++ r.initialBalance ++
                    "\n\u00e2\u20ac\u00a2 Credit Limit: $" ++ r.creditLimit ++
                    "\n\nYour account is now active and ready to use! Is there anything else I can help you with?",
            type := "account_creation_success", data := some (.account r), error := none })
    | (db, .rejected e) =>
      ({ db := db, sessionStates := w.sessionStates.delete sessionId },
        .response (errorResponse (.ledger e)))
    | (db, .thrown) => ({ db := db, sessionStates := w.sessionStates }, .pending)
  else if flowType = "transfer" then
    match getField data "fromAccount", getField data "toAccount" with
    | some fromAccount, some toAccount =>
      match transferFunds env.transferErrs env.transactionId env.timestamp w.db
          (jsToUpperCase fromAccount) (jsToUpperCase toAccount) (amountArg data)
          "Fund Transfer" with
      | (db, .resolved r) =>
        ({ db := db, sessionStates := w.sessionStates.delete sessionId },
          .response
            { text := "\u00e2\u0153\u2026 Transfer Completed Successfully!\n\n\u00f0\u0178\u201c\u2039 Transaction Details:\n\u00e2\u20ac\u00a2 Transaction ID: " ++
                      r.transactionId ++ "\n\u00e2\u20ac\u00a2 Amount: $" ++ r.amount ++
                      "\n\u00e2\u20ac\u00a2 From: " ++ r.fromAccount ++
                      "\n\u00e2\u20ac\u00a2 To: " ++ r.toAccount ++ "\n\u00e2\u20ac\u00a2 Date: " ++
                      env.toLocaleString r.timestamp ++
                      "\n\nYour transfer has been processed. Is there anything else I can help you with?",
              type := "transfer_success", data := some (.transfer r), error := none })
      | (db, .rejected e) =>
        ({ db := db, sessionStates := w.sessionStates.delete sessionId },
          .response (errorResponse (.ledger e)))
      | (db, .thrown) => ({ db := db, sessionStates := w.sessionStates }, .pending)
    | _, _ =>
      ({ db := w.db, sessionStates := w.sessionStates.delete sessionId },
        .response (errorResponse .typeError))
  else if flowType = "withdrawal" then
    match getField data "account" with
    | some account =>
      match withdrawFunds env.withdrawErrs env.transactionId env.timestamp w.db
          (jsToUpperCase account) (amountArg data) "ATM Withdrawal" with
      | (db, .resolved r) =>
        ({ db := db, sessionStates := w.sessionStates.delete sessionId },
          .response
            { text := "\u00e2\u0153\u2026 Withdrawal Completed Successfully!\n\n\u00f0\u0178\u201c\u2039 Transaction Details:\n\u00e2\u20ac\u00a2 Transaction ID: " ++
                      r.transactionId ++ "\n\u00e2\u20ac\u00a2 Amount: $" ++ r.amount ++
                      "\n\u00e2\u20ac\u00a2 Account: " ++ r.accountNumber ++
                      "\n\u00e2\u20ac\u00a2 Date: " ++ env.toLocaleString r.timestamp ++
                      "\n\nYour withdrawal has been processed. Is there anything else I can help you with?",
              type := "withdrawal_success", data := some (.withdrawal r), error := none })
      | (db, .rejected e) =>
        ({ db := db, sessionStates := w.sessionStates.delete sessionId },
          .response (errorResponse (.ledger e)))
      | (db, .thrown) => ({ db := db, sessionStates := w.sessionStates }, .pending)
    | none =>
      ({ db := w.db, sessionStates := w.sessionStates.delete sessionId },
        .response (errorResponse .typeError))
  else if flowType = "deposit" then
    match getField data "account" with
    | some account =>
      match depositFunds env.depositErrs env.transactionId env.timestamp w.db
          (jsToUpperCase account) (amountArg data) "Cash Deposit" with
      | (db, .resolved r) =>
        ({ db := db, sessionStates := w.sessionStates.delete sessionId },
          .response
            { text := "\u00e2\u0153\u2026 Deposit Completed Successfully!\n\n\u00f0\u0178\u201c\u2039 Transaction Details:\n\u00e2\u20ac\u00a2 Transaction ID: " ++
                      r.transactionId ++ "\n\u00e2\u20ac\u00a2 Amount: $" ++ r.amount ++
                      "\n\u00e2\u20ac\u00a2 Account: " ++ r.accountNumber ++
                      "\n\u00e2\u20ac\u00a2 New Balance: $" ++ r.newBalance ++
                      "\n\u00e2\u20ac\u00a2 Date: " ++ env.toLocaleString r.timestamp ++
                      "\n\nYour deposit has been processed. Is there anything else I can help you with?",
              type := "deposit_success", data := some (.deposit r), error := none })
      | (db, .rejected e) =>
        ({ db := db, sessionStates := w.sessionStates.delete sessionId },
          .response (errorResponse (.ledger e)))
      | (db, .thrown) => ({ db := db, sessionStates := w.sessionStates }, .pending)
    | none =>
      ({ db := w.db, sessionStates := w.sessionStates.delete sessionId },
        .response (errorResponse .typeError))
  else (w, .undefined)

/-- Lines 130 to 145 of `processConversationalFlow`: the step counter is incremented;
past the last step the action is executed, otherwise the next step is awaited and its
prompt returned. -/
def advanceToNextStep (env : Env) (w : World) (sessionId flowType : String)
    (flowSteps : List FlowStep) (state : SessionState) : World × Reply :=
  let state1 := { state with currentStep := state.currentStep + 1 }
  if h : state1.currentStep ≥ flowSteps.length then
    executeFlowAction env { w with sessionStates := w.sessionStates.set sessionId state1 }
      sessionId flowType state1.data
  else
    let nextStep := flowSteps.get ⟨state1.currentStep, Nat.lt_of_not_le h⟩
    ({ w with sessionStates :=
        w.sessionStates.set sessionId { state1 with waitingFor := some nextStep.step } },
      .response { text := nextStep.prompt, type := flowType ++ "_step_" ++ nextStep.step,
                  data := none, error := none })

/-- The function `processConversationalFlow`. -/
def processConversationalFlow (env : Env) (w : World) (sessionId userMessage flowType : String)
    (flowSteps : List FlowStep) : World × Reply :=
  let w1 : World :=
    { w with sessionStates := (initializeSessionState w.sessionStates sessionId).1 }
  let state := (initializeSessionState w.sessionStates sessionId).2
  match flowSteps[state.currentStep]? with
  | none => executeFlowAction env w1 sessionId flowType state.data
  | some currentStep =>
    if decide (state.currentStep > 0) || truthy state.waitingFor then
      if !currentStep.validation userMessage then
        (w1, .response
          { text := currentStep.errorMessage ++ "\n\n" ++ currentStep.prompt,
            type := flowType ++ "_validation_error", data := none, error := none })
      else
        advanceToNextStep env w1 sessionId flowType flowSteps
          { state with data := setField state.data currentStep.step (jsTrim userMessage) }
    else advanceToNextStep env w1 sessionId flowType flowSteps state

/-- The `switch` of `getBankingBotResponse` on `state.currentFlow`: the steps of the four
flows, nothing for any other value. -/
def flowSteps (flow : String) : Option (List FlowStep) :=
  if flow = "account_creation" then some accountCreationFlow
  else if flow = "transfer" then some transferFlow
  else if flow = "withdrawal" then some withdrawalFlow
  else if flow = "deposit" then some depositFlow
  else none

/-- The state a session is given when a flow starts. -/
def startedFlow (flow firstField : String) : SessionState :=
  { currentFlow := some flow, currentStep := 0, data := [], waitingFor := some firstField }

/-- The function `getBankingBotResponse`. -/
def getBankingBotResponse (env : Env) (w : World) (userMessage sessionId : String) :
    World × Reply :=
  let lowerMessage := jsToLowerCase userMessage
  let w1 : World :=
    { w with sessionStates := (initializeSessionState w.sessionStates sessionId).1 }
  let state := (initializeSessionState w.sessionStates sessionId).2
  match state.currentFlow.bind (fun flow => (flowSteps flow).map (fun steps => (flow, steps))) with
  | some (flow, steps) => processConversationalFlow env w1 sessionId userMessage flow steps
  | none =>
    if jsIncludes lowerMessage "create account" || jsIncludes lowerMessage "open account" ||
        jsIncludes lowerMessage "new account" then
      ({ w1 with sessionStates :=
          w1.sessionStates.set sessionId (startedFlow "account_creation" "name") },
        .response
          { text := "I'll help you create a new account! Let's start with some basic information.\n\n" ++
              (accountCreationFlow.get ⟨0, by decide⟩).prompt,
            type := "account_creation_start", data := none, error := none })
    else if jsIncludes lowerMessage "transfer" || jsIncludes lowerMessage "send money" then
      ({ w1 with sessionStates :=
          w1.sessionStates.set sessionId (startedFlow "transfer" "fromAccount") },
        .response
          { text := "I'll help you transfer funds between accounts.\n\n" ++
              (transferFlow.get ⟨0, by decide⟩).prompt,
            type := "transfer_start", data := none, error := none })
    else if jsIncludes lowerMessage "withdraw" || jsIncludes lowerMessage "cash out" then
      ({ w1 with sessionStates :=
          w1.sessionStates.set sessionId (startedFlow "withdrawal" "account") },
        .response
          { text := "I'll help you withdraw funds from your account.\n\n" ++
              (withdrawalFlow.get ⟨0, by decide⟩).prompt,
            type := "withdrawal_start", data := none, error := none })
    else if jsIncludes lowerMessage "deposit" || jsIncludes lowerMessage "add money" then
      ({ w1 with sessionStates :=
          w1.sessionStates.set sessionId (startedFlow "deposit" "account") },
        .response
          { text := "I'll help you deposit funds to your account.\n\n" ++
              (depositFlow.get ⟨0, by decide⟩).prompt,
            type := "deposit_start", data := none, error := none })
    else if jsIncludes lowerMessage "balance" || jsIncludes lowerMessage "check balance" then
      match accountNumberSearch.firstMatch userMessage with
      | some accountMatch =>
        match checkBalance env.balanceErr w1.db (jsToUpperCase accountMatch) with
        | (db, .resolved r) =>
          ({ w1 with db := db },
            .response
              { text := "\u00f0\u0178\u2019\u00b0 Account Balance for " ++ r.account ++
                        ":\n\n\u00f0\u0178\u2018\u00a4 Customer: " ++ r.customer ++
                        "\n\u00f0\u0178\u2019\u00b5 Current Balance: $" ++ r.balance ++
                        "\n\u00f0\u0178\u00a6 Account Type: " ++ r.accountType,
                type := "balance_inquiry", data := some (.balance r), error := none })
        | (db, .rejected e) =>
          ({ db := db, sessionStates := w1.sessionStates.delete sessionId },
            .response (errorResponse (.ledger e)))
        | (db, .thrown) => ({ w1 with db := db }, .pending)
      | none =>
        (w1, .response
          { text := "Please provide your account number to check your balance.\n\nExample: 'Check balance for ACC001'",
            type := "balance_inquiry_prompt", data := none, error := none })
    else if jsIncludes lowerMessage "transaction history" ||
        jsIncludes lowerMessage "statement" then
      match accountNumberSearch.firstMatch userMessage with
      | some accountMatch =>
        match getTransactionHistory env.historyErr env.historyRows
            (jsToUpperCase accountMatch) with
        | .resolved r =>
          (w1, .response
            { text := "\u00f0\u0178\u201c\u0160 Transaction History for " ++ r.accountNumber ++
                    ":\n\n" ++
                (if r.transactions.length = 0 then "No transactions found."
                 else historyLines env 0 r.transactions),
              type := "transaction_history", data := some (.history r), error := none })
        | .rejected e =>
          ({ w1 with sessionStates := w1.sessionStates.delete sessionId },
            .response (errorResponse (.ledger e)))
        | .thrown => (w1, .pending)
      | none =>
        (w1, .response
          { text := "Please provide your account number to view transaction history.\n\nExample: 'Show transaction history for ACC001'",
            type := "transaction_history_prompt", data := none, error := none })
    else if jsIncludes lowerMessage "cancel" || jsIncludes lowerMessage "stop" then
      if truthy state.currentFlow then
        ({ w1 with sessionStates := w1.sessionStates.delete sessionId },
          .response
            { text := "Operation cancelled. How else can I help you today?",
              type := "operation_cancelled", data := none, error := none })
      else
        (w1, .response
          { text := "No operation to cancel. How can I help you today?",
            type := "no_operation_to_cancel", data := none, error := none })
    else if jsIncludes lowerMessage "help" || jsIncludes lowerMessage "commands" then
      (w1, .response
        { text := "\u00f0\u0178\u00a6 Available Banking Services:\n\n\u00f0\u0178\u2019\u00b3 Account Services:\n\u00e2\u20ac\u00a2 \"Create account\" - Open a new account\n\u00e2\u20ac\u00a2 \"Check balance for ACC001\" - View account balance\n\n\u00f0\u0178\u2019\u00b8 Transactions:\n\u00e2\u20ac\u00a2 \"Transfer money\" - Transfer between accounts\n\u00e2\u20ac\u00a2 \"Withdraw money\" - Withdraw from account\n\u00e2\u20ac\u00a2 \"Deposit money\" - Deposit to account\n\n\u00f0\u0178\u201c\u0160 Information:\n\u00e2\u20ac\u00a2 \"Transaction history for ACC001\" - View recent transactions\n\u00e2\u20ac\u00a2 \"Help\" - Show this menu\n\u00e2\u20ac\u00a2 \"Cancel\" - Stop current operation\n\nJust tell me what you'd like to do in plain English!",
          type := "help", data := none, error := none })
    else
      (w1, .response
        { text := "I can help you with banking operations like creating accounts, checking balances, transferring funds, and more. Type 'help' to see all available services, or just tell me what you'd like to do!",
          type := "general_inquiry", data := none, error := none })

/-- The flow a message selects when no flow is active: the conditions of the first four
branches of the intent chain of `getBankingBotResponse`, on the lower-cased message. -/
def selectedFlow (lowerMessage : String) : Option String :=
  if jsIncludes lowerMessage "create account" || jsIncludes lowerMessage "open account" ||
      jsIncludes lowerMessage "new account" then some "account_creation"
  else if jsIncludes lowerMessage "transfer" || jsIncludes lowerMessage "send money" then
    some "transfer"
  else if jsIncludes lowerMessage "withdraw" || jsIncludes lowerMessage "cash out" then
    some "withdrawal"
  else if jsIncludes lowerMessage "deposit" || jsIncludes lowerMessage "add money" then
    some "deposit"
  else none

/-- An environment without storage errors, whose locale formatting is the identity. -/
def quietEnv : Env :=
  { now := 1730800000123, transactionId := "t-1", timestamp := "2024-01-01T00:00:00.000Z",
    toLocaleString := fun s => s, toLocaleDateString := fun s => s, createErr := none,
    transferErrs := .none, withdrawErrs := .none, depositErrs := .none, balanceErr := none,
    historyErr := none, historyRows := [] }

/-- The seeded database with one session, `"s1"`, in the given state. -/
def worldWith (state : SessionState) : World :=
  { db := seededDb, sessionStates := SessionStore.empty.set "s1" state }

/-- The settlement with its payload wrapped by `f`. -/
def Outcome.map {α β : Type} (f : α → β) : Outcome α → Outcome β
  | .resolved v => .resolved (f v)
  | .rejected e => .rejected e
  | .thrown => .thrown

/-- What the completion of a flow means for the result of a message, given the database
`db` and the settlement `outcome` of the flow's ledger call: the database is the one the
call left, the session has no entry, the other sessions are as in `w`, and the reply is
`<flow>_success` with the payload when the call resolved and `error` with the ledger's
error object when it was rejected. -/
def FlowCompleted (w : World) (sessionId flow : String) (result : World × Reply) (db : Db)
    (outcome : Outcome Payload) : Prop :=
  result.1.db = db ∧ result.1.sessionStates sessionId = none ∧
    (∀ k : String, k ≠ sessionId → result.1.sessionStates k = w.sessionStates k) ∧
    (∀ p : Payload, outcome = .resolved p →
      ∃ text : String, result.2 = .response
        { text := text, type := flow ++ "_success", data := some p, error := none }) ∧
    (∀ e : LedgerError, outcome = .rejected e →
      ∃ text : String, result.2 = .response
        { text := text, type := "error", data := none, error := some (.ledger e) })

/-- The frame of a balance update between an account row before and after a call: every
column but `balance` is kept, and `balance` too unless the account number is among
`touched`. -/
def Account.sameExceptBalance (touched : List String) (before after : Account) : Prop :=
  after.accountNumber = before.accountNumber ∧ after.customerName = before.customerName ∧
    after.accountType = before.accountType ∧ after.creditLimit = before.creditLimit ∧
    after.status = before.status ∧
    (before.accountNumber ∉ touched → after.balance = before.balance)

/-- The frame of a balance update on the whole table: the same rows in the same order,
each changed at most in the `balance` of a touched account number. -/
def Db.AccountsFrame (touched : List String) (before after : Db) : Prop :=
  List.Forall₂ (Account.sameExceptBalance touched) before.accounts after.accounts

/-- The credit-limit policy of `createAccount` on one row: `1000` for a checking
account, `0` for any other type. -/
def Account.FollowsCreditPolicy (a : Account) : Prop :=
  a.creditLimit = if a.accountType = "checking" then .fin 1000 else .fin 0

instance (a : Account) : Decidable a.FollowsCreditPolicy :=
  inferInstanceAs (Decidable (a.creditLimit = if a.accountType = "checking" then .fin 1000
    else .fin 0))

/-- The row is one of the sample accounts of `db.js`, up to its balance. -/
def Account.IsSample (a : Account) : Prop :=
  ∃ s ∈ sampleAccounts, a.accountNumber = s.accountNumber ∧
    a.customerName = s.customerName ∧ a.accountType = s.accountType ∧
    a.status = s.status ∧ a.creditLimit = s.creditLimit

/-- The invariant of a session entry that is in a flow: the flow is one of the four, the
step counter points at a step of it, `waitingFor` is that step's field name, and `data`
holds, in order, exactly the fields of the earlier steps, each with a trimmed value that
its step's validation predicate accepts. -/
def SessionState.WellFormed (st : SessionState) : Prop :=
  ∀ flow : String, st.currentFlow = some flow →
    ∃ (steps : List FlowStep) (step : FlowStep),
      flowSteps flow = some steps ∧ steps[st.currentStep]? = some step ∧
      st.waitingFor = some step.step ∧
      List.Forall₂
        (fun (field : String × String) (s : FlowStep) =>
          field.1 = s.step ∧ jsTrim field.2 = field.2 ∧ s.validation field.2 = true)
        st.data (steps.take st.currentStep)

/-- Every entry of the session map satisfies the invariant. -/
def SessionStore.WellFormed (s : SessionStore) : Prop :=
  ∀ (k : String) (st : SessionState), s k = some st → st.WellFormed

/-- The world after a sequence of chat messages, each given with the environment it is
handled in and its session id, and each handled after the previous one has been
answered. -/
def runMessages (w : World) (messages : List (Env × String × String)) : World :=
  messages.foldl (fun w m => (getBankingBotResponse m.1 w m.2.1 m.2.2).1) w

/-- The sum of a list of numbers with the operator `+`, from the right. -/
def jsSum (xs : List JsNum) : JsNum := xs.foldr JsNum.add (.fin 0)

/-- The sum of the amounts of the transaction rows whose `to_account` is the account. -/
def credited (transactions : List Transaction) (accountNumber : String) : JsNum :=
  jsSum ((transactions.filter (fun t => t.toAccount = some accountNumber)).map
    (fun t => t.amount))

/-- The sum of the amounts of the transaction rows whose `from_account` is the account. -/
def debited (transactions : List Transaction) (accountNumber : String) : JsNum :=
  jsSum ((transactions.filter (fun t => t.fromAccount = some accountNumber)).map
    (fun t => t.amount))

/-- The sum of all balances. -/
def Db.totalBalance (d : Db) : JsNum := jsSum (d.accounts.map (fun a => a.balance))

/-- The account a call opens on the database `d`, with its opening balance: the
generated number and the parsed initial deposit of a `createAccount` that resolves. -/
def LedgerCall.opened (d : Db) : LedgerCall → List (String × JsNum)
  | .createAccount err now customerName accountType initialDeposit =>
    if (Bankbot.createAccount err now d customerName accountType initialDeposit).2.isResolved
    then [(generatedAccountNumber now, parseFloat initialDeposit)]
    else []
  | _ => []

/-- The accounts opened by a sequence of calls run from `d`, in order. -/
def openedBy : Db → List LedgerCall → List (String × JsNum)
  | _, [] => []
  | d, c :: cs => c.opened d ++ openedBy (c.run d) cs

/-- The opening balance of every account after `calls` have run from `d`: the balances
of the accounts of `d`, then the initial deposits of the accounts opened since. -/
def openingBalances (d : Db) (calls : List LedgerCall) : List (String × JsNum) :=
  d.accounts.map (fun a => (a.accountNumber, a.balance)) ++ openedBy d calls

/-- The identity the specification states for one account: its balance is its opening
balance plus what the transaction rows credit to it minus what they debit from it. -/
def Account.BalanceMatchesLedger (transactions : List Transaction) (a : Account)
    (opening : String × JsNum) : Prop :=
  a.accountNumber = opening.1 ∧
    a.balance
      = (opening.2.add (credited transactions opening.1)).sub (debited transactions opening.1)

/-- The identity of the specification for every account, in table order. -/
def Db.BalancesMatchLedger (d : Db) (openings : List (String × JsNum)) : Prop :=
  List.Forall₂ (Account.BalanceMatchesLedger d.transactions) d.accounts openings

/-- The foreign keys of the table `transactions`: every account a row names exists. -/
def Db.ForeignKeysHold (d : Db) : Prop :=
  ∀ t ∈ d.transactions, ∀ n : String, (t.fromAccount = some n ∨ t.toAccount = some n) →
    n ∈ d.accounts.map (fun a => a.accountNumber)

/-- What one transaction row does to the balance of an account, as the `UPDATE`
statements of the ledger functions do it: the amount is subtracted if the account is the
row's `from_account` and added if it is the row's `to_account`. -/
def applyRecord (accountNumber : String) (balance : JsNum) (t : Transaction) : JsNum :=
  let debited := if t.fromAccount = some accountNumber then balance.sub t.amount else balance
  if t.toAccount = some accountNumber then debited.add t.amount else debited

/-- The balance obtained from an opening balance by applying the transaction rows one
after the other, in the order of the log. -/
def replayLedger (transactions : List Transaction) (accountNumber : String)
    (opening : JsNum) : JsNum :=
  transactions.foldl (applyRecord accountNumber) opening

/-- The balance of the account is what the transaction rows, applied in order, make of
its opening balance. -/
def Account.BalanceReplaysLedger (transactions : List Transaction) (a : Account)
    (opening : String × JsNum) : Prop :=
  a.accountNumber = opening.1 ∧ a.balance = replayLedger transactions opening.1 opening.2

/-- Every account, in table order, is the replay of the ledger from its opening
balance. -/
def Db.BalancesReplayLedger (d : Db) (openings : List (String × JsNum)) : Prop :=
  List.Forall₂ (Account.BalanceReplaysLedger d.transactions) d.accounts openings

/-- Whether a string is a decimal numeral with exactly two fraction digits, as the
specification wants amounts reported: an optional minus sign, at least one digit, a point
and two digits. -/
def isTwoDecimal (s : String) : Bool :=
  let cs := match s.toList with
    | '-' :: r => r
    | cs => cs
  match cs.reverse with
  | d2 :: d1 :: '.' :: ip => d2.isDigit && d1.isDigit && !ip.isEmpty && ip.all Char.isDigit
  | _ => false

/-- Whether a string begins with a number in the sense of the specification of
`parseFloat`: after the leading white space and an optional sign comes `Infinity`, a
digit, or a point followed by a digit. -/
def startsWithNumber (s : String) : Bool :=
  let unsigned := match s.toList.dropWhile isStrWhiteSpaceChar with
    | '+' :: r => r
    | '-' :: r => r
    | cs => cs
  "Infinity".toList.isPrefixOf unsigned ||
    match unsigned with
    | '.' :: c :: _ => c.isDigit
    | c :: _ => c.isDigit
    | [] => false

/-! # Theorems -/

/-! ## Lemmas on the tables -/

theorem updateRow_accountNumber (n : String) (f : JsNum → JsNum) (a : Account) :
    (Db.updateRow n f a).accountNumber = a.accountNumber := by
  unfold Db.updateRow; split <;> rfl

theorem updateRow_status (n : String) (f : JsNum → JsNum) (a : Account) :
    (Db.updateRow n f a).status = a.status := by
  unfold Db.updateRow; split <;> rfl

theorem find_active_map_updateRow (l : List Account) (n m : String) (f : JsNum → JsNum) :
    (l.map (Db.updateRow n f)).find? (fun a => a.accountNumber = m && a.status = "active")
      = (l.find? (fun a => a.accountNumber = m && a.status = "active")).map (Db.updateRow n f) := by
  simp only [List.find?_map]
  congr 2
  funext a
  simp [updateRow_accountNumber, updateRow_status]

theorem selectActive_updateBalance (d : Db) (n m : String) (f : JsNum → JsNum) :
    (d.updateBalance n f).selectActive m = (d.selectActive m).map (Db.updateRow n f) :=
  find_active_map_updateRow d.accounts n m f

theorem selectByNumber_updateBalance (d : Db) (n m : String) (f : JsNum → JsNum) :
    (d.updateBalance n f).selectByNumber m = (d.selectByNumber m).map (Db.updateRow n f) := by
  unfold Db.selectByNumber Db.updateBalance Db.accounts
  simp only [List.find?_map]
  congr 2
  funext a
  simp [updateRow_accountNumber]

theorem referencesAccount_updateBalance (d : Db) (n : String) (f : JsNum → JsNum)
    (r : Option String) :
    (d.updateBalance n f).referencesAccount r = d.referencesAccount r := by
  cases r with
  | none => rfl
  | some m =>
    unfold Db.referencesAccount Db.updateBalance Db.accounts
    simp only [List.any_map]
    congr 1
    funext a
    simp [updateRow_accountNumber]

theorem referencesAccount_of_selectActive (d : Db) (n : String) (a : Account)
    (h : d.selectActive n = some a) : d.referencesAccount (some n) = true := by
  unfold Db.selectActive at h
  unfold Db.referencesAccount
  have hmem := List.mem_of_find?_eq_some h
  have hp := List.find?_some h
  simp only [Bool.and_eq_true, decide_eq_true_eq] at hp
  simp only [List.any_eq_true, decide_eq_true_eq]
  exact ⟨a, hmem, hp.1⟩

theorem selectActive_accountNumber (d : Db) (n : String) (a : Account)
    (h : d.selectActive n = some a) : a.accountNumber = n ∧ a.status = "active" := by
  unfold Db.selectActive at h
  have hp := List.find?_some h
  simpa only [Bool.and_eq_true, decide_eq_true_eq] using hp

/-! ## Lemmas on numbers -/

theorem JsNum.le_fin (a b : ℚ) : JsNum.le (.fin a) (.fin b) = decide (a ≤ b) := by
  by_cases h : a ≤ b
  · simp [JsNum.le, JsNum.lt, JsNum.isNaN, h]
  · simp [JsNum.le, JsNum.lt, JsNum.isNaN, h, not_le.mp h]

theorem JsNum.gt_fin (a b : ℚ) : JsNum.gt (.fin a) (.fin b) = decide (b < a) := rfl

theorem parseFloat_num (n : JsNum) : parseFloat (.num n) = n := rfl

theorem JsNum.add_fin (a b : ℚ) : JsNum.add (.fin a) (.fin b) = roundToDouble (a + b) := rfl

theorem JsNum.sub_fin (a b : ℚ) : JsNum.sub (.fin a) (.fin b) = roundToDouble (a - b) := by
  simp [JsNum.sub, JsNum.neg, JsNum.add, sub_eq_add_neg]

/-! ## Decimal digits and `toFixed` -/

theorem toDigitsCore_append (b : Nat) (f : Nat) :
    ∀ (n : Nat) (ds : List Char),
      Nat.toDigitsCore b f n ds = Nat.toDigitsCore b f n [] ++ ds := by
  induction f with
  | zero => intro n ds; simp [Nat.toDigitsCore]
  | succ f ih =>
    intro n ds
    simp only [Nat.toDigitsCore]
    split
    · simp
    · rw [ih (n / b) (Nat.digitChar (n % b) :: ds), ih (n / b) [Nat.digitChar (n % b)]]
      simp

theorem toDigitsCore_fuel (f : Nat) :
    ∀ (g n : Nat), n < f → n < g →
      Nat.toDigitsCore 10 f n [] = Nat.toDigitsCore 10 g n [] := by
  induction f with
  | zero => intro g n hf _; omega
  | succ f ih =>
    intro g n hf hg
    cases g with
    | zero => omega
    | succ g =>
      simp only [Nat.toDigitsCore]
      split
      · rfl
      · rw [toDigitsCore_append 10 f, toDigitsCore_append 10 g,
          ih g (n / 10) (by omega) (by omega)]

theorem toDigits_lt_ten (n : Nat) (h : n < 10) : Nat.toDigits 10 n = [Nat.digitChar n] := by
  unfold Nat.toDigits
  simp only [Nat.toDigitsCore]
  simp [Nat.div_eq_of_lt h, Nat.mod_eq_of_lt h]

theorem toDigits_ge_ten (n : Nat) (h : 10 ≤ n) :
    Nat.toDigits 10 n = Nat.toDigits 10 (n / 10) ++ [Nat.digitChar (n % 10)] := by
  unfold Nat.toDigits
  simp only [Nat.toDigitsCore]
  have h0 : n / 10 ≠ 0 := by omega
  simp only [h0, if_false]
  rw [toDigitsCore_append 10 n,
    toDigitsCore_fuel n (n / 10 + 1) (n / 10) (by omega) (Nat.lt_succ_self _)]
  simp only [Nat.toDigitsCore]

theorem digitChar_mem (d : Nat) (h : d < 10) : Nat.digitChar d ∈ "0123456789".toList := by
  interval_cases d <;> decide

theorem toDigits_mem (n : Nat) : ∀ c ∈ Nat.toDigits 10 n, c ∈ "0123456789".toList := by
  induction n using Nat.strong_induction_on with
  | _ n ih =>
    by_cases h : n < 10
    · rw [toDigits_lt_ten n h]
      intro c hc
      rw [List.mem_singleton.mp hc]
      exact digitChar_mem n h
    · rw [toDigits_ge_ten n (by omega)]
      intro c hc
      rcases List.mem_append.mp hc with hc | hc
      · exact ih (n / 10) (by omega) c hc
      · rw [List.mem_singleton.mp hc]
        exact digitChar_mem _ (Nat.mod_lt _ (by decide))

theorem toDigits_length_pos (n : Nat) : 1 ≤ (Nat.toDigits 10 n).length := by
  by_cases h : n < 10
  · rw [toDigits_lt_ten n h]; simp
  · rw [toDigits_ge_ten n (by omega)]; simp

theorem digit_of_mem (c : Char) (h : c ∈ "0123456789".toList) :
    c.isDigit = true ∧ c ≠ '-' := by
  simp only [String.toList, List.mem_cons, List.mem_singleton, List.not_mem_nil, or_false] at h
  rcases h with rfl | rfl | rfl | rfl | rfl | rfl | rfl | rfl | rfl | rfl <;> decide

theorem padZeros_mem (k n : Nat) :
    ∀ c ∈ padZeros k (Nat.toDigits 10 n), c ∈ "0123456789".toList := by
  intro c hc
  unfold padZeros at hc
  rcases List.mem_append.mp hc with hc | hc
  · rw [(List.mem_replicate.mp hc).2]; decide
  · exact toDigits_mem n c hc

theorem padZeros_length (k : Nat) (cs : List Char) : k ≤ (padZeros k cs).length := by
  unfold padZeros
  rw [List.length_append, List.length_replicate]
  omega

theorem isTwoDecimal_of_digits (ds : List Char) (hlen : 3 ≤ ds.length)
    (hds : ∀ c ∈ ds, c ∈ "0123456789".toList) :
    isTwoDecimal (String.mk (ds.take (ds.length - 2) ++ ['.'] ++ ds.drop (ds.length - 2))) = true ∧
    isTwoDecimal ("-" ++ String.mk (ds.take (ds.length - 2) ++ ['.'] ++ ds.drop (ds.length - 2)))
      = true := by
  obtain ⟨ip, fr, hsplit, hip, hfr⟩ : ∃ ip fr : List Char, ds = ip ++ fr ∧
      ip = ds.take (ds.length - 2) ∧ fr = ds.drop (ds.length - 2) :=
    ⟨_, _, (List.take_append_drop _ _).symm, rfl, rfl⟩
  have hfrlen : fr.length = 2 := by rw [hfr, List.length_drop]; omega
  have hiplen : 1 ≤ ip.length := by rw [hip, List.length_take]; omega
  rw [← hip, ← hfr]
  have hipd : ∀ c ∈ ip, c ∈ "0123456789".toList := fun c hc =>
    hds c (by rw [hsplit]; exact List.mem_append_left _ hc)
  have hfrd : ∀ c ∈ fr, c ∈ "0123456789".toList := fun c hc =>
    hds c (by rw [hsplit]; exact List.mem_append_right _ hc)
  match fr, hfrlen, hfrd with
  | [d1, d2], _, hfrd =>
    have h1 := (digit_of_mem d1 (hfrd d1 (by simp))).1
    have h2 := (digit_of_mem d2 (hfrd d2 (by simp))).1
    have hall : ip.reverse.all Char.isDigit = true := by
      rw [List.all_eq_true]
      intro c hc
      exact (digit_of_mem c (hipd c (List.mem_reverse.mp hc))).1
    have hne : ip.reverse.isEmpty = false := by
      cases ip with
      | nil => simp at hiplen
      | cons c t => simp
    have hrev : (ip ++ ['.'] ++ [d1, d2]).reverse = d2 :: d1 :: '.' :: ip.reverse := by
      simp
    constructor
    · cases ip with
      | nil => simp at hiplen
      | cons c t =>
        have hc := (digit_of_mem c (hipd c (List.mem_cons_self _ _))).2
        unfold isTwoDecimal
        have hm : (match (String.mk (c :: t ++ ['.'] ++ [d1, d2])).toList with
            | '-' :: r => r
            | cs => cs) = c :: t ++ ['.'] ++ [d1, d2] := by
          show (match c :: (t ++ ['.'] ++ [d1, d2]) with
            | '-' :: r => r
            | cs => cs) = _
          split
          · rename_i heq; injection heq with e _; exact absurd e hc
          · rfl
        simp only [hm, hrev, h1, h2, hall, hne]
        rfl
    · unfold isTwoDecimal
      have hm : (match ("-" ++ String.mk (ip ++ ['.'] ++ [d1, d2])).toList with
          | '-' :: r => r
          | cs => cs) = ip ++ ['.'] ++ [d1, d2] := rfl
      simp only [hm, hrev, h1, h2, hall, hne]
      rfl

/-- The method `toFixed(2)` prints a finite value below `10^21` in magnitude with exactly
two fraction digits. -/
theorem toFixed_isTwoDecimal (q : ℚ) (h : |q| < 10 ^ 21) :
    isTwoDecimal (toFixed (.fin q) 2) = true := by
  have hds := padZeros_mem 3 ⌊|q| * (10 : ℚ) ^ 2 + 1 / 2⌋.toNat
  have hlen := padZeros_length 3 (Nat.toDigits 10 ⌊|q| * (10 : ℚ) ^ 2 + 1 / 2⌋.toNat)
  have key := isTwoDecimal_of_digits _ hlen hds
  unfold toFixed
  simp only [not_le.mpr h, if_false, show ¬ (2 = 0) by decide]
  by_cases hq : q < 0
  · simp only [hq, if_true]
    exact key.2
  · simp only [hq, if_false]
    have he : ∀ s : String, "" ++ s = s := fun s => by
      cases s; rfl
    rw [he]
    exact key.1

/-! ## The row insert -/

theorem insertTransaction_ok (d : Db) (t : Transaction)
    (hnan : t.amount.isNaN = false)
    (hfresh : ∀ u ∈ d.transactions, u.transactionId ≠ t.transactionId)
    (hfrom : d.referencesAccount t.fromAccount = true)
    (hto : d.referencesAccount t.toAccount = true) :
    d.insertTransaction t
      = .ok { d with tables := { d.tables with transactions := d.transactions ++ [t] } } := by
  unfold Db.insertTransaction
  have hany : d.transactions.any (fun u => decide (u.transactionId = t.transactionId)) = false := by
    rw [List.any_eq_false]
    intro u hu
    simpa using hfresh u hu
  simp [hnan, hany, hfrom, hto]

/-! ## Withdrawals -/

theorem withdrawFunds_eq (transactionId timestamp : String) (d : Db)
    (accountNumber : String) (amount : JsValue) (description : String)
    (account : Account) (a b c : ℚ)
    (hclosed : d.saved = none)
    (hsel : d.selectActive accountNumber = some account)
    (hb : account.balance = .fin b) (hc : account.creditLimit = .fin c)
    (hamt : parseFloat amount = .fin a) (hpos : 0 < a)
    (hle : (JsNum.fin a).gt (roundToDouble (b + c)) = false)
    (hfresh : ∀ t ∈ d.transactions, t.transactionId ≠ transactionId) :
    withdrawFunds .none transactionId timestamp d accountNumber amount description
      = ({ tables :=
            { accounts := d.accounts.map (Db.updateRow accountNumber (fun x => x.sub (.fin a))),
              transactions := d.transactions ++
                [withdrawalRecord transactionId accountNumber (.fin a) description] },
           saved := none },
         .resolved { success := true, transactionId := transactionId,
                     accountNumber := accountNumber, amount := toFixed (.fin a) 2,
                     description := description, timestamp := timestamp }) := by
  have h1 : d.beginTransaction = { d with saved := some d.tables } := by
    simp [Db.beginTransaction, hclosed]
  have h2 : ({ d with saved := some d.tables } : Db).selectActive accountNumber = some account := hsel
  have h3 : JsNum.le (.fin a) (.fin 0) = false := by
    rw [JsNum.le_fin]; simpa using hpos
  have h5 := insertTransaction_ok
    (({ d with saved := some d.tables } : Db).updateBalance accountNumber (fun x => x.sub (.fin a)))
    (withdrawalRecord transactionId accountNumber (.fin a) description)
    rfl hfresh
    (by
      rw [withdrawalRecord, referencesAccount_updateBalance]
      exact referencesAccount_of_selectActive _ _ _ h2)
    rfl
  unfold withdrawalRecord at h5
  simp only [withdrawFunds, hamt, h3, h1, h2, WithdrawErrs.none, parseFloat_num, hb, hc,
    JsNum.add_fin, hle, h5, Db.commit, withdrawalRecord]
  rfl

/-- C2 (counterexample). The balance after a withdrawal is not the exact difference: from
an account opened with `'1.1'` a withdrawal of `'0.2'` resolves and leaves
`0.9000000000000001`, which is neither the difference of the two numbers nor the number
that `0.9` denotes. -/
theorem withdrawFunds_rounds_the_balance :
    (runCalls emptyDb
        [.createAccount none 1730800000123 "Ann Lee" "savings" (.str "1.1"),
         .withdraw .none "t-1" "2024-01-01T00:00:00.000Z" "ACC000123" (.str "0.2")
           "ATM Withdrawal"]).accounts.map (fun x => x.balance)
      = [.fin (4053239664633447 / 4503599627370496)] ∧
    (runCalls emptyDb
        [.createAccount none 1730800000123 "Ann Lee" "savings" (.str "1.1"),
         .withdraw .none "t-1" "2024-01-01T00:00:00.000Z" "ACC000123" (.str "0.2")
           "ATM Withdrawal"]).transactions.length = 1 ∧
    parseFloat (.str "1.1") = .fin (2476979795053773 / 2251799813685248) ∧
    parseFloat (.str "0.2") = .fin (3602879701896397 / 18014398509481984) ∧
    (4053239664633447 / 4503599627370496 : ℚ)
      ≠ 2476979795053773 / 2251799813685248 - 3602879701896397 / 18014398509481984 ∧
    parseFloat (.str "0.9") ≠ .fin (4053239664633447 / 4503599627370496) := by
  refine ⟨by decide!, by decide!, by decide!, by decide!, by norm_num, by decide!⟩

/-- C2 (amended). For an active account with balance `b` and credit limit `c` and an
amount `a > 0` that is not greater than `b + c` as the code computes it, in double
arithmetic (so also for an amount equal to that sum), `withdrawFunds`, absent storage
errors and with a fresh transaction id, resolves; the account's balance becomes the double
nearest to `b - a`; and exactly one row is appended to `transactions`, with `fromAccount`
the account, `toAccount` null, type `withdrawal` and amount `a`. -/
theorem withdrawFunds_success (transactionId timestamp : String) (d : Db)
    (accountNumber : String) (amount : JsValue) (description : String)
    (account : Account) (a b c : ℚ)
    (hclosed : d.saved = none)
    (hsel : d.selectActive accountNumber = some account)
    (hb : account.balance = .fin b) (hc : account.creditLimit = .fin c)
    (hamt : parseFloat amount = .fin a) (hpos : 0 < a)
    (hle : (JsNum.fin a).gt (roundToDouble (b + c)) = false)
    (hfresh : ∀ t ∈ d.transactions, t.transactionId ≠ transactionId) :
    (withdrawFunds .none transactionId timestamp d accountNumber amount description).2
        = .resolved { success := true, transactionId := transactionId,
                      accountNumber := accountNumber, amount := toFixed (.fin a) 2,
                      description := description, timestamp := timestamp } ∧
      (withdrawFunds .none transactionId timestamp d accountNumber amount
          description).1.selectActive accountNumber
        = some { account with balance := roundToDouble (b - a) } ∧
      (withdrawFunds .none transactionId timestamp d accountNumber amount
          description).1.transactions
        = d.transactions ++ [withdrawalRecord transactionId accountNumber (.fin a) description] ∧
      (withdrawFunds .none transactionId timestamp d accountNumber amount description).1.saved
        = none := by
  rw [withdrawFunds_eq transactionId timestamp d accountNumber amount description account a b c
    hclosed hsel hb hc hamt hpos hle hfresh]
  refine ⟨rfl, ?_, rfl, rfl⟩
  have hn := (selectActive_accountNumber d accountNumber account hsel).1
  show (d.accounts.map _).find? _ = _
  rw [find_active_map_updateRow]
  show (d.selectActive accountNumber).map _ = _
  rw [hsel]
  simp [Db.updateRow, hn, hb, JsNum.sub_fin]

theorem withdrawFunds_success_witness :
    (withdrawFunds .none "t-1" "2024-01-01T00:00:00.000Z" seededDb "ACC002" (.str "8500")
        "ATM Withdrawal").2
        = .resolved { success := true, transactionId := "t-1", accountNumber := "ACC002",
                      amount := "8500.00", description := "ATM Withdrawal",
                      timestamp := "2024-01-01T00:00:00.000Z" } ∧
      (withdrawFunds .none "t-1" "2024-01-01T00:00:00.000Z" seededDb "ACC002" (.str "8500")
          "ATM Withdrawal").1.selectActive "ACC002"
        = some { accountNumber := "ACC002", customerName := "Jane Smith",
                 balance := .fin (-5000), accountType := "checking", status := "active",
                 creditLimit := .fin 5000 } := by
  have h := withdrawFunds_success "t-1" "2024-01-01T00:00:00.000Z" seededDb "ACC002"
    (.str "8500") "ATM Withdrawal"
    { accountNumber := "ACC002", customerName := "Jane Smith", balance := .fin 3500,
      accountType := "checking", status := "active", creditLimit := .fin 5000 }
    8500 3500 5000 rfl (by decide!) rfl rfl (by decide!) (by norm_num) (by decide!)
    (by intro t ht; cases ht)
  refine ⟨?_, ?_⟩
  · rw [h.1]; decide!
  · rw [h.2.1]; decide!

/-- C3 (counterexample). The report is not always in two fraction digits, and an amount
above `b + c` is not always refused.  A withdrawal of `'1e21'` from `ACC001` of the seeded
database is rejected with `requested` printed as `"1e+21"`.  For a checking account
opened with `'0.1'` (credit limit `1000`) the sum the code computes is the double
`1000.1`; the amount `'1000.10000000000001'` is above `0.1 + 1000`, as a decimal and as
the number it parses to, and the withdrawal resolves. -/
theorem withdrawal_guard_and_report_use_doubles :
    withdrawFunds .none "t-1" "2024-01-01T00:00:00.000Z" seededDb "ACC001" (.str "1e21")
        "ATM Withdrawal"
      = (seededDb,
         .rejected { error := "Insufficient funds for withdrawal", details := none,
                     available := some "15000.00", requested := some "1e+21" }) ∧
    isTwoDecimal "1e+21" = false ∧
    (runCalls emptyDb
        [.createAccount none 1730800000123 "Ann Lee" "checking" (.str "0.1")]).accounts
      = [{ accountNumber := "ACC000123", customerName := "Ann Lee",
           balance := .fin (3602879701896397 / 36028797018963968),
           accountType := "checking", status := "active", creditLimit := .fin 1000 }] ∧
    parseFloat (.str "1000.10000000000001") = .fin (8796972631510221 / 8796093022208) ∧
    (3602879701896397 / 36028797018963968 + 1000 : ℚ) < 8796972631510221 / 8796093022208 ∧
    (1 / 10 + 1000 : ℚ) < 100010000000000001 / 100000000000000 ∧
    (withdrawFunds .none "t-1" "2024-01-01T00:00:00.000Z"
        (runCalls emptyDb
          [.createAccount none 1730800000123 "Ann Lee" "checking" (.str "0.1")])
        "ACC000123" (.str "1000.10000000000001") "ATM Withdrawal").2.isResolved = true := by
  refine ⟨by decide!, by decide!, by decide!, by decide!, by norm_num, by norm_num,
    by decide!⟩

/-- C3 (amended). For an active account with balance `b` and credit limit `c` and an
amount `a > 0` that is greater than `b + c` as the code computes it, in double arithmetic,
`withdrawFunds` is rejected with the insufficient-funds error whose `available` is that
sum and whose `requested` is `a`, both printed by `toFixed(2)`, which is with exactly two
fraction digits for a value below `10^21`; the database is returned unchanged, so any
number of retries, each with its own transaction id, ends in the same state. -/
theorem withdrawFunds_insufficient (errs : WithdrawErrs) (transactionId timestamp : String)
    (d : Db) (accountNumber : String) (amount : JsValue) (description : String)
    (account : Account) (a b c : ℚ)
    (hclosed : d.saved = none) (herr : errs.select = none)
    (hsel : d.selectActive accountNumber = some account)
    (hb : account.balance = .fin b) (hc : account.creditLimit = .fin c)
    (hamt : parseFloat amount = .fin a) (hpos : 0 < a)
    (hgt : (JsNum.fin a).gt (roundToDouble (b + c)) = true) :
    withdrawFunds errs transactionId timestamp d accountNumber amount description
        = (d, .rejected { error := "Insufficient funds for withdrawal", details := none,
                          available := some (toFixed (roundToDouble (b + c)) 2),
                          requested := some (toFixed (.fin a) 2) }) ∧
      (∀ retries : List (String × String),
        retries.foldl
          (fun x r => (withdrawFunds errs r.1 r.2 x accountNumber amount description).1) d
          = d) ∧
      (a < 10 ^ 21 → isTwoDecimal (toFixed (.fin a) 2) = true) ∧
      (∀ q : ℚ, roundToDouble (b + c) = .fin q → |q| < 10 ^ 21 →
        isTwoDecimal (toFixed (roundToDouble (b + c)) 2) = true) := by
  have key : ∀ tid ts : String,
      withdrawFunds errs tid ts d accountNumber amount description
        = (d, .rejected { error := "Insufficient funds for withdrawal", details := none,
                          available := some (toFixed (roundToDouble (b + c)) 2),
                          requested := some (toFixed (.fin a) 2) }) := by
    intro tid ts
    have h1 : d.beginTransaction = { d with saved := some d.tables } := by
      simp [Db.beginTransaction, hclosed]
    have h2 : ({ d with saved := some d.tables } : Db).selectActive accountNumber
        = some account := hsel
    have h3 : JsNum.le (.fin a) (.fin 0) = false := by
      rw [JsNum.le_fin]; simpa using hpos
    have h5 : ({ d with saved := some d.tables } : Db).rollback = d := by
      cases d; simp_all [Db.rollback]
    simp only [withdrawFunds, hamt, h3, h1, h2, herr, parseFloat_num, hb, hc,
      JsNum.add_fin, hgt, h5]
    rfl
  refine ⟨key transactionId timestamp, ?_, ?_, ?_⟩
  · intro retries
    induction retries with
    | nil => rfl
    | cons r rs ih => rw [List.foldl_cons, key r.1 r.2]; exact ih
  · intro h
    exact toFixed_isTwoDecimal a (by rw [abs_of_pos hpos]; exact h)
  · intro q hq hlt
    rw [hq]
    exact toFixed_isTwoDecimal q hlt

theorem withdrawFunds_insufficient_witness :
    withdrawFunds .none "t-1" "2024-01-01T00:00:00.000Z"
        { tables := { accounts := [{ accountNumber := "ACC900", customerName := "A",
                                     balance := .fin 50, accountType := "savings",
                                     status := "active", creditLimit := .fin 0 }],
                      transactions := [] },
          saved := none }
        "ACC900" (.str "100.00") "ATM Withdrawal"
      = ({ tables := { accounts := [{ accountNumber := "ACC900", customerName := "A",
                                      balance := .fin 50, accountType := "savings",
                                      status := "active", creditLimit := .fin 0 }],
                       transactions := [] },
           saved := none },
         .rejected { error := "Insufficient funds for withdrawal", details := none,
                     available := some "50.00", requested := some "100.00" }) := by
  have h := (withdrawFunds_insufficient .none "t-1" "2024-01-01T00:00:00.000Z"
    { tables := { accounts := [{ accountNumber := "ACC900", customerName := "A",
                                 balance := .fin 50, accountType := "savings",
                                 status := "active", creditLimit := .fin 0 }],
                  transactions := [] },
      saved := none }
    "ACC900" (.str "100.00") "ATM Withdrawal"
    { accountNumber := "ACC900", customerName := "A", balance := .fin 50,
      accountType := "savings", status := "active", creditLimit := .fin 0 }
    100 50 0 rfl rfl (by decide!) rfl rfl (by decide!) (by norm_num) (by decide!)).1
  rw [h]
  decide!

/-- Withdrawals in double arithmetic, on concrete inputs.  The amount `'1.005'` is the
double just below `1.005` and is reported as `"1.00"`; the amount `'1e400'` overflows to
`Infinity` and is reported as `"Infinity"`; and of three withdrawals of `'0.1'` from an
account opened with `'0.3'` the first two resolve, leaving `0.09999999999999998`, and the
third is rejected for insufficient funds. -/
theorem withdrawals_in_double_arithmetic :
    (withdrawFunds .none "t-1" "2024-01-01T00:00:00.000Z" seededDb "ACC001" (.str "1.005")
        "ATM Withdrawal").2
      = .resolved { success := true, transactionId := "t-1", accountNumber := "ACC001",
                    amount := "1.00", description := "ATM Withdrawal",
                    timestamp := "2024-01-01T00:00:00.000Z" } ∧
    withdrawFunds .none "t-1" "2024-01-01T00:00:00.000Z" seededDb "ACC001" (.str "1e400")
        "ATM Withdrawal"
      = (seededDb,
         .rejected { error := "Insufficient funds for withdrawal", details := none,
                     available := some "15000.00", requested := some "Infinity" }) ∧
    (runCalls emptyDb
        [.createAccount none 1730800000123 "Ann Lee" "savings" (.str "0.3"),
         .withdraw .none "t-1" "2024-01-01T00:00:00.000Z" "ACC000123" (.str "0.1")
           "ATM Withdrawal",
         .withdraw .none "t-2" "2024-01-01T00:00:00.000Z" "ACC000123" (.str "0.1")
           "ATM Withdrawal"]).accounts.map (fun x => x.balance)
      = [.fin (900719925474099 / 9007199254740992)] ∧
    (withdrawFunds .none "t-3" "2024-01-01T00:00:00.000Z"
        (runCalls emptyDb
          [.createAccount none 1730800000123 "Ann Lee" "savings" (.str "0.3"),
           .withdraw .none "t-1" "2024-01-01T00:00:00.000Z" "ACC000123" (.str "0.1")
             "ATM Withdrawal",
           .withdraw .none "t-2" "2024-01-01T00:00:00.000Z" "ACC000123" (.str "0.1")
             "ATM Withdrawal"])
        "ACC000123" (.str "0.1") "ATM Withdrawal").2
      = .rejected { error := "Insufficient funds for withdrawal", details := none,
                    available := some "0.10", requested := some "0.10" } := by
  refine ⟨by decide!, by decide!, by decide!, by decide!⟩

/-! ## Transactions: rollback and commit -/

theorem beginTransaction_of_closed (d : Db) (hclosed : d.saved = none) :
    d.beginTransaction = { tables := d.tables, saved := some d.tables } := by
  simp [Db.beginTransaction, hclosed]

theorem rollback_of_saved (x : Db) (t : Tables) (h : x.saved = some t) :
    x.rollback = { tables := t, saved := none } := by
  simp [Db.rollback, h]

theorem eq_of_closed (d : Db) (hclosed : d.saved = none) :
    ({ tables := d.tables, saved := none } : Db) = d := by
  cases d; simp_all

theorem insertTransaction_eq_ok (d d1 : Db) (t : Transaction)
    (h : d.insertTransaction t = .ok d1) :
    d1 = { d with tables := { d.tables with transactions := d.transactions ++ [t] } } := by
  unfold Db.insertTransaction at h
  split at h
  · cases h
  · split at h
    · cases h
    · split at h
      · cases h
      · injection h with h; exact h.symm

/-- Every run of `withdrawFunds` from a database without open transaction either returns
the database as it was, unresolved, or resolves having appended exactly the withdrawal
row. -/
theorem withdrawFunds_cases (errs : WithdrawErrs) (transactionId timestamp : String) (d : Db)
    (accountNumber : String) (amount : JsValue) (description : String)
    (hclosed : d.saved = none) :
    ((withdrawFunds errs transactionId timestamp d accountNumber amount description).1 = d ∧
      (withdrawFunds errs transactionId timestamp d accountNumber amount
        description).2.isResolved = false) ∨
    ((withdrawFunds errs transactionId timestamp d accountNumber amount
        description).2.isResolved = true ∧
      (withdrawFunds errs transactionId timestamp d accountNumber amount
        description).1.transactions
        = d.transactions ++
          [withdrawalRecord transactionId accountNumber (parseFloat amount) description] ∧
      (withdrawFunds errs transactionId timestamp d accountNumber amount
        description).1.accounts
        = d.accounts.map
            (Db.updateRow accountNumber (fun b => b.sub (parseFloat amount))) ∧
      (withdrawFunds errs transactionId timestamp d accountNumber amount
        description).1.saved = none ∧
      ∃ account, d.selectActive accountNumber = some account ∧
        (parseFloat amount).le (.fin 0) = false ∧
        (parseFloat amount).gt (account.balance.add account.creditLimit) = false) := by
  have hb := beginTransaction_of_closed d hclosed
  have hr : ({ tables := d.tables, saved := some d.tables } : Db).rollback = d := by
    rw [rollback_of_saved _ d.tables rfl]; exact eq_of_closed d hclosed
  have hr2 : ∀ f : JsNum → JsNum,
      (({ tables := d.tables, saved := some d.tables } : Db).updateBalance accountNumber
        f).rollback = d := by
    intro f
    rw [rollback_of_saved _ d.tables rfl]; exact eq_of_closed d hclosed
  unfold withdrawFunds
  simp only [hb]
  split
  · exact Or.inl ⟨rfl, rfl⟩
  · split
    · exact Or.inl ⟨hr, rfl⟩
    · exact Or.inl ⟨hr, rfl⟩
    · split
      · exact Or.inl ⟨hr, rfl⟩
      · split
        · exact Or.inl ⟨hr, rfl⟩
        · split
          · refine Or.inl ⟨?_, rfl⟩; dsimp only; exact hr2 _
          · refine Or.inl ⟨?_, rfl⟩; dsimp only; exact hr2 _
          · rename_i hle _ _ account _ hsel hgt _ _ _ _ d3 _ hins
            have h3 := insertTransaction_eq_ok _ _ _ hins
            subst h3
            exact Or.inr ⟨rfl, rfl, rfl, rfl, account, hsel, by simpa using hle,
              by simpa using hgt⟩

/-- Every run of `depositFunds` from a database without open transaction either returns
the database as it was, unresolved, or resolves having appended exactly the deposit row. -/
theorem depositFunds_cases (errs : DepositErrs) (transactionId timestamp : String) (d : Db)
    (accountNumber : String) (amount : JsValue) (description : String)
    (hclosed : d.saved = none) :
    ((depositFunds errs transactionId timestamp d accountNumber amount description).1 = d ∧
      (depositFunds errs transactionId timestamp d accountNumber amount
        description).2.isResolved = false) ∨
    ((depositFunds errs transactionId timestamp d accountNumber amount
        description).2.isResolved = true ∧
      (depositFunds errs transactionId timestamp d accountNumber amount
        description).1.transactions
        = d.transactions ++
          [depositRecord transactionId accountNumber (parseFloat amount) description] ∧
      (depositFunds errs transactionId timestamp d accountNumber amount
        description).1.accounts
        = d.accounts.map
            (Db.updateRow accountNumber (fun b => b.add (parseFloat amount))) ∧
      (depositFunds errs transactionId timestamp d accountNumber amount
        description).1.saved = none ∧
      ∃ account, d.selectActive accountNumber = some account ∧
        (parseFloat amount).le (.fin 0) = false) := by
  have hb := beginTransaction_of_closed d hclosed
  have hr : ({ tables := d.tables, saved := some d.tables } : Db).rollback = d := by
    rw [rollback_of_saved _ d.tables rfl]; exact eq_of_closed d hclosed
  have hr2 : ∀ f : JsNum → JsNum,
      (({ tables := d.tables, saved := some d.tables } : Db).updateBalance accountNumber
        f).rollback = d := by
    intro f
    rw [rollback_of_saved _ d.tables rfl]; exact eq_of_closed d hclosed
  unfold depositFunds
  simp only [hb]
  split
  · exact Or.inl ⟨rfl, rfl⟩
  · split
    · exact Or.inl ⟨hr, rfl⟩
    · exact Or.inl ⟨hr, rfl⟩
    · split
      · exact Or.inl ⟨hr, rfl⟩
      · split
        · refine Or.inl ⟨?_, rfl⟩; dsimp only; exact hr2 _
        · refine Or.inl ⟨?_, rfl⟩; dsimp only; exact hr2 _
        · rename_i d3 _ hins
          have h3 := insertTransaction_eq_ok _ _ _ hins
          subst h3
          split
          · refine Or.inl ⟨?_, rfl⟩
            dsimp only
            rw [rollback_of_saved _ d.tables rfl]; exact eq_of_closed d hclosed
          · refine Or.inl ⟨?_, rfl⟩
            dsimp only
            rw [rollback_of_saved _ d.tables rfl]; exact eq_of_closed d hclosed
          · rename_i hle _ _ account _ hsel _ _ _ _ _ _ _ _ _ _
            exact Or.inr ⟨rfl, rfl, rfl, rfl, account, hsel, by simpa using hle⟩

/-- Every run of `transferFunds` from a database without open transaction either returns
the database as it was, unresolved, or resolves having appended exactly the transfer
row. -/
theorem transferFunds_cases (errs : TransferErrs) (transactionId timestamp : String) (d : Db)
    (fromAccount toAccount : String) (amount : JsValue) (description : String)
    (hclosed : d.saved = none) :
    ((transferFunds errs transactionId timestamp d fromAccount toAccount amount
        description).1 = d ∧
      (transferFunds errs transactionId timestamp d fromAccount toAccount amount
        description).2.isResolved = false) ∨
    ((transferFunds errs transactionId timestamp d fromAccount toAccount amount
        description).2.isResolved = true ∧
      (transferFunds errs transactionId timestamp d fromAccount toAccount amount
        description).1.transactions
        = d.transactions ++
          [transferRecord transactionId fromAccount toAccount (parseFloat amount)
            description] ∧
      (transferFunds errs transactionId timestamp d fromAccount toAccount amount
        description).1.accounts
        = (d.accounts.map
            (Db.updateRow fromAccount (fun b => b.sub (parseFloat amount)))).map
            (Db.updateRow toAccount (fun b => b.add (parseFloat amount))) ∧
      (transferFunds errs transactionId timestamp d fromAccount toAccount amount
        description).1.saved = none ∧
      fromAccount ≠ toAccount ∧
      ∃ source dest, d.selectActive fromAccount = some source ∧
        d.selectActive toAccount = some dest ∧
        (parseFloat amount).le (.fin 0) = false ∧
        (parseFloat amount).gt (source.balance.add source.creditLimit) = false) := by
  have hb := beginTransaction_of_closed d hclosed
  have hr : ({ tables := d.tables, saved := some d.tables } : Db).rollback = d := by
    rw [rollback_of_saved _ d.tables rfl]; exact eq_of_closed d hclosed
  have hr2 : ∀ f : JsNum → JsNum,
      (({ tables := d.tables, saved := some d.tables } : Db).updateBalance fromAccount
        f).rollback = d := by
    intro f
    rw [rollback_of_saved _ d.tables rfl]; exact eq_of_closed d hclosed
  have hr3 : ∀ f g : JsNum → JsNum,
      ((({ tables := d.tables, saved := some d.tables } : Db).updateBalance fromAccount
        f).updateBalance toAccount g).rollback = d := by
    intro f g
    rw [rollback_of_saved _ d.tables rfl]; exact eq_of_closed d hclosed
  unfold transferFunds
  simp only [hb]
  split
  · exact Or.inl ⟨rfl, rfl⟩
  · split
    · exact Or.inl ⟨rfl, rfl⟩
    · split
      · exact Or.inl ⟨hr, rfl⟩
      · exact Or.inl ⟨hr, rfl⟩
      · split
        · exact Or.inl ⟨hr, rfl⟩
        · split
          · exact Or.inl ⟨hr, rfl⟩
          · exact Or.inl ⟨hr, rfl⟩
          · split
            · exact Or.inl ⟨hr, rfl⟩
            · split
              · refine Or.inl ⟨?_, rfl⟩; dsimp only; exact hr2 _
              · split
                · refine Or.inl ⟨?_, rfl⟩; dsimp only; exact hr3 _ _
                · refine Or.inl ⟨?_, rfl⟩; dsimp only; exact hr3 _ _
                · rename_i hle hne _ _ source _ hsrc hgt _ _ dest _ hdst _ _ _ _ _ _ d4 _ hins
                  have h4 := insertTransaction_eq_ok _ _ _ hins
                  subst h4
                  exact Or.inr ⟨rfl, rfl, rfl, rfl, hne, source, dest, hsrc, hdst,
                    by simpa using hle, by simpa using hgt⟩

/-! ## Transfers -/

theorem transferFunds_eq (transactionId timestamp : String) (d : Db)
    (fromAccount toAccount : String) (amount : JsValue) (description : String)
    (source dest : Account) (a b c : ℚ)
    (hclosed : d.saved = none) (hne : fromAccount ≠ toAccount)
    (hsrc : d.selectActive fromAccount = some source)
    (hdst : d.selectActive toAccount = some dest)
    (hb : source.balance = .fin b) (hc : source.creditLimit = .fin c)
    (hamt : parseFloat amount = .fin a) (hpos : 0 < a)
    (hle : (JsNum.fin a).gt (roundToDouble (b + c)) = false)
    (hfresh : ∀ t ∈ d.transactions, t.transactionId ≠ transactionId) :
    transferFunds .none transactionId timestamp d fromAccount toAccount amount description
      = ({ tables :=
            { accounts :=
                (d.accounts.map (Db.updateRow fromAccount (fun x => x.sub (.fin a)))).map
                  (Db.updateRow toAccount (fun x => x.add (.fin a))),
              transactions := d.transactions ++
                [transferRecord transactionId fromAccount toAccount (.fin a) description] },
           saved := none },
         .resolved { success := true, transactionId := transactionId,
                     fromAccount := fromAccount, toAccount := toAccount,
                     amount := toFixed (.fin a) 2, description := description,
                     timestamp := timestamp }) := by
  have h1 := beginTransaction_of_closed d hclosed
  have h2 : ({ tables := d.tables, saved := some d.tables } : Db).selectActive fromAccount
      = some source := hsrc
  have h2b : ({ tables := d.tables, saved := some d.tables } : Db).selectActive toAccount
      = some dest := hdst
  have h3 : JsNum.le (.fin a) (.fin 0) = false := by
    rw [JsNum.le_fin]; simpa using hpos
  have h5 := insertTransaction_ok
    ((({ tables := d.tables, saved := some d.tables } : Db).updateBalance fromAccount
        (fun x => x.sub (.fin a))).updateBalance toAccount (fun x => x.add (.fin a)))
    (transferRecord transactionId fromAccount toAccount (.fin a) description)
    rfl hfresh
    (by
      rw [transferRecord, referencesAccount_updateBalance, referencesAccount_updateBalance]
      exact referencesAccount_of_selectActive _ _ _ h2)
    (by
      rw [transferRecord, referencesAccount_updateBalance, referencesAccount_updateBalance]
      exact referencesAccount_of_selectActive _ _ _ h2b)
  unfold transferRecord at h5
  simp only [transferFunds, hamt, h3, h1, h2, h2b, TransferErrs.none, parseFloat_num, hb, hc,
    JsNum.add_fin, hle, h5, Db.commit, transferRecord, hne]
  rfl

/-- C4 (counterexample). The balances after a transfer are not the exact difference and
sum: a transfer of `'0.2'` from an account opened with `'1.1'` to an account opened with
`'0.1'` resolves and leaves `0.9000000000000001` and `0.30000000000000004`, neither of
which is the exact result on the numbers held, nor the number that `0.9` or `0.3`
denotes. -/
theorem transferFunds_rounds_the_balances :
    (runCalls emptyDb
        [.createAccount none 1730800000123 "Ann Lee" "savings" (.str "1.1"),
         .createAccount none 1730800000456 "Bob Ray" "savings" (.str "0.1"),
         .transfer .none "t-1" "2024-01-01T00:00:00.000Z" "ACC000123" "ACC000456"
           (.str "0.2") "Fund Transfer"]).accounts.map (fun x => x.balance)
      = [.fin (4053239664633447 / 4503599627370496),
         .fin (1351079888211149 / 4503599627370496)] ∧
    (runCalls emptyDb
        [.createAccount none 1730800000123 "Ann Lee" "savings" (.str "1.1"),
         .createAccount none 1730800000456 "Bob Ray" "savings" (.str "0.1"),
         .transfer .none "t-1" "2024-01-01T00:00:00.000Z" "ACC000123" "ACC000456"
           (.str "0.2") "Fund Transfer"]).transactions.length = 1 ∧
    parseFloat (.str "1.1") = .fin (2476979795053773 / 2251799813685248) ∧
    parseFloat (.str "0.1") = .fin (3602879701896397 / 36028797018963968) ∧
    parseFloat (.str "0.2") = .fin (3602879701896397 / 18014398509481984) ∧
    (4053239664633447 / 4503599627370496 : ℚ)
      ≠ 2476979795053773 / 2251799813685248 - 3602879701896397 / 18014398509481984 ∧
    (1351079888211149 / 4503599627370496 : ℚ)
      ≠ 3602879701896397 / 36028797018963968 + 3602879701896397 / 18014398509481984 ∧
    parseFloat (.str "0.9") ≠ .fin (4053239664633447 / 4503599627370496) ∧
    parseFloat (.str "0.3") ≠ .fin (1351079888211149 / 4503599627370496) := by
  refine ⟨by decide!, by decide!, by decide!, by decide!, by decide!, by norm_num,
    by norm_num, by decide!, by decide!⟩

/-- C4 (amended). For distinct active accounts `A` (balance `bA`, credit limit `cA`) and
`B` (balance `bB`) and an amount `a > 0` that is not greater than `bA + cA` as the code
computes it, in double arithmetic, `transferFunds`, absent storage errors and with a
fresh transaction id, resolves; the balance of `A` becomes the double nearest to `bA - a`,
that of `B` the double nearest to `bB + a`; and exactly one row is appended to
`transactions`, with `fromAccount = A`, `toAccount = B`, type `transfer` and amount
`a`. -/
theorem transferFunds_success (transactionId timestamp : String) (d : Db)
    (fromAccount toAccount : String) (amount : JsValue) (description : String)
    (source dest : Account) (a bA cA bB : ℚ)
    (hclosed : d.saved = none) (hne : fromAccount ≠ toAccount)
    (hsrc : d.selectActive fromAccount = some source)
    (hdst : d.selectActive toAccount = some dest)
    (hb : source.balance = .fin bA) (hc : source.creditLimit = .fin cA)
    (hbB : dest.balance = .fin bB)
    (hamt : parseFloat amount = .fin a) (hpos : 0 < a)
    (hle : (JsNum.fin a).gt (roundToDouble (bA + cA)) = false)
    (hfresh : ∀ t ∈ d.transactions, t.transactionId ≠ transactionId) :
    (transferFunds .none transactionId timestamp d fromAccount toAccount amount
        description).2
        = .resolved { success := true, transactionId := transactionId,
                      fromAccount := fromAccount, toAccount := toAccount,
                      amount := toFixed (.fin a) 2, description := description,
                      timestamp := timestamp } ∧
      (transferFunds .none transactionId timestamp d fromAccount toAccount amount
          description).1.selectActive fromAccount
        = some { source with balance := roundToDouble (bA - a) } ∧
      (transferFunds .none transactionId timestamp d fromAccount toAccount amount
          description).1.selectActive toAccount
        = some { dest with balance := roundToDouble (bB + a) } ∧
      (transferFunds .none transactionId timestamp d fromAccount toAccount amount
          description).1.transactions
        = d.transactions ++
          [transferRecord transactionId fromAccount toAccount (.fin a) description] ∧
      (transferFunds .none transactionId timestamp d fromAccount toAccount amount
          description).1.saved = none := by
  rw [transferFunds_eq transactionId timestamp d fromAccount toAccount amount description
    source dest a bA cA hclosed hne hsrc hdst hb hc hamt hpos hle hfresh]
  have hnA := (selectActive_accountNumber d fromAccount source hsrc).1
  have hnB := (selectActive_accountNumber d toAccount dest hdst).1
  have hne2 : ¬ toAccount = fromAccount := fun h => hne h.symm
  refine ⟨rfl, ?_, ?_, rfl, rfl⟩
  · show ((d.accounts.map _).map _).find? _ = _
    rw [find_active_map_updateRow, find_active_map_updateRow]
    show ((d.selectActive fromAccount).map _).map _ = _
    rw [hsrc]
    simp [Db.updateRow, hnA, hne, hb, JsNum.sub_fin]
  · show ((d.accounts.map _).map _).find? _ = _
    rw [find_active_map_updateRow, find_active_map_updateRow]
    show ((d.selectActive toAccount).map _).map _ = _
    rw [hdst]
    simp [Db.updateRow, hnB, hne2, hbB, JsNum.add_fin]

theorem transferFunds_success_witness :
    (transferFunds .none "t-1" "2024-01-01T00:00:00.000Z"
        (dbOf [plainAccount "ACC101" 500 0, plainAccount "ACC102" 100 0])
        "ACC101" "ACC102" (.str "200.00") "Fund Transfer").2
        = .resolved { success := true, transactionId := "t-1", fromAccount := "ACC101",
                      toAccount := "ACC102", amount := "200.00",
                      description := "Fund Transfer",
                      timestamp := "2024-01-01T00:00:00.000Z" } ∧
      (transferFunds .none "t-1" "2024-01-01T00:00:00.000Z"
        (dbOf [plainAccount "ACC101" 500 0, plainAccount "ACC102" 100 0])
        "ACC101" "ACC102" (.str "200.00") "Fund Transfer").1.selectActive "ACC101"
        = some (plainAccount "ACC101" 300 0) ∧
      (transferFunds .none "t-1" "2024-01-01T00:00:00.000Z"
        (dbOf [plainAccount "ACC101" 500 0, plainAccount "ACC102" 100 0])
        "ACC101" "ACC102" (.str "200.00") "Fund Transfer").1.selectActive "ACC102"
        = some (plainAccount "ACC102" 300 0) ∧
      (transferFunds .none "t-1" "2024-01-01T00:00:00.000Z"
        (dbOf [plainAccount "ACC101" 500 0, plainAccount "ACC102" 100 0])
        "ACC101" "ACC102" (.str "200.00") "Fund Transfer").1.transactions
        = [transferRecord "t-1" "ACC101" "ACC102" (.fin 200) "Fund Transfer"] := by
  have h := transferFunds_success "t-1" "2024-01-01T00:00:00.000Z"
    (dbOf [plainAccount "ACC101" 500 0, plainAccount "ACC102" 100 0])
    "ACC101" "ACC102" (.str "200.00") "Fund Transfer"
    (plainAccount "ACC101" 500 0) (plainAccount "ACC102" 100 0) 200 500 0 100
    rfl (by decide) (by decide!) (by decide!) rfl rfl rfl (by decide!) (by norm_num)
    (by decide!) (by intro t ht; cases ht)
  exact ⟨h.1.trans (by decide!), h.2.1.trans (by decide!), h.2.2.1.trans (by decide!),
    h.2.2.2.1⟩

/-- C5. Whenever `transferFunds` does not resolve, whatever the reason (invalid amount,
same account, source or destination missing or inactive, insufficient funds, or a storage
error reported at any statement), the database it leaves is the database it was called
on: every balance and the transaction log are as before the call. -/
theorem transferFunds_failure_unchanged (errs : TransferErrs)
    (transactionId timestamp : String) (d : Db) (fromAccount toAccount : String)
    (amount : JsValue) (description : String)
    (hclosed : d.saved = none)
    (hfail : (transferFunds errs transactionId timestamp d fromAccount toAccount amount
      description).2.isResolved = false) :
    (transferFunds errs transactionId timestamp d fromAccount toAccount amount
      description).1 = d := by
  rcases transferFunds_cases errs transactionId timestamp d fromAccount toAccount amount
    description hclosed with h | h
  · exact h.1
  · rw [h.1] at hfail; cases hfail

theorem transferFunds_failure_unchanged_witness :
    (transferFunds
        { selectSource := none, selectDest := none, debit := none,
          credit := some "SQLITE_IOERR: disk I/O error", insert := none }
        "t-1" "2024-01-01T00:00:00.000Z" seededDb "ACC001" "ACC002" (.str "200")
        "Fund Transfer").2
        = .rejected (.ofMessage "Failed to credit destination account") ∧
      (transferFunds
        { selectSource := none, selectDest := none, debit := none,
          credit := some "SQLITE_IOERR: disk I/O error", insert := none }
        "t-1" "2024-01-01T00:00:00.000Z" seededDb "ACC001" "ACC002" (.str "200")
        "Fund Transfer").1 = seededDb :=
  ⟨by decide!,
   transferFunds_failure_unchanged
    { selectSource := none, selectDest := none, debit := none,
      credit := some "SQLITE_IOERR: disk I/O error", insert := none }
    "t-1" "2024-01-01T00:00:00.000Z" seededDb "ACC001" "ACC002" (.str "200")
    "Fund Transfer" rfl (by decide!)⟩

/-! ## Deposits -/

theorem selectByNumber_of_selectActive (l : List Account) (n : String) (a : Account)
    (huniq : (l.map (fun x => x.accountNumber)).Nodup)
    (h : l.find? (fun x => x.accountNumber = n && x.status = "active") = some a) :
    l.find? (fun x => decide (x.accountNumber = n)) = some a := by
  induction l with
  | nil => cases h
  | cons x xs ih =>
    rw [List.map_cons, List.nodup_cons] at huniq
    by_cases hx : x.accountNumber = n
    · by_cases hs : x.status = "active"
      · simp only [List.find?_cons, hx, hs, decide_True, Bool.and_self] at h ⊢
        exact h
      · simp only [List.find?_cons, hx, hs, decide_True, decide_False, Bool.and_false] at h
        have hmem := List.mem_of_find?_eq_some h
        have hp := List.find?_some h
        simp only [Bool.and_eq_true, decide_eq_true_eq] at hp
        exact absurd (List.mem_map.mpr ⟨a, hmem, hp.1.trans hx.symm⟩) huniq.1
    · simp only [List.find?_cons, hx, decide_False, Bool.false_and] at h ⊢
      exact ih huniq.2 h

theorem depositFunds_eq (transactionId timestamp : String) (d : Db)
    (accountNumber : String) (amount : JsValue) (description : String)
    (account : Account) (a b : ℚ)
    (hclosed : d.saved = none) (huniq : d.UniqueAccountNumbers)
    (hsel : d.selectActive accountNumber = some account)
    (hb : account.balance = .fin b)
    (hamt : parseFloat amount = .fin a) (hpos : 0 < a)
    (hfresh : ∀ t ∈ d.transactions, t.transactionId ≠ transactionId) :
    depositFunds .none transactionId timestamp d accountNumber amount description
      = ({ tables :=
            { accounts := d.accounts.map (Db.updateRow accountNumber (fun x => x.add (.fin a))),
              transactions := d.transactions ++
                [depositRecord transactionId accountNumber (.fin a) description] },
           saved := none },
         .resolved { success := true, transactionId := transactionId,
                     accountNumber := accountNumber, amount := toFixed (.fin a) 2,
                     newBalance := toFixed (roundToDouble (b + a)) 2,
                     description := description, timestamp := timestamp }) := by
  have h1 := beginTransaction_of_closed d hclosed
  have h2 : ({ tables := d.tables, saved := some d.tables } : Db).selectActive accountNumber
      = some account := hsel
  have h3 : JsNum.le (.fin a) (.fin 0) = false := by
    rw [JsNum.le_fin]; simpa using hpos
  have hn := (selectActive_accountNumber d accountNumber account hsel).1
  have h5 := insertTransaction_ok
    (({ tables := d.tables, saved := some d.tables } : Db).updateBalance accountNumber
      (fun x => x.add (.fin a)))
    (depositRecord transactionId accountNumber (.fin a) description)
    rfl hfresh rfl
    (by
      rw [depositRecord, referencesAccount_updateBalance]
      exact referencesAccount_of_selectActive _ _ _ h2)
  have h6 : Db.selectByNumber
      { tables :=
          { accounts := d.accounts.map (Db.updateRow accountNumber (fun x => x.add (.fin a))),
            transactions := d.transactions ++
              [depositRecord transactionId accountNumber (.fin a) description] },
        saved := some d.tables } accountNumber
      = some { account with balance := roundToDouble (b + a) } := by
    show (d.accounts.map _).find? _ = _
    rw [List.find?_map]
    have hcomp : ((fun x : Account => decide (x.accountNumber = accountNumber)) ∘
        Db.updateRow accountNumber (fun x => x.add (.fin a)))
        = (fun x : Account => decide (x.accountNumber = accountNumber)) := by
      funext x; simp [updateRow_accountNumber]
    rw [hcomp, selectByNumber_of_selectActive d.accounts accountNumber account huniq hsel]
    simp [Db.updateRow, hn, hb, JsNum.add_fin]
  unfold depositRecord at h5 h6
  simp only [depositFunds, hamt, h3, h1, h2, DepositErrs.none, parseFloat_num,
    h5, Db.commit, depositRecord]
  have h6b : Db.selectByNumber
      { tables :=
          { accounts := (Db.updateBalance { tables := d.tables, saved := some d.tables }
              accountNumber (fun x => x.add (.fin a))).tables.accounts,
            transactions := (Db.updateBalance { tables := d.tables, saved := some d.tables }
              accountNumber (fun x => x.add (.fin a))).transactions ++
              [{ transactionId := transactionId, fromAccount := none,
                 toAccount := some accountNumber, amount := .fin a,
                 transactionType := "deposit", description := description,
                 status := "completed" }] },
        saved := (Db.updateBalance { tables := d.tables, saved := some d.tables }
              accountNumber (fun x => x.add (.fin a))).saved } accountNumber
      = some { account with balance := roundToDouble (b + a) } := h6
  simp only [h6b]
  rfl

/-- C6 (counterexample). The balance after a deposit is not the exact sum: a deposit of
`'0.2'` into an account opened with `'0.1'` resolves and leaves `0.30000000000000004`,
which is neither the sum of the two numbers nor the number that `0.3` denotes (the
reported `newBalance` is `"0.30"`). -/
theorem depositFunds_rounds_the_balance :
    (depositFunds .none "t-1" "2024-01-01T00:00:00.000Z"
        (runCalls emptyDb
          [.createAccount none 1730800000123 "Ann Lee" "savings" (.str "0.1")])
        "ACC000123" (.str "0.2") "Cash Deposit").2
      = .resolved { success := true, transactionId := "t-1", accountNumber := "ACC000123",
                    amount := "0.20", newBalance := "0.30", description := "Cash Deposit",
                    timestamp := "2024-01-01T00:00:00.000Z" } ∧
    (depositFunds .none "t-1" "2024-01-01T00:00:00.000Z"
        (runCalls emptyDb
          [.createAccount none 1730800000123 "Ann Lee" "savings" (.str "0.1")])
        "ACC000123" (.str "0.2") "Cash Deposit").1.accounts.map (fun x => x.balance)
      = [.fin (1351079888211149 / 4503599627370496)] ∧
    parseFloat (.str "0.1") = .fin (3602879701896397 / 36028797018963968) ∧
    parseFloat (.str "0.2") = .fin (3602879701896397 / 18014398509481984) ∧
    (1351079888211149 / 4503599627370496 : ℚ)
      ≠ 3602879701896397 / 36028797018963968 + 3602879701896397 / 18014398509481984 ∧
    parseFloat (.str "0.3") ≠ .fin (1351079888211149 / 4503599627370496) := by
  refine ⟨by decide!, by decide!, by decide!, by decide!, by norm_num, by decide!⟩

/-- C6 (amended). For an amount `a > 0`: if the account is active with balance `b`,
`depositFunds` (absent storage errors, with a fresh transaction id, account numbers being
unique) resolves, the balance becomes the double nearest to `b + a`, exactly one row is
appended with `toAccount` the account, `fromAccount` null, type `deposit` and amount `a`,
and `newBalance` is the new balance printed by `toFixed(2)`, which is with exactly two
fraction digits when it is below `10^21`; if no active account has that number, it is
rejected with the not-found error and the database is unchanged. -/
theorem depositFunds_spec (transactionId timestamp : String) (d : Db)
    (accountNumber : String) (amount : JsValue) (description : String) (a : ℚ)
    (hclosed : d.saved = none) (hamt : parseFloat amount = .fin a) (hpos : 0 < a) :
    (∀ (account : Account) (b : ℚ), d.UniqueAccountNumbers →
      d.selectActive accountNumber = some account → account.balance = .fin b →
      (∀ t ∈ d.transactions, t.transactionId ≠ transactionId) →
      (depositFunds .none transactionId timestamp d accountNumber amount description).2
          = .resolved { success := true, transactionId := transactionId,
                        accountNumber := accountNumber, amount := toFixed (.fin a) 2,
                        newBalance := toFixed (roundToDouble (b + a)) 2,
                        description := description, timestamp := timestamp } ∧
        (depositFunds .none transactionId timestamp d accountNumber amount
            description).1.selectActive accountNumber
          = some { account with balance := roundToDouble (b + a) } ∧
        (depositFunds .none transactionId timestamp d accountNumber amount
            description).1.transactions
          = d.transactions ++
            [depositRecord transactionId accountNumber (.fin a) description] ∧
        (depositFunds .none transactionId timestamp d accountNumber amount
            description).1.saved = none ∧
        (∀ q : ℚ, roundToDouble (b + a) = .fin q → |q| < 10 ^ 21 →
          isTwoDecimal (toFixed (roundToDouble (b + a)) 2) = true)) ∧
    (∀ errs : DepositErrs, d.selectActive accountNumber = none →
      depositFunds errs transactionId timestamp d accountNumber amount description
        = (d, .rejected (.ofMessage "Account not found or inactive"))) := by
  constructor
  · intro account b huniq hsel hb hfresh
    rw [depositFunds_eq transactionId timestamp d accountNumber amount description account
      a b hclosed huniq hsel hb hamt hpos hfresh]
    have hn := (selectActive_accountNumber d accountNumber account hsel).1
    refine ⟨rfl, ?_, rfl, rfl, ?_⟩
    · show (d.accounts.map _).find? _ = _
      rw [find_active_map_updateRow]
      show (d.selectActive accountNumber).map _ = _
      rw [hsel]
      simp [Db.updateRow, hn, hb, JsNum.add_fin]
    · intro q hq hlt
      rw [hq]
      exact toFixed_isTwoDecimal q hlt
  · intro errs hsel
    have h1 := beginTransaction_of_closed d hclosed
    have h2 : ({ tables := d.tables, saved := some d.tables } : Db).selectActive accountNumber
        = none := hsel
    have h3 : JsNum.le (.fin a) (.fin 0) = false := by
      rw [JsNum.le_fin]; simpa using hpos
    have hr : ({ tables := d.tables, saved := some d.tables } : Db).rollback = d := by
      rw [rollback_of_saved _ d.tables rfl]; exact eq_of_closed d hclosed
    unfold depositFunds
    simp only [hamt, h3, h1, h2, hr]
    cases errs.select <;> rfl

theorem depositFunds_spec_witness :
    ((depositFunds .none "t-1" "2024-01-01T00:00:00.000Z" seededDb "ACC001" (.str "200.00")
        "Cash Deposit").2
        = .resolved { success := true, transactionId := "t-1", accountNumber := "ACC001",
                      amount := "200.00", newBalance := "5200.00",
                      description := "Cash Deposit",
                      timestamp := "2024-01-01T00:00:00.000Z" } ∧
      (depositFunds .none "t-1" "2024-01-01T00:00:00.000Z" seededDb "ACC001" (.str "200.00")
        "Cash Deposit").1.transactions
        = [depositRecord "t-1" "ACC001" (.fin 200) "Cash Deposit"]) ∧
    depositFunds .none "t-1" "2024-01-01T00:00:00.000Z" seededDb "ACC999" (.str "200.00")
        "Cash Deposit"
      = (seededDb, .rejected (.ofMessage "Account not found or inactive")) := by
  have h := (depositFunds_spec "t-1" "2024-01-01T00:00:00.000Z" seededDb "ACC001"
    (.str "200.00") "Cash Deposit" 200 rfl (by decide!) (by norm_num)).1
    { accountNumber := "ACC001", customerName := "John Doe", balance := .fin 5000,
      accountType := "savings", status := "active", creditLimit := .fin 10000 }
    5000 (by decide!) (by decide!) rfl (by intro t ht; cases ht)
  have h2 := (depositFunds_spec "t-1" "2024-01-01T00:00:00.000Z" seededDb "ACC999"
    (.str "200.00") "Cash Deposit" 200 rfl (by decide!) (by norm_num)).2 .none (by decide!)
  exact ⟨⟨h.1.trans (by decide!), h.2.2.1⟩, h2⟩

/-! ## The transaction log -/

/-- C7. For every call of `depositFunds`, `withdrawFunds` or `transferFunds`: if the call
resolves, the log afterwards is the log before with exactly one row appended, carrying
the operation's type, amount and account references; if it does not resolve, the log is
the log before.  Either way the earlier rows are all present, unmodified and in place. -/
theorem transaction_log_append_only (errsD : DepositErrs) (errsW : WithdrawErrs)
    (errsT : TransferErrs) (transactionId timestamp : String) (d : Db)
    (accountNumber fromAccount toAccount : String) (amount : JsValue) (description : String)
    (hclosed : d.saved = none) :
    (((depositFunds errsD transactionId timestamp d accountNumber amount
          description).2.isResolved = true →
        (depositFunds errsD transactionId timestamp d accountNumber amount
          description).1.transactions
          = d.transactions ++
            [depositRecord transactionId accountNumber (parseFloat amount) description]) ∧
      ((depositFunds errsD transactionId timestamp d accountNumber amount
          description).2.isResolved = false →
        (depositFunds errsD transactionId timestamp d accountNumber amount
          description).1.transactions = d.transactions)) ∧
    (((withdrawFunds errsW transactionId timestamp d accountNumber amount
          description).2.isResolved = true →
        (withdrawFunds errsW transactionId timestamp d accountNumber amount
          description).1.transactions
          = d.transactions ++
            [withdrawalRecord transactionId accountNumber (parseFloat amount) description]) ∧
      ((withdrawFunds errsW transactionId timestamp d accountNumber amount
          description).2.isResolved = false →
        (withdrawFunds errsW transactionId timestamp d accountNumber amount
          description).1.transactions = d.transactions)) ∧
    (((transferFunds errsT transactionId timestamp d fromAccount toAccount amount
          description).2.isResolved = true →
        (transferFunds errsT transactionId timestamp d fromAccount toAccount amount
          description).1.transactions
          = d.transactions ++
            [transferRecord transactionId fromAccount toAccount (parseFloat amount)
              description]) ∧
      ((transferFunds errsT transactionId timestamp d fromAccount toAccount amount
          description).2.isResolved = false →
        (transferFunds errsT transactionId timestamp d fromAccount toAccount amount
          description).1.transactions = d.transactions)) := by
  refine ⟨⟨?_, ?_⟩, ⟨?_, ?_⟩, ⟨?_, ?_⟩⟩
  · intro h
    rcases depositFunds_cases errsD transactionId timestamp d accountNumber amount
      description hclosed with h1 | h1
    · rw [h1.2] at h; cases h
    · exact h1.2.1
  · intro h
    rcases depositFunds_cases errsD transactionId timestamp d accountNumber amount
      description hclosed with h1 | h1
    · rw [h1.1]
    · rw [h1.1] at h; cases h
  · intro h
    rcases withdrawFunds_cases errsW transactionId timestamp d accountNumber amount
      description hclosed with h1 | h1
    · rw [h1.2] at h; cases h
    · exact h1.2.1
  · intro h
    rcases withdrawFunds_cases errsW transactionId timestamp d accountNumber amount
      description hclosed with h1 | h1
    · rw [h1.1]
    · rw [h1.1] at h; cases h
  · intro h
    rcases transferFunds_cases errsT transactionId timestamp d fromAccount toAccount amount
      description hclosed with h1 | h1
    · rw [h1.2] at h; cases h
    · exact h1.2.1
  · intro h
    rcases transferFunds_cases errsT transactionId timestamp d fromAccount toAccount amount
      description hclosed with h1 | h1
    · rw [h1.1]
    · rw [h1.1] at h; cases h

theorem transaction_log_append_only_witness :
    (depositFunds .none "t-1" "2024-01-01T00:00:00.000Z" seededDb "ACC001" (.str "25")
        "note").1.transactions
        = [depositRecord "t-1" "ACC001" (.fin 25) "note"] ∧
      (withdrawFunds .none "t-1" "2024-01-01T00:00:00.000Z" seededDb "ACC001" (.str "25")
        "note").1.transactions
        = [withdrawalRecord "t-1" "ACC001" (.fin 25) "note"] ∧
      (transferFunds .none "t-1" "2024-01-01T00:00:00.000Z" seededDb "ACC001" "ACC999"
        (.str "25") "note").1.transactions = [] := by
  have h := transaction_log_append_only .none .none .none "t-1" "2024-01-01T00:00:00.000Z"
    seededDb "ACC001" "ACC001" "ACC999" (.str "25") "note" rfl
  exact ⟨(h.1.1 (by decide!)).trans (by decide!), (h.2.1.1 (by decide!)).trans (by decide!),
    h.2.2.2 (by decide!)⟩

/-! ## Argument validation -/

/-- C8. For an amount that is not greater than zero (`parseFloat(amount) <= 0` holds: a
negative number, zero, a value that underflows to zero, or `-Infinity`), `depositFunds`,
`withdrawFunds` and `transferFunds` are each rejected with their own "must be greater than
zero" error, whatever the database holds, whichever accounts are named and whatever the
storage would report (no statement is issued), and the database is returned unchanged. -/
theorem nonpositive_amount_rejected (errsD : DepositErrs) (errsW : WithdrawErrs)
    (errsT : TransferErrs) (transactionId timestamp : String) (d : Db)
    (accountNumber fromAccount toAccount : String) (amount : JsValue) (description : String)
    (hle : (parseFloat amount).le (.fin 0) = true) :
    depositFunds errsD transactionId timestamp d accountNumber amount description
        = (d, .rejected (.ofMessage "Deposit amount must be greater than zero")) ∧
      withdrawFunds errsW transactionId timestamp d accountNumber amount description
        = (d, .rejected (.ofMessage "Withdrawal amount must be greater than zero")) ∧
      transferFunds errsT transactionId timestamp d fromAccount toAccount amount description
        = (d, .rejected (.ofMessage "Transfer amount must be greater than zero")) := by
  refine ⟨?_, ?_, ?_⟩
  · unfold depositFunds; simp only [hle, if_true]
  · unfold withdrawFunds; simp only [hle, if_true]
  · unfold transferFunds; simp only [hle, if_true]

theorem nonpositive_amount_rejected_witness :
    (depositFunds .none "t-1" "2024-01-01T00:00:00.000Z" seededDb "ACC999" (.str "-5")
        "note"
        = (seededDb, .rejected (.ofMessage "Deposit amount must be greater than zero")) ∧
      withdrawFunds .none "t-1" "2024-01-01T00:00:00.000Z" seededDb "ACC999" (.str "-5")
        "note"
        = (seededDb, .rejected (.ofMessage "Withdrawal amount must be greater than zero")) ∧
      transferFunds .none "t-1" "2024-01-01T00:00:00.000Z" seededDb "ACC998" "ACC999"
        (.str "-5") "note"
        = (seededDb, .rejected (.ofMessage "Transfer amount must be greater than zero"))) ∧
    (depositFunds .none "t-1" "2024-01-01T00:00:00.000Z" seededDb "ACC001" (.str "1e-400")
        "note"
        = (seededDb, .rejected (.ofMessage "Deposit amount must be greater than zero")) ∧
      withdrawFunds .none "t-1" "2024-01-01T00:00:00.000Z" seededDb "ACC001" (.str "1e-400")
        "note"
        = (seededDb, .rejected (.ofMessage "Withdrawal amount must be greater than zero")) ∧
      transferFunds .none "t-1" "2024-01-01T00:00:00.000Z" seededDb "ACC001" "ACC002"
        (.str "1e-400") "note"
        = (seededDb, .rejected (.ofMessage "Transfer amount must be greater than zero"))) ∧
    (parseFloat (.num (.inf true))).le (.fin 0) = true :=
  ⟨nonpositive_amount_rejected .none .none .none "t-1" "2024-01-01T00:00:00.000Z" seededDb
      "ACC999" "ACC998" "ACC999" (.str "-5") "note" (by decide!),
    nonpositive_amount_rejected .none .none .none "t-1" "2024-01-01T00:00:00.000Z" seededDb
      "ACC001" "ACC001" "ACC002" (.str "1e-400") "note" (by decide!),
    by decide!⟩

/-- C10. For every account identifier `A` and amount `a > 0`, `transferFunds` from `A` to
`A` is rejected with "Cannot transfer to the same account", whether or not `A` exists or
has funds and whatever the storage would report, and the database is returned
unchanged. -/
theorem transferFunds_same_account (errs : TransferErrs) (transactionId timestamp : String)
    (d : Db) (account : String) (amount : JsValue) (description : String) (a : ℚ)
    (hamt : parseFloat amount = .fin a) (hpos : 0 < a) :
    transferFunds errs transactionId timestamp d account account amount description
      = (d, .rejected (.ofMessage "Cannot transfer to the same account")) := by
  have h : JsNum.le (.fin a) (.fin 0) = false := by
    rw [JsNum.le_fin]; simpa using hpos
  unfold transferFunds
  simp only [hamt, h, if_true]
  rfl

theorem transferFunds_same_account_witness :
    transferFunds .none "t-1" "2024-01-01T00:00:00.000Z" seededDb "ACC999" "ACC999"
        (.str "1000000") "Fund Transfer"
      = (seededDb, .rejected (.ofMessage "Cannot transfer to the same account")) :=
  transferFunds_same_account .none "t-1" "2024-01-01T00:00:00.000Z" seededDb "ACC999"
    (.str "1000000") "Fund Transfer" 1000000 (by decide!) (by norm_num)

/-- C9 (failing input). A non-numeric amount is not caught by the amount check: `'abc'`
parses to `NaN`, and `NaN <= 0` is false.  On the seeded database a withdrawal, a deposit
and a transfer of `'abc'` each go on to their statements and are rejected only by the
`INSERT` into `transactions` ("Failed to record transaction"), after the balance
`UPDATE`s; a failing `UPDATE` is reported as such, and an unknown account is reported as
not found.  None of these is the invalid-input error.  The database ends unchanged, by
`ROLLBACK`. -/
theorem nan_amount_passes_amount_check :
    withdrawFunds .none "t-1" "2024-01-01T00:00:00.000Z" seededDb "ACC001" (.str "abc")
        "ATM Withdrawal"
        = (seededDb, .rejected (.ofMessage "Failed to record transaction")) ∧
      depositFunds .none "t-1" "2024-01-01T00:00:00.000Z" seededDb "ACC001" (.str "abc")
        "Cash Deposit"
        = (seededDb, .rejected (.ofMessage "Failed to record transaction")) ∧
      transferFunds .none "t-1" "2024-01-01T00:00:00.000Z" seededDb "ACC001" "ACC002"
        (.str "abc") "Fund Transfer"
        = (seededDb, .rejected (.ofMessage "Failed to record transaction")) ∧
      withdrawFunds { select := none, update := some "SQLITE_IOERR: disk I/O error",
                      insert := none }
        "t-1" "2024-01-01T00:00:00.000Z" seededDb "ACC001" (.str "abc") "ATM Withdrawal"
        = (seededDb, .rejected (.ofMessage "Failed to process withdrawal")) ∧
      withdrawFunds .none "t-1" "2024-01-01T00:00:00.000Z" seededDb "ACC999" (.str "abc")
        "ATM Withdrawal"
        = (seededDb, .rejected (.ofMessage "Account not found or inactive")) := by
  decide!

/-! ## The credit-limit invariant -/

/-- C1 (failing input). `createAccount` with the non-numeric deposit `'abc'` resolves
(`NaN < 0` is false) and inserts an account whose balance is `NaN`, stored as `NULL`; for
that account `balance >= -creditLimit` is false.  The state is reachable from the seeded
database by this one call, and a withdrawal of 1000000 from the new account then
resolves, since `1000000 > NaN` is false. -/
theorem createAccount_nan_deposit_breaks_credit_limit :
    Reachable (runCalls seededDb
        [.createAccount none 1730800000123 "Jane Doe" "savings" (.str "abc")]) ∧
      (runCalls seededDb
        [.createAccount none 1730800000123 "Jane Doe" "savings" (.str "abc")]).selectActive
          "ACC000123"
        = some { accountNumber := "ACC000123", customerName := "Jane Doe", balance := .nan,
                 accountType := "savings", status := "active", creditLimit := .fin 0 } ∧
      (runCalls seededDb
        [.createAccount none 1730800000123 "Jane Doe" "savings"
          (.str "abc")]).withinCreditLimits = false ∧
      (withdrawFunds .none "t-1" "2024-01-01T00:00:00.000Z"
        (runCalls seededDb
          [.createAccount none 1730800000123 "Jane Doe" "savings" (.str "abc")])
        "ACC000123" (.num (.fin 1000000)) "ATM Withdrawal").2.isResolved = true := by
  refine ⟨⟨_, Or.inr rfl⟩, ?_, ?_, ?_⟩ <;> decide!

/-- Rounding alone can take a balance below the credit limit, with amounts that are
ordinary numbers: from the seeded database, after a deposit of `6775.58` into `ACC001`
(credit limit 10000), a withdrawal of `21775.58` resolves, because the sum
`11775.58 + 10000` is the double `21775.58`, and it leaves the balance
`-10000.000000000002`. -/
theorem rounding_takes_balance_below_credit_limit :
    (runCalls seededDb
        [.deposit .none "t-1" "2024-01-01T00:00:00.000Z" "ACC001" (.str "6775.58")
           "Cash Deposit",
         .withdraw .none "t-2" "2024-01-01T00:00:00.000Z" "ACC001" (.str "21775.58")
           "ATM Withdrawal"]).selectActive "ACC001"
      = some { accountNumber := "ACC001", customerName := "John Doe",
               balance := .fin (-5497558138880001 / 549755813888), accountType := "savings",
               status := "active", creditLimit := .fin 10000 } ∧
    (-5497558138880001 / 549755813888 : ℚ) < -10000 ∧
    (runCalls seededDb
        [.deposit .none "t-1" "2024-01-01T00:00:00.000Z" "ACC001" (.str "6775.58")
           "Cash Deposit",
         .withdraw .none "t-2" "2024-01-01T00:00:00.000Z" "ACC001" (.str "21775.58")
           "ATM Withdrawal"]).withinCreditLimits = false := by
  refine ⟨by decide!, by norm_num, by decide!⟩

/-! ## Account creation -/

theorem insertAccount_eq_ok (d d1 : Db) (a : Account) (h : d.insertAccount a = .ok d1) :
    d1 = { d with tables := { d.tables with accounts := d.accounts ++ [a] } } ∧
      d.accounts.any (fun b => b.accountNumber = a.accountNumber) = false := by
  unfold Db.insertAccount at h
  split at h
  · cases h
  · rename_i hany
    injection h with h
    exact ⟨h.symm, by simpa using hany⟩

/-- Every run of `createAccount` either returns the database as it was, unresolved, or
resolves having appended exactly the row `createdAccount`, whose number was not in use. -/
theorem createAccount_cases (err : Option String) (now : Nat) (d : Db)
    (customerName accountType : String) (initialDeposit : JsValue) :
    ((createAccount err now d customerName accountType initialDeposit).1 = d ∧
      (createAccount err now d customerName accountType initialDeposit).2.isResolved
        = false) ∨
    ((createAccount err now d customerName accountType initialDeposit).2.isResolved = true ∧
      (createAccount err now d customerName accountType initialDeposit).1.accounts
        = d.accounts ++ [createdAccount now customerName accountType initialDeposit] ∧
      (createAccount err now d customerName accountType initialDeposit).1.transactions
        = d.transactions ∧
      (createAccount err now d customerName accountType initialDeposit).1.saved = d.saved ∧
      d.accounts.any (fun b => b.accountNumber = generatedAccountNumber now) = false ∧
      (parseFloat initialDeposit).lt (.fin 0) = false) := by
  unfold createAccount
  dsimp only
  split
  · exact Or.inl ⟨rfl, rfl⟩
  · split
    · exact Or.inl ⟨rfl, rfl⟩
    · split
      · exact Or.inl ⟨rfl, rfl⟩
      · split
        · exact Or.inl ⟨rfl, rfl⟩
        · exact Or.inl ⟨rfl, rfl⟩
        · rename_i hlt _ _ _ _ d1 hins
          have h1 := insertAccount_eq_ok _ _ _ hins
          rcases h1 with ⟨h1, hany⟩
          subst h1
          exact Or.inr ⟨rfl, rfl, rfl, rfl, hany, by simpa using hlt⟩

/-! ## No transaction stays open between calls -/

/-- A call that starts without open transaction ends without open transaction: every
path after `BEGIN TRANSACTION` ends in `ROLLBACK` or `COMMIT`. -/
theorem run_closed (d : Db) (c : LedgerCall) (hclosed : d.saved = none) :
    (c.run d).saved = none := by
  cases c with
  | createAccount err now customerName accountType initialDeposit =>
    rcases createAccount_cases err now d customerName accountType initialDeposit with
      h | ⟨_, _, _, hsaved, _, _⟩
    · exact (congrArg Db.saved h.1).trans hclosed
    · exact hsaved.trans hclosed
  | deposit errs transactionId timestamp accountNumber amount description =>
    rcases depositFunds_cases errs transactionId timestamp d accountNumber amount description
      hclosed with h | ⟨_, _, _, hsaved, _⟩
    · exact (congrArg Db.saved h.1).trans hclosed
    · exact hsaved
  | withdraw errs transactionId timestamp accountNumber amount description =>
    rcases withdrawFunds_cases errs transactionId timestamp d accountNumber amount description
      hclosed with h | ⟨_, _, _, hsaved, _⟩
    · exact (congrArg Db.saved h.1).trans hclosed
    · exact hsaved
  | transfer errs transactionId timestamp fromAccount toAccount amount description =>
    rcases transferFunds_cases errs transactionId timestamp d fromAccount toAccount amount
      description hclosed with h | ⟨_, _, _, hsaved, _⟩
    · exact (congrArg Db.saved h.1).trans hclosed
    · exact hsaved

/-- Every reachable database has no open transaction. -/
theorem reachable_closed (d : Db) (h : Reachable d) : d.saved = none := by
  have key : ∀ (calls : List LedgerCall) (x : Db), x.saved = none →
      (runCalls x calls).saved = none := by
    intro calls
    induction calls with
    | nil => intro x hx; exact hx
    | cons c cs ih => intro x hx; exact ih (c.run x) (run_closed x c hx)
  obtain ⟨calls, h | h⟩ := h
  · rw [h]; exact key calls emptyDb rfl
  · rw [h]; exact key calls seededDb rfl

/-! ## Lemmas on unique account numbers -/

theorem map_accountNumber_updateRow (l : List Account) (n : String) (f : JsNum → JsNum) :
    (l.map (Db.updateRow n f)).map (fun a => a.accountNumber)
      = l.map (fun a => a.accountNumber) := by
  rw [List.map_map]
  congr 1
  funext a
  exact updateRow_accountNumber n f a

theorem mem_of_selectActive (d : Db) (n : String) (a : Account)
    (h : d.selectActive n = some a) : a ∈ d.accounts :=
  List.mem_of_find?_eq_some h

/-! ## Account creation and balance inquiry -/

theorem createAccount_resolved (err : Option String) (now : Nat) (d : Db)
    (customerName accountType : String) (initialDeposit : JsValue)
    (h : (createAccount err now d customerName accountType initialDeposit).2.isResolved
      = true) :
    createAccount err now d customerName accountType initialDeposit
      = ({ tables :=
            { accounts :=
                d.accounts ++ [createdAccount now customerName accountType initialDeposit],
              transactions := d.transactions },
           saved := d.saved },
         .resolved
          { success := true, accountNumber := generatedAccountNumber now,
            customerName := jsTrim customerName, accountType := jsToLowerCase accountType,
            initialBalance := toFixed (parseFloat initialDeposit) 2,
            creditLimit :=
              toFixed (createdAccount now customerName accountType initialDeposit).creditLimit
                2 }) := by
  have key : (createAccount err now d customerName accountType initialDeposit).2.isResolved
        = false ∨
      createAccount err now d customerName accountType initialDeposit
      = ({ tables :=
            { accounts :=
                d.accounts ++ [createdAccount now customerName accountType initialDeposit],
              transactions := d.transactions },
           saved := d.saved },
         .resolved
          { success := true, accountNumber := generatedAccountNumber now,
            customerName := jsTrim customerName, accountType := jsToLowerCase accountType,
            initialBalance := toFixed (parseFloat initialDeposit) 2,
            creditLimit :=
              toFixed (createdAccount now customerName accountType initialDeposit).creditLimit
                2 }) := by
    unfold createAccount
    dsimp only
    split
    · exact Or.inl rfl
    · split
      · exact Or.inl rfl
      · split
        · exact Or.inl rfl
        · split
          · exact Or.inl rfl
          · exact Or.inl rfl
          · rename_i d1 hins
            have h1 := (insertAccount_eq_ok _ _ _ hins).1
            subst h1
            exact Or.inr rfl
  rcases key with hk | hk
  · rw [hk] at h; cases h
  · exact hk

/-- The three argument checks of `createAccount`, as the code makes them: it is rejected
with one of its invalid-input errors exactly when the parsed deposit is `< 0`, the trimmed
name has fewer than 2 code units, or the lower-cased type is not one of the three.  A
deposit that parses to `NaN` satisfies none of these. -/
theorem createAccount_invalid_input_iff (err : Option String) (now : Nat) (d : Db)
    (customerName accountType : String) (initialDeposit : JsValue) :
    ((createAccount err now d customerName accountType initialDeposit).2
        = .rejected (.ofMessage "Initial deposit cannot be negative") ∨
      (createAccount err now d customerName accountType initialDeposit).2
        = .rejected (.ofMessage "Valid customer name is required") ∨
      (createAccount err now d customerName accountType initialDeposit).2
        = .rejected
            (.ofMessage "Invalid account type. Must be savings, checking, or business")) ↔
    ((parseFloat initialDeposit).lt (.fin 0) = true ∨
      jsLength (jsTrim customerName) < 2 ∨
      validAccountTypes.contains (jsToLowerCase accountType) = false) := by
  have hname : (decide (customerName = "") || decide (jsLength (jsTrim customerName) < 2))
      = decide (jsLength (jsTrim customerName) < 2) := by
    by_cases he : customerName = ""
    · subst he
      have : jsLength (jsTrim "") < 2 := by decide
      simp [this]
    · simp [he]
  unfold createAccount
  dsimp only
  rw [hname]
  by_cases h1 : (parseFloat initialDeposit).lt (.fin 0) = true
  · simp [h1]
  · by_cases h2 : jsLength (jsTrim customerName) < 2
    · simp [h1, h2, LedgerError.ofMessage]
    · by_cases h3 : jsToLowerCase accountType ∈ validAccountTypes
      · have h3t : validAccountTypes.contains (jsToLowerCase accountType) = true := by
          simpa using h3
        simp only [h1, h2, h3t, decide_False, Bool.not_true, if_false, Bool.false_eq_true,
          false_or, or_self, iff_false, not_or]
        cases err with
        | some m => simp [LedgerError.ofMessage]
        | none =>
          cases d.insertAccount _ with
          | error m => simp [LedgerError.ofMessage]
          | ok d1 => simp
      · simp [h1, h2, h3, LedgerError.ofMessage]

/-- C11 (failing input). `createAccount('Jane Doe', 'savings', 'abc')`: the deposit is not
a number, yet the call is not rejected; it resolves, reports `initialBalance` `"NaN"`, and
inserts one account whose balance is `NaN`. -/
theorem createAccount_accepts_non_numeric_deposit :
    createAccount none 1730800000123 seededDb "Jane Doe" "savings" (.str "abc")
      = ({ tables :=
            { accounts := sampleAccounts ++
                [{ accountNumber := "ACC000123", customerName := "Jane Doe", balance := .nan,
                   accountType := "savings", status := "active", creditLimit := .fin 0 }],
              transactions := [] },
           saved := none },
         .resolved { success := true, accountNumber := "ACC000123",
                     customerName := "Jane Doe", accountType := "savings",
                     initialBalance := "NaN", creditLimit := "0.00" }) := by
  decide!

/-- The balance a resolved `createAccount` reports has exactly two fraction digits when the
parsed deposit is a finite number below `10^21` (it is not negative, since the call
resolved). -/
theorem toFixed_isTwoDecimal_of_resolved (err : Option String) (now : Nat) (d : Db)
    (customerName accountType : String) (initialDeposit : JsValue)
    (hres : (createAccount err now d customerName accountType initialDeposit).2.isResolved
      = true)
    (q : ℚ) (hq : parseFloat initialDeposit = .fin q) (hlt : q < 10 ^ 21) :
    isTwoDecimal (toFixed (parseFloat initialDeposit) 2) = true := by
  rcases createAccount_cases err now d customerName accountType initialDeposit with
    h | ⟨_, _, _, _, _, hnonneg⟩
  · rw [h.2] at hres; cases hres
  · rw [hq] at hnonneg ⊢
    have h0 : 0 ≤ q := by
      have : ¬ q < 0 := by simpa [JsNum.lt] using hnonneg
      exact not_lt.mp this
    exact toFixed_isTwoDecimal q (by rw [abs_of_nonneg h0]; exact hlt)

/-- C12 (counterexample). The payload does not always report the balance with two
fraction digits: `createAccount('Jane Doe', 'savings', '1e21')` resolves, stores the
balance `10^21` and reports `initialBalance` as `"1e+21"`. -/
theorem createAccount_reports_exponent_notation :
    createAccount none 1730800000123 seededDb "Jane Doe" "savings" (.str "1e21")
      = ({ tables :=
            { accounts := sampleAccounts ++
                [{ accountNumber := "ACC000123", customerName := "Jane Doe",
                   balance := .fin (10 ^ 21), accountType := "savings", status := "active",
                   creditLimit := .fin 0 }],
              transactions := [] },
           saved := none },
         .resolved { success := true, accountNumber := "ACC000123",
                     customerName := "Jane Doe", accountType := "savings",
                     initialBalance := "1e+21", creditLimit := "0.00" }) ∧
    isTwoDecimal "1e+21" = false := by
  constructor <;> decide!

/-- C12 (amended). Whenever `createAccount(name, type, d)` resolves, it has appended
exactly one account: credit limit 1000 if the lower-cased type is `checking` and 0
otherwise, balance the parsed `d`, status `active`, name trimmed, type lower-cased; and
the payload reports the same number, name and type, with `initialBalance` and
`creditLimit` printed by `toFixed(2)`: the credit limit always with exactly two fraction
digits, the balance with exactly two fraction digits when the parsed `d` is a finite
number below `10^21`. -/
theorem createAccount_inserted_account (err : Option String) (now : Nat) (d : Db)
    (customerName accountType : String) (initialDeposit : JsValue)
    (hres : (createAccount err now d customerName accountType initialDeposit).2.isResolved
      = true) :
    (createAccount err now d customerName accountType initialDeposit).1.accounts
        = d.accounts ++
          [{ accountNumber := generatedAccountNumber now,
             customerName := jsTrim customerName,
             balance := parseFloat initialDeposit,
             accountType := jsToLowerCase accountType,
             status := "active",
             creditLimit :=
               if jsToLowerCase accountType = "checking" then .fin 1000 else .fin 0 }] ∧
      (createAccount err now d customerName accountType initialDeposit).2
        = .resolved
            { success := true, accountNumber := generatedAccountNumber now,
              customerName := jsTrim customerName,
              accountType := jsToLowerCase accountType,
              initialBalance := toFixed (parseFloat initialDeposit) 2,
              creditLimit :=
                toFixed (if jsToLowerCase accountType = "checking" then .fin 1000 else .fin 0)
                  2 } ∧
      isTwoDecimal
          (toFixed (if jsToLowerCase accountType = "checking" then .fin 1000 else .fin 0) 2)
        = true ∧
      (∀ q : ℚ, parseFloat initialDeposit = .fin q → q < 10 ^ 21 →
        isTwoDecimal (toFixed (parseFloat initialDeposit) 2) = true) := by
  refine ⟨?_, ?_, ?_, ?_⟩
  · rw [createAccount_resolved err now d customerName accountType initialDeposit hres]
    rfl
  · rw [createAccount_resolved err now d customerName accountType initialDeposit hres]
    rfl
  · split <;> decide!
  · intro q hq hlt
    exact toFixed_isTwoDecimal_of_resolved err now d customerName accountType initialDeposit
      hres q hq hlt

theorem createAccount_inserted_account_witness :
    (createAccount none 1730800000123 seededDb "  Jane Doe " "Checking"
        (.str "100")).1.accounts
        = sampleAccounts ++
          [{ accountNumber := "ACC000123", customerName := "Jane Doe", balance := .fin 100,
             accountType := "checking", status := "active", creditLimit := .fin 1000 }] ∧
      (createAccount none 1730800000123 seededDb "  Jane Doe " "Checking" (.str "100")).2
        = .resolved { success := true, accountNumber := "ACC000123",
                      customerName := "Jane Doe", accountType := "checking",
                      initialBalance := "100.00", creditLimit := "1000.00" } ∧
      isTwoDecimal (toFixed (parseFloat (.str "100")) 2) = true := by
  have h := createAccount_inserted_account none 1730800000123 seededDb "  Jane Doe "
    "Checking" (.str "100") (by decide!)
  exact ⟨h.1.trans (by decide!), h.2.1.trans (by decide!),
    h.2.2.2 100 (by decide!) (by norm_num)⟩

theorem selectActive_append_new (l : List Account) (a : Account)
    (hnew : l.any (fun b => b.accountNumber = a.accountNumber) = false)
    (hactive : a.status = "active") :
    (l ++ [a]).find? (fun x => x.accountNumber = a.accountNumber && x.status = "active")
      = some a := by
  rw [List.find?_append]
  have hnone : l.find? (fun x => x.accountNumber = a.accountNumber && x.status = "active")
      = none := by
    rw [List.find?_eq_none]
    intro x hx
    rw [List.any_eq_false] at hnew
    have := hnew x hx
    simp only [decide_eq_true_eq] at this
    simp [this]
  rw [hnone]
  simp [hactive]

theorem createAccount_then_checkBalance_eq (err : Option String) (now : Nat) (d : Db)
    (customerName accountType : String) (initialDeposit : JsValue) (r : CreateAccountResult)
    (hres : (createAccount err now d customerName accountType initialDeposit).2
      = .resolved r) :
    (checkBalance none (createAccount err now d customerName accountType initialDeposit).1
        r.accountNumber).2
      = .resolved { success := true, account := r.accountNumber,
                    customer := jsTrim customerName,
                    balance := toFixed (parseFloat initialDeposit) 2,
                    accountType := jsToLowerCase accountType } := by
  have hr : (createAccount err now d customerName accountType initialDeposit).2.isResolved
      = true := by rw [hres]; rfl
  rcases createAccount_cases err now d customerName accountType initialDeposit with
    h | ⟨_, _, _, _, hany, _⟩
  · rw [h.2] at hr; cases hr
  · have heq := createAccount_resolved err now d customerName accountType initialDeposit hr
    rw [heq] at hres ⊢
    injection hres with hres
    subst hres
    have hsel := selectActive_append_new d.accounts
      (createdAccount now customerName accountType initialDeposit) hany rfl
    unfold checkBalance
    dsimp only
    have hsel2 : Db.selectActive
        { tables :=
            { accounts :=
                d.accounts ++ [createdAccount now customerName accountType initialDeposit],
              transactions := d.transactions },
          saved := d.saved } (generatedAccountNumber now)
        = some (createdAccount now customerName accountType initialDeposit) := hsel
    rw [hsel2]
    rfl

/-- C13 (counterexample). The balance read back is not always rendered with two
decimals: after `createAccount('Jane Doe', 'checking', '1e21')` has resolved,
`checkBalance` of the new account reports the balance `"1e+21"`. -/
theorem checkBalance_after_large_deposit :
    (createAccount none 1730800000123 seededDb "Jane Doe" "checking" (.str "1e21")).2
      = .resolved { success := true, accountNumber := "ACC000123",
                    customerName := "Jane Doe", accountType := "checking",
                    initialBalance := "1e+21", creditLimit := "1000.00" } ∧
    (checkBalance none
        (createAccount none 1730800000123 seededDb "Jane Doe" "checking" (.str "1e21")).1
        "ACC000123").2
      = .resolved { success := true, account := "ACC000123", customer := "Jane Doe",
                    balance := "1e+21", accountType := "checking" } ∧
    parseFloat (.str "1e21") = .fin (10 ^ 21) ∧
    isTwoDecimal "1e+21" = false := by
  refine ⟨by decide!, by decide!, by decide!, by decide!⟩

/-- C13 (amended). If `createAccount(name, type, d)` resolves with `r`, then
`checkBalance` of `r.accountNumber`, run next and without storage error, resolves with
that account number, `customer` the trimmed name, `accountType` the lower-cased type and
`balance` the parsed `d` printed by `toFixed(2)`, which is with exactly two fraction
digits when the parsed `d` is a finite number below `10^21`. -/
theorem createAccount_then_checkBalance (err : Option String) (now : Nat) (d : Db)
    (customerName accountType : String) (initialDeposit : JsValue) (r : CreateAccountResult)
    (hres : (createAccount err now d customerName accountType initialDeposit).2
      = .resolved r) :
    (checkBalance none (createAccount err now d customerName accountType initialDeposit).1
        r.accountNumber).2
      = .resolved { success := true, account := r.accountNumber,
                    customer := jsTrim customerName,
                    balance := toFixed (parseFloat initialDeposit) 2,
                    accountType := jsToLowerCase accountType } ∧
    (∀ q : ℚ, parseFloat initialDeposit = .fin q → q < 10 ^ 21 →
      isTwoDecimal (toFixed (parseFloat initialDeposit) 2) = true) := by
  refine ⟨createAccount_then_checkBalance_eq err now d customerName accountType
    initialDeposit r hres, ?_⟩
  intro q hq hlt
  exact toFixed_isTwoDecimal_of_resolved err now d customerName accountType initialDeposit
    (by rw [hres]; rfl) q hq hlt

theorem createAccount_then_checkBalance_witness :
    (checkBalance none
        (createAccount none 1730800000123 seededDb "Jane Doe" "checking" (.str "100.00")).1
        "ACC000123").2
      = .resolved { success := true, account := "ACC000123", customer := "Jane Doe",
                    balance := "100.00", accountType := "checking" } ∧
    isTwoDecimal (toFixed (parseFloat (.str "100.00")) 2) = true := by
  have h := createAccount_then_checkBalance none 1730800000123 seededDb "Jane Doe" "checking"
    (.str "100.00")
    { success := true, accountNumber := "ACC000123", customerName := "Jane Doe",
      accountType := "checking", initialBalance := "100.00", creditLimit := "1000.00" }
    (by decide!)
  exact ⟨h.1.trans (by decide!), h.2 100 (by decide!) (by norm_num)⟩

/-- C14 (counterexample). The balance is not always reported with two fraction digits:
after a deposit of `'1e21'` into `ACC001` of the seeded database, which resolves,
`checkBalance('ACC001')` reports the balance `"1e+21"`. -/
theorem checkBalance_reports_exponent_notation :
    (depositFunds .none "t-1" "2024-01-01T00:00:00.000Z" seededDb "ACC001" (.str "1e21")
        "Cash Deposit").2.isResolved = true ∧
    (checkBalance none
        (depositFunds .none "t-1" "2024-01-01T00:00:00.000Z" seededDb "ACC001" (.str "1e21")
          "Cash Deposit").1 "ACC001").2
      = .resolved { success := true, account := "ACC001", customer := "John Doe",
                    balance := "1e+21", accountType := "savings" } ∧
    isTwoDecimal "1e+21" = false := by
  refine ⟨by decide!, by decide!, by decide!⟩

/-- C14 (amended). Without storage error, `checkBalance` is rejected with "Account not
found or inactive" exactly when no account with that number is active (none has the
number, or the one that has it is not active); otherwise it resolves with the number,
customer name and type of the active account with that number and its balance printed by
`toFixed(2)`, which is with exactly two fraction digits when the balance is a finite
number below `10^21` in magnitude.  In every case, storage error included, the database is
returned as it was. -/
theorem checkBalance_spec (d : Db) (accountNumber : String) :
    ((checkBalance none d accountNumber).2
        = .rejected (.ofMessage "Account not found or inactive") ↔
      ∀ a ∈ d.accounts, a.accountNumber = accountNumber → a.status ≠ "active") ∧
    (∀ a : Account, d.selectActive accountNumber = some a →
      a ∈ d.accounts ∧ a.accountNumber = accountNumber ∧ a.status = "active" ∧
      (checkBalance none d accountNumber).2
        = .resolved { success := true, account := a.accountNumber,
                      customer := a.customerName, balance := toFixed a.balance 2,
                      accountType := a.accountType } ∧
      (∀ q : ℚ, a.balance = .fin q → |q| < 10 ^ 21 →
        isTwoDecimal (toFixed a.balance 2) = true)) ∧
    (∀ err : Option String, (checkBalance err d accountNumber).1 = d) := by
  refine ⟨?_, ?_, ?_⟩
  · unfold checkBalance
    dsimp only
    cases hsel : d.selectActive accountNumber with
    | none =>
      simp only [true_iff]
      unfold Db.selectActive at hsel
      rw [List.find?_eq_none] at hsel
      intro a ha hn hs
      exact hsel a ha (by simp [hn, hs])
    | some a =>
      have hmem := mem_of_selectActive d _ _ hsel
      have hp := selectActive_accountNumber d _ _ hsel
      constructor
      · intro h; cases h
      · intro hall
        exact absurd hp.2 (hall a hmem hp.1)
  · intro a hsel
    have hmem := mem_of_selectActive d _ _ hsel
    have hp := selectActive_accountNumber d _ _ hsel
    refine ⟨hmem, hp.1, hp.2, ?_, ?_⟩
    · unfold checkBalance
      dsimp only
      rw [hsel]
      rfl
    · intro q hq hlt
      rw [hq]
      exact toFixed_isTwoDecimal q hlt
  · intro err
    unfold checkBalance
    cases err with
    | some m => rfl
    | none => dsimp only; cases d.selectActive accountNumber <;> rfl

theorem checkBalance_spec_witness :
    (checkBalance none seededDb "ACC999").2
        = .rejected (.ofMessage "Account not found or inactive") ∧
      (checkBalance none seededDb "ACC001").2
        = .resolved { success := true, account := "ACC001", customer := "John Doe",
                      balance := "5000.00", accountType := "savings" } ∧
      isTwoDecimal (toFixed (.fin 5000) 2) = true :=
  ⟨(checkBalance_spec seededDb "ACC999").1.mpr (by decide!),
   ((checkBalance_spec seededDb "ACC001").2.1
      { accountNumber := "ACC001", customerName := "John Doe", balance := .fin 5000,
        accountType := "savings", status := "active", creditLimit := .fin 10000 }
      (by decide!)).2.2.2.1.trans (by decide!),
   ((checkBalance_spec seededDb "ACC001").2.1
      { accountNumber := "ACC001", customerName := "John Doe", balance := .fin 5000,
        accountType := "savings", status := "active", creditLimit := .fin 10000 }
      (by decide!)).2.2.2.2 5000 rfl (by norm_num)⟩

/-! ## The account-number pattern -/

theorem takeWhile_length_eq_iff (p : Char → Bool) (cs : List Char) :
    (cs.takeWhile p).length = cs.length ↔ ∀ c ∈ cs, p c = true := by
  induction cs with
  | nil => simp
  | cons x xs ih =>
    by_cases hx : p x = true
    · simp [List.takeWhile_cons, hx, ih]
    · simp [List.takeWhile_cons, hx]

theorem digits_then_end_nonempty (n before : Nat) (cs : List Char) :
    ((Regex.seq (.digits n) .inputEnd).run before cs).isEmpty = false ↔
      n ≤ cs.length ∧ ∀ c ∈ cs, c.isDigit = true := by
  have hk : (cs.takeWhile Char.isDigit).length ≤ cs.length := (List.takeWhile_sublist _).length_le
  simp only [Regex.run, List.isEmpty_eq_false, ne_eq, List.flatMap_eq_nil_iff, List.mem_map,
    List.mem_range, forall_exists_index, and_imp, forall_apply_eq_imp_iff₂, not_forall]
  constructor
  · rintro ⟨i, hi, hne⟩
    have hdrop : cs.drop ((cs.takeWhile Char.isDigit).length - i) = [] := by
      by_contra hd
      apply hne
      simp [hd]
    rw [List.drop_eq_nil_iff] at hdrop
    have hlen : (cs.takeWhile Char.isDigit).length = cs.length := by omega
    exact ⟨by omega, (takeWhile_length_eq_iff _ _).mp hlen⟩
  · rintro ⟨hn, hall⟩
    have hlen := (takeWhile_length_eq_iff _ _).mpr hall
    refine ⟨0, by omega, ?_⟩
    simp [hlen]

theorem letterMatches_iff (p lower : Char)
    (h : ∀ n : Nat, n < 128 →
      ((Char.ofNat n).toUpper = p.toUpper ↔ Char.ofNat n = p ∨ Char.ofNat n = lower))
    (hp : p.toNat < 128) (hl : lower.toNat < 128) (c : Char) :
    Regex.letterMatches p c = true ↔ c = p ∨ c = lower := by
  unfold Regex.letterMatches
  by_cases hc : c.toNat < 128
  · have := h c.toNat hc
    rw [Char.ofNat_toNat] at this
    simp [hc, this]
  · simp only [hc, decide_False, Bool.false_and, Bool.false_eq_true, false_iff, not_or]
    constructor
    · intro he; rw [he] at hc; exact hc hp
    · intro he; rw [he] at hc; exact hc hl

theorem letterMatches_A (c : Char) : Regex.letterMatches 'A' c = true ↔ c = 'A' ∨ c = 'a' :=
  letterMatches_iff 'A' 'a' (by decide) (by decide) (by decide) c

theorem letterMatches_C (c : Char) : Regex.letterMatches 'C' c = true ↔ c = 'C' ∨ c = 'c' :=
  letterMatches_iff 'C' 'c' (by decide) (by decide) (by decide) c

theorem accountNumberPattern_run (before : Nat) (cs : List Char) :
    (accountNumberPattern.run before cs).isEmpty = false ↔
      before = 0 ∧ ∃ a c₁ c₂ ds, cs = a :: c₁ :: c₂ :: ds ∧
        (a = 'A' ∨ a = 'a') ∧ (c₁ = 'C' ∨ c₁ = 'c') ∧ (c₂ = 'C' ∨ c₂ = 'c') ∧
        3 ≤ ds.length ∧ ∀ d ∈ ds, d.isDigit = true := by
  unfold accountNumberPattern
  by_cases hb : before = 0
  swap
  · simp [Regex.run, hb]
  subst hb
  have hstart : ∀ (r : Regex), (Regex.seq .inputStart r).run 0 cs = r.run 0 cs := by
    intro r; simp [Regex.run]
  rw [hstart]
  have hletter : ∀ (p : Char) (r : Regex) (b : Nat) (c : Char) (rest : List Char),
      (Regex.seq (.letter p) r).run b (c :: rest)
        = if Regex.letterMatches p c then r.run (b + 1) rest else [] := by
    intro p r b c rest
    by_cases hm : Regex.letterMatches p c = true <;> simp [Regex.run, hm]
  have hnil : ∀ (p : Char) (r : Regex) (b : Nat), (Regex.seq (.letter p) r).run b [] = [] := by
    intro p r b; simp [Regex.run]
  match cs with
  | [] => simp [hnil]
  | [a] =>
    rw [hletter]
    by_cases h1 : Regex.letterMatches 'A' a = true <;> simp [h1, hnil]
  | [a, c₁] =>
    rw [hletter]
    by_cases h1 : Regex.letterMatches 'A' a = true
    · rw [if_pos h1, hletter]
      by_cases h2 : Regex.letterMatches 'C' c₁ = true <;> simp [h2, hnil]
    · simp [h1]
  | a :: c₁ :: c₂ :: ds =>
    have hinj : ∀ a' c₁' c₂' ds', a :: c₁ :: c₂ :: ds = a' :: c₁' :: c₂' :: ds' →
        a' = a ∧ c₁' = c₁ ∧ c₂' = c₂ ∧ ds' = ds := by
      intro a' c₁' c₂' ds' heq
      injection heq with e1 heq
      injection heq with e2 heq
      injection heq with e3 e4
      exact ⟨e1.symm, e2.symm, e3.symm, e4.symm⟩
    rw [hletter]
    by_cases h1 : Regex.letterMatches 'A' a = true
    · rw [if_pos h1, hletter]
      by_cases h2 : Regex.letterMatches 'C' c₁ = true
      · rw [if_pos h2, hletter]
        by_cases h3 : Regex.letterMatches 'C' c₂ = true
        · rw [if_pos h3, digits_then_end_nonempty]
          constructor
          · rintro ⟨hlen, hall⟩
            exact ⟨rfl, a, c₁, c₂, ds, rfl, (letterMatches_A a).mp h1,
              (letterMatches_C c₁).mp h2, (letterMatches_C c₂).mp h3, hlen, hall⟩
          · rintro ⟨_, a', c₁', c₂', ds', heq, _, _, _, hlen, hall⟩
            obtain ⟨_, _, _, e4⟩ := hinj _ _ _ _ heq
            subst e4
            exact ⟨hlen, hall⟩
        · rw [if_neg h3]
          constructor
          · intro h; simp at h
          · rintro ⟨_, a', c₁', c₂', ds', heq, _, _, hc, _⟩
            obtain ⟨_, _, e3, _⟩ := hinj _ _ _ _ heq
            subst e3
            exact absurd ((letterMatches_C _).mpr hc) h3
      · rw [if_neg h2]
        constructor
        · intro h; simp at h
        · rintro ⟨_, a', c₁', c₂', ds', heq, _, hc, _⟩
          obtain ⟨_, e2, _, _⟩ := hinj _ _ _ _ heq
          subst e2
          exact absurd ((letterMatches_C _).mpr hc) h2
    · rw [if_neg h1]
      constructor
      · intro h; simp at h
      · rintro ⟨_, a', c₁', c₂', ds', heq, hc, _⟩
        obtain ⟨e1, _, _, _⟩ := hinj _ _ _ _ heq
        subst e1
        exact absurd ((letterMatches_A _).mpr hc) h1

/-- C20. The account-number step predicate `/^ACC\d{3,}$/i.test(input)` accepts an input
exactly when the whole input is one of `A`, `a`, then twice one of `C`, `c`, then three
or more ASCII decimal digits, and nothing else. -/
theorem accountNumberPattern_test_iff (input : String) :
    accountNumberPattern.test input = true ↔
      ∃ a c₁ c₂ ds, input.toList = a :: c₁ :: c₂ :: ds ∧
        (a = 'A' ∨ a = 'a') ∧ (c₁ = 'C' ∨ c₁ = 'c') ∧ (c₂ = 'C' ∨ c₂ = 'c') ∧
        3 ≤ ds.length ∧ ∀ d ∈ ds, d.isDigit = true := by
  unfold Regex.test
  rw [List.any_eq_true]
  constructor
  · rintro ⟨i, _, hi⟩
    have hi2 : (accountNumberPattern.run i (input.toList.drop i)).isEmpty = false := by
      simpa using hi
    obtain ⟨h0, hrest⟩ := (accountNumberPattern_run i _).mp hi2
    subst h0
    simpa using hrest
  · intro h
    refine ⟨0, by simp, ?_⟩
    have := (accountNumberPattern_run 0 input.toList).mpr ⟨rfl, h⟩
    simpa using this

theorem accountNumberPattern_test_iff_witness :
    accountNumberPattern.test "ACC001" = true ∧ accountNumberPattern.test "acc12345" = true ∧
      accountNumberPattern.test "ACC1" = false ∧ accountNumberPattern.test "ACC12" = false ∧
      accountNumberPattern.test " ACC001" = false ∧
      accountNumberPattern.test "ACC001x" = false ∧
      accountNumberPattern.test "XACC001" = false ∧
      accountNumberPattern.test "ACC001\n" = false :=
  ⟨(accountNumberPattern_test_iff "ACC001").mpr
      ⟨'A', 'C', 'C', ['0', '0', '1'], rfl, Or.inl rfl, Or.inl rfl, Or.inl rfl, by decide,
        by decide⟩,
    by decide, by decide, by decide, by decide, by decide, by decide, by decide⟩

/-! ## Lemmas on sessions and collected fields -/

theorem SessionStore.set_same (s : SessionStore) (k : String) (a : SessionState) :
    (s.set k a) k = some a := by
  simp [SessionStore.set]

theorem SessionStore.set_other (s : SessionStore) (k k' : String) (a : SessionState)
    (h : k' ≠ k) : (s.set k a) k' = s k' := by
  simp [SessionStore.set, h]

theorem SessionStore.set_set (s : SessionStore) (k : String) (a b : SessionState) :
    (s.set k a).set k b = s.set k b := by
  funext x
  by_cases h : x = k <;> simp [SessionStore.set, h]

theorem SessionStore.delete_same (s : SessionStore) (k : String) : (s.delete k) k = none := by
  simp [SessionStore.delete]

theorem SessionStore.delete_set (s : SessionStore) (k : String) (a : SessionState) :
    (s.set k a).delete k = s.delete k := by
  funext x
  by_cases h : x = k <;> simp [SessionStore.set, SessionStore.delete, h]

theorem initializeSessionState_of_some (s : SessionStore) (k : String) (st : SessionState)
    (h : s k = some st) : initializeSessionState s k = (s, st) := by
  unfold initializeSessionState
  rw [h]

theorem getField_setField_same (data : List (String × String)) (key value : String) :
    getField (setField data key value) key = some value := by
  unfold getField setField
  split
  · rename_i hany
    induction data with
    | nil => simp at hany
    | cons p ps ih =>
      by_cases hp : p.1 = key
      · simp [List.find?_cons, hp]
      · have hany2 : ps.any (fun q => decide (q.1 = key)) = true := by
          simpa [List.any_cons, hp] using hany
        simp only [List.map_cons, hp, if_false, List.find?_cons, decide_False]
        exact ih hany2
  · rename_i hany
    have hnone : data.find? (fun p => decide (p.1 = key)) = none := by
      rw [List.find?_eq_none]
      intro x hx hx2
      apply hany
      rw [List.any_eq_true]
      exact ⟨x, hx, hx2⟩
    rw [List.find?_append, hnone]
    simp

theorem getField_setField_other (data : List (String × String)) (key value k : String)
    (h : k ≠ key) : getField (setField data key value) k = getField data k := by
  have hkk : ¬ key = k := fun e => h e.symm
  have hmap : ((data.map (fun p => if p.1 = key then (key, value) else p)).find?
        (fun p => decide (p.1 = k))).map (fun p => p.2)
      = (data.find? (fun p => decide (p.1 = k))).map (fun p => p.2) := by
    induction data with
    | nil => rfl
    | cons p ps ih =>
      by_cases hp : p.1 = key
      · have hpk : ¬ p.1 = k := fun e => h (e.symm.trans hp)
        simp only [List.map_cons, hp, if_true, List.find?_cons, hkk, hpk, decide_False]
        exact ih
      · simp only [List.map_cons, hp, if_false, List.find?_cons]
        cases hd : decide (p.1 = k)
        · exact ih
        · rfl
  unfold getField setField
  split
  · exact hmap
  · rw [List.find?_append]
    cases hf : data.find? (fun p => decide (p.1 = k)) <;> simp [hkk]

/-! ## The flow engine -/

/-- A session that is in one of the four flows has every message handed to
`processConversationalFlow`, whatever the message says. -/
theorem inFlow_dispatch (env : Env) (w : World) (userMessage sessionId flow : String)
    (steps : List FlowStep) (state : SessionState)
    (hstate : w.sessionStates sessionId = some state)
    (hcur : state.currentFlow = some flow) (hflow : flowSteps flow = some steps) :
    getBankingBotResponse env w userMessage sessionId
      = processConversationalFlow env w sessionId userMessage flow steps := by
  unfold getBankingBotResponse
  simp only [initializeSessionState_of_some _ _ _ hstate, hcur, Option.some_bind, hflow,
    Option.map_some']

theorem step_name_truthy (flow : String) (steps : List FlowStep) (step : FlowStep)
    (hflow : flowSteps flow = some steps) (hmem : step ∈ steps) :
    truthy (some step.step) = true := by
  unfold flowSteps at hflow
  split at hflow
  · injection hflow with hflow; subst hflow
    simp only [accountCreationFlow, List.mem_cons, List.mem_singleton, List.not_mem_nil,
      or_false] at hmem
    rcases hmem with rfl | rfl | rfl <;> rfl
  · split at hflow
    · injection hflow with hflow; subst hflow
      simp only [transferFlow, List.mem_cons, List.mem_singleton, List.not_mem_nil,
        or_false] at hmem
      rcases hmem with rfl | rfl | rfl <;> rfl
    · split at hflow
      · injection hflow with hflow; subst hflow
        simp only [withdrawalFlow, List.mem_cons, List.mem_singleton, List.not_mem_nil,
          or_false] at hmem
        rcases hmem with rfl | rfl <;> rfl
      · split at hflow
        · injection hflow with hflow; subst hflow
          simp only [depositFlow, List.mem_cons, List.mem_singleton, List.not_mem_nil,
            or_false] at hmem
          rcases hmem with rfl | rfl <;> rfl
        · cases hflow

/-- C15. For each of the four flows, each step index `i` and each input that fails step
`i`'s validation predicate: a message to a session awaiting step `i` leaves the whole
world as it was (session state, every other session, accounts and transaction log) and
is answered with the step's error message, a blank line and the step's prompt, with type
`<flow>_validation_error`. -/
theorem validation_failure_reprompts (env : Env) (w : World)
    (userMessage sessionId flow : String) (steps : List FlowStep) (i : Nat) (step : FlowStep)
    (data : List (String × String))
    (hflow : flowSteps flow = some steps) (hstep : steps[i]? = some step)
    (hstate : w.sessionStates sessionId
      = some { currentFlow := some flow, currentStep := i, data := data,
               waitingFor := some step.step })
    (hinvalid : step.validation userMessage = false) :
    getBankingBotResponse env w userMessage sessionId
      = (w, .response { text := step.errorMessage ++ "\n\n" ++ step.prompt,
                        type := flow ++ "_validation_error", data := none,
                        error := none }) := by
  rw [inFlow_dispatch env w userMessage sessionId flow steps _ hstate rfl hflow]
  have htr := step_name_truthy flow steps step hflow (List.getElem?_mem hstep)
  unfold processConversationalFlow
  simp only [initializeSessionState_of_some _ _ _ hstate, hstep, htr, Bool.or_true, if_true,
    hinvalid, Bool.not_false]

theorem validation_failure_reprompts_witness :
    getBankingBotResponse quietEnv (worldWith (startedFlow "transfer" "fromAccount")) "ACC1"
        "s1"
      = (worldWith (startedFlow "transfer" "fromAccount"),
         .response
          { text := "Please enter a valid account number (format: ACC001).\n\n" ++
              "Which account would you like to transfer FROM? " ++
              "(Enter account number like ACC001):",
            type := "transfer_validation_error", data := none, error := none }) :=
  validation_failure_reprompts quietEnv (worldWith (startedFlow "transfer" "fromAccount"))
    "ACC1" "s1" "transfer" transferFlow 0 (transferFlow.get ⟨0, by decide⟩) [] rfl rfl rfl
    (by decide)

/-- C16. For each of the four flows, each step `i` that is not the last and each input
that passes step `i`'s predicate: a message to a session awaiting step `i` stores the
trimmed input under step `i`'s field name, leaves every other collected field as it was,
sets `currentStep` to `i + 1` and `waitingFor` to the next step's field name, answers
with the next step's prompt with type `<flow>_step_<field>`, and changes nothing else:
the database and the other sessions are as before. -/
theorem valid_input_advances (env : Env) (w : World)
    (userMessage sessionId flow : String) (steps : List FlowStep) (i : Nat)
    (step next : FlowStep) (data : List (String × String))
    (hflow : flowSteps flow = some steps) (hstep : steps[i]? = some step)
    (hnext : steps[i + 1]? = some next)
    (hstate : w.sessionStates sessionId
      = some { currentFlow := some flow, currentStep := i, data := data,
               waitingFor := some step.step })
    (hvalid : step.validation userMessage = true) :
    getBankingBotResponse env w userMessage sessionId
        = ({ db := w.db,
             sessionStates := w.sessionStates.set sessionId
               { currentFlow := some flow, currentStep := i + 1,
                 data := setField data step.step (jsTrim userMessage),
                 waitingFor := some next.step } },
           .response { text := next.prompt, type := flow ++ "_step_" ++ next.step,
                       data := none, error := none }) ∧
      getField (setField data step.step (jsTrim userMessage)) step.step
        = some (jsTrim userMessage) ∧
      ∀ k : String, k ≠ step.step →
        getField (setField data step.step (jsTrim userMessage)) k = getField data k := by
  refine ⟨?_, getField_setField_same _ _ _, fun k hk => getField_setField_other _ _ _ _ hk⟩
  rw [inFlow_dispatch env w userMessage sessionId flow steps _ hstate rfl hflow]
  have htr := step_name_truthy flow steps step hflow (List.getElem?_mem hstep)
  obtain ⟨hlt, hget⟩ := List.getElem?_eq_some.mp hnext
  have hnot : ¬ (i + 1 ≥ steps.length) := by omega
  unfold processConversationalFlow
  simp only [initializeSessionState_of_some _ _ _ hstate, hstep, htr, Bool.or_true, if_true,
    hvalid, Bool.not_true, Bool.false_eq_true, if_false]
  unfold advanceToNextStep
  simp only [dif_neg hnot, List.get_eq_getElem, hget]

theorem valid_input_advances_witness :
    getBankingBotResponse quietEnv (worldWith (startedFlow "transfer" "fromAccount"))
        "acc001" "s1"
      = ({ db := seededDb,
           sessionStates := (worldWith (startedFlow "transfer" "fromAccount")).sessionStates.set
             "s1"
             { currentFlow := some "transfer", currentStep := 1,
               data := [("fromAccount", "acc001")], waitingFor := some "toAccount" } },
         .response
          { text := "Which account would you like to transfer TO? " ++
              "(Enter account number like ACC002):",
            type := "transfer_step_toAccount", data := none, error := none }) :=
  (valid_input_advances quietEnv (worldWith (startedFlow "transfer" "fromAccount"))
    "acc001" "s1" "transfer" transferFlow 0 (transferFlow.get ⟨0, by decide⟩)
    (transferFlow.get ⟨1, by decide⟩) [] rfl rfl rfl rfl (by decide)).1

/-! ## Ledger promises always settle -/

theorem createAccount_not_thrown (err : Option String) (now : Nat) (d : Db)
    (customerName accountType : String) (initialDeposit : JsValue) :
    (createAccount err now d customerName accountType initialDeposit).2 ≠ .thrown := by
  unfold createAccount
  dsimp only
  repeat' split
  all_goals (intro h; cases h)

theorem withdrawFunds_not_thrown (errs : WithdrawErrs) (transactionId timestamp : String)
    (d : Db) (accountNumber : String) (amount : JsValue) (description : String) :
    (withdrawFunds errs transactionId timestamp d accountNumber amount description).2
      ≠ .thrown := by
  unfold withdrawFunds
  dsimp only
  repeat' split
  all_goals (intro h; cases h)

theorem transferFunds_not_thrown (errs : TransferErrs) (transactionId timestamp : String)
    (d : Db) (fromAccount toAccount : String) (amount : JsValue) (description : String) :
    (transferFunds errs transactionId timestamp d fromAccount toAccount amount description).2
      ≠ .thrown := by
  unfold transferFunds
  dsimp only
  repeat' split
  all_goals (intro h; cases h)

theorem selectByNumber_isSome_of_selectActive (d : Db) (n : String) (a : Account)
    (h : d.selectActive n = some a) : ∃ b, d.selectByNumber n = some b := by
  have hmem := mem_of_selectActive d n a h
  have hn := (selectActive_accountNumber d n a h).1
  cases hf : d.selectByNumber n with
  | some b => exact ⟨b, rfl⟩
  | none =>
    unfold Db.selectByNumber at hf
    rw [List.find?_eq_none] at hf
    exact absurd (by simpa using hn) (hf a hmem)

theorem depositFunds_not_thrown (errs : DepositErrs) (transactionId timestamp : String)
    (d : Db) (accountNumber : String) (amount : JsValue) (description : String) :
    (depositFunds errs transactionId timestamp d accountNumber amount description).2
      ≠ .thrown := by
  unfold depositFunds
  dsimp only
  split
  · intro h; cases h
  · split
    · intro h; cases h
    · intro h; cases h
    · split
      · intro h; cases h
      · split
        · intro h; cases h
        · intro h; cases h
        · rename_i d3 _ hins
          have h3 := insertTransaction_eq_ok _ _ _ hins
          subst h3
          split
          · intro h; cases h
          · rename_i hsel _ _ _ _ _ _ _ _ hread
            exfalso
            have hs := selectActive_updateBalance d.beginTransaction accountNumber accountNumber
              (fun b => b.add (parseFloat amount))
            rw [hsel] at hs
            obtain ⟨b, hb⟩ := selectByNumber_isSome_of_selectActive _ _ _ hs
            have hread2 : (d.beginTransaction.updateBalance accountNumber
                (fun b => b.add (parseFloat amount))).selectByNumber accountNumber = none :=
              hread
            rw [hb] at hread2
            cases hread2
          · intro h; cases h

/-! ## Completion of a flow -/

theorem final_step_executes (env : Env) (w : World)
    (userMessage sessionId flow : String) (steps : List FlowStep) (i : Nat) (step : FlowStep)
    (data : List (String × String))
    (hflow : flowSteps flow = some steps) (hstep : steps[i]? = some step)
    (hlast : steps.length = i + 1)
    (hstate : w.sessionStates sessionId
      = some { currentFlow := some flow, currentStep := i, data := data,
               waitingFor := some step.step })
    (hvalid : step.validation userMessage = true) :
    getBankingBotResponse env w userMessage sessionId
      = executeFlowAction env
          { db := w.db,
            sessionStates := w.sessionStates.set sessionId
              { currentFlow := some flow, currentStep := i + 1,
                data := setField data step.step (jsTrim userMessage),
                waitingFor := some step.step } }
          sessionId flow (setField data step.step (jsTrim userMessage)) := by
  rw [inFlow_dispatch env w userMessage sessionId flow steps _ hstate rfl hflow]
  have htr := step_name_truthy flow steps step hflow (List.getElem?_mem hstep)
  have hge : i + 1 ≥ steps.length := by omega
  unfold processConversationalFlow
  simp only [initializeSessionState_of_some _ _ _ hstate, hstep, htr, Bool.or_true, if_true,
    hvalid, Bool.not_true, Bool.false_eq_true, if_false]
  unfold advanceToNextStep
  simp only [dif_pos hge]

theorem flowCompleted_of_parts (w : World) (sessionId flow : String) (state : SessionState)
    (db : Db) (outcome : Outcome Payload) (reply : Reply)
    (hres : ∀ p : Payload, outcome = .resolved p →
      ∃ text : String, reply = .response
        { text := text, type := flow ++ "_success", data := some p, error := none })
    (hrej : ∀ e : LedgerError, outcome = .rejected e →
      ∃ text : String, reply = .response
        { text := text, type := "error", data := none, error := some (.ledger e) }) :
    FlowCompleted w sessionId flow
      ({ db := db, sessionStates := (w.sessionStates.set sessionId state).delete sessionId },
        reply) db outcome := by
  refine ⟨rfl, SessionStore.delete_same _ _, ?_, hres, hrej⟩
  intro k hk
  simp [SessionStore.delete, SessionStore.set, hk]

/-- C17. For each flow, a valid input to a session awaiting the flow's last step (the
earlier fields collected) makes exactly one call of the flow's ledger operation, on the
collected data with account numbers upper-cased: the database afterwards is the one that
call leaves, the session has no entry in the session store (so the next message starts
from an idle session), and the reply is `<flow>_success` carrying the ledger's payload
when the call resolves and `error` carrying the ledger's error object when it is
rejected. -/
theorem final_step_completes (env : Env) (w : World) (userMessage sessionId : String)
    (data : List (String × String)) :
    (∀ name accountType : String,
      w.sessionStates sessionId
        = some { currentFlow := some "account_creation", currentStep := 2, data := data,
                 waitingFor := some "initialDeposit" } →
      getField data "name" = some name → getField data "accountType" = some accountType →
      (!(parseFloat (.str userMessage)).isNaN && (parseFloat (.str userMessage)).ge (.fin 0))
        = true →
      FlowCompleted w sessionId "account_creation"
        (getBankingBotResponse env w userMessage sessionId)
        (createAccount env.createErr env.now w.db name accountType
          (.num (parseFloat (.str (jsTrim userMessage))))).1
        ((createAccount env.createErr env.now w.db name accountType
          (.num (parseFloat (.str (jsTrim userMessage))))).2.map .account)) ∧
    (∀ fromAccount toAccount : String,
      w.sessionStates sessionId
        = some { currentFlow := some "transfer", currentStep := 2, data := data,
                 waitingFor := some "amount" } →
      getField data "fromAccount" = some fromAccount →
      getField data "toAccount" = some toAccount →
      (!(parseFloat (.str userMessage)).isNaN && (parseFloat (.str userMessage)).gt (.fin 0))
        = true →
      FlowCompleted w sessionId "transfer"
        (getBankingBotResponse env w userMessage sessionId)
        (transferFunds env.transferErrs env.transactionId env.timestamp w.db
          (jsToUpperCase fromAccount) (jsToUpperCase toAccount) (.str (jsTrim userMessage))
          "Fund Transfer").1
        ((transferFunds env.transferErrs env.transactionId env.timestamp w.db
          (jsToUpperCase fromAccount) (jsToUpperCase toAccount) (.str (jsTrim userMessage))
          "Fund Transfer").2.map .transfer)) ∧
    (∀ account : String,
      w.sessionStates sessionId
        = some { currentFlow := some "withdrawal", currentStep := 1, data := data,
                 waitingFor := some "amount" } →
      getField data "account" = some account →
      (!(parseFloat (.str userMessage)).isNaN && (parseFloat (.str userMessage)).gt (.fin 0))
        = true →
      FlowCompleted w sessionId "withdrawal"
        (getBankingBotResponse env w userMessage sessionId)
        (withdrawFunds env.withdrawErrs env.transactionId env.timestamp w.db
          (jsToUpperCase account) (.str (jsTrim userMessage)) "ATM Withdrawal").1
        ((withdrawFunds env.withdrawErrs env.transactionId env.timestamp w.db
          (jsToUpperCase account) (.str (jsTrim userMessage)) "ATM Withdrawal").2.map
            .withdrawal)) ∧
    (∀ account : String,
      w.sessionStates sessionId
        = some { currentFlow := some "deposit", currentStep := 1, data := data,
                 waitingFor := some "amount" } →
      getField data "account" = some account →
      (!(parseFloat (.str userMessage)).isNaN && (parseFloat (.str userMessage)).gt (.fin 0))
        = true →
      FlowCompleted w sessionId "deposit"
        (getBankingBotResponse env w userMessage sessionId)
        (depositFunds env.depositErrs env.transactionId env.timestamp w.db
          (jsToUpperCase account) (.str (jsTrim userMessage)) "Cash Deposit").1
        ((depositFunds env.depositErrs env.transactionId env.timestamp w.db
          (jsToUpperCase account) (.str (jsTrim userMessage)) "Cash Deposit").2.map
            .deposit)) := by
  refine ⟨?_, ?_, ?_, ?_⟩
  · intro name accountType hstate hname htype hvalid
    rw [final_step_executes env w userMessage sessionId "account_creation" accountCreationFlow
      2 (accountCreationFlow.get ⟨2, by decide⟩) data rfl rfl rfl hstate hvalid]
    have h1 : getField (setField data "initialDeposit" (jsTrim userMessage)) "name"
        = some name := by
      rw [getField_setField_other _ _ _ _ (by decide)]; exact hname
    have h2 : getField (setField data "initialDeposit" (jsTrim userMessage)) "accountType"
        = some accountType := by
      rw [getField_setField_other _ _ _ _ (by decide)]; exact htype
    have h3 := getField_setField_same data "initialDeposit" (jsTrim userMessage)
    unfold executeFlowAction
    simp only [accountCreationFlow, List.get_eq_getElem, List.getElem_cons_succ,
      List.getElem_cons_zero, h1, h2, h3, if_true, createAccountArgs, Option.getD_some]
    have hnt := createAccount_not_thrown env.createErr env.now w.db name accountType
      (.num (parseFloat (.str (jsTrim userMessage))))
    rcases hc : createAccount env.createErr env.now w.db name accountType
      (.num (parseFloat (.str (jsTrim userMessage)))) with ⟨db, o⟩
    rw [hc] at hnt
    cases o with
    | resolved r =>
      exact flowCompleted_of_parts w sessionId "account_creation" _ db _ _
        (fun p hp => by injection hp with hp; subst hp; exact ⟨_, rfl⟩)
        (fun e he => by cases he)
    | rejected e =>
      exact flowCompleted_of_parts w sessionId "account_creation" _ db _ _
        (fun p hp => by cases hp)
        (fun e' he => by injection he with he; subst he; exact ⟨_, rfl⟩)
    | thrown => exact absurd rfl hnt
  · intro fromAccount toAccount hstate hfrom hto hvalid
    rw [final_step_executes env w userMessage sessionId "transfer" transferFlow
      2 (transferFlow.get ⟨2, by decide⟩) data rfl rfl rfl hstate hvalid]
    have h1 : getField (setField data "amount" (jsTrim userMessage)) "fromAccount"
        = some fromAccount := by
      rw [getField_setField_other _ _ _ _ (by decide)]; exact hfrom
    have h2 : getField (setField data "amount" (jsTrim userMessage)) "toAccount"
        = some toAccount := by
      rw [getField_setField_other _ _ _ _ (by decide)]; exact hto
    have h3 := getField_setField_same data "amount" (jsTrim userMessage)
    unfold executeFlowAction
    have hf1 : ¬ "transfer" = "account_creation" := by decide
    simp only [transferFlow, List.get_eq_getElem, List.getElem_cons_succ,
      List.getElem_cons_zero, h1, h2, h3, if_true, hf1, if_false, amountArg]
    have hnt := transferFunds_not_thrown env.transferErrs env.transactionId env.timestamp w.db
      (jsToUpperCase fromAccount) (jsToUpperCase toAccount) (.str (jsTrim userMessage))
      "Fund Transfer"
    rcases hc : transferFunds env.transferErrs env.transactionId env.timestamp w.db
      (jsToUpperCase fromAccount) (jsToUpperCase toAccount) (.str (jsTrim userMessage))
      "Fund Transfer" with ⟨db, o⟩
    rw [hc] at hnt
    cases o with
    | resolved r =>
      exact flowCompleted_of_parts w sessionId "transfer" _ db _ _
        (fun p hp => by injection hp with hp; subst hp; exact ⟨_, rfl⟩)
        (fun e he => by cases he)
    | rejected e =>
      exact flowCompleted_of_parts w sessionId "transfer" _ db _ _
        (fun p hp => by cases hp)
        (fun e' he => by injection he with he; subst he; exact ⟨_, rfl⟩)
    | thrown => exact absurd rfl hnt
  · intro account hstate hacc hvalid
    rw [final_step_executes env w userMessage sessionId "withdrawal" withdrawalFlow
      1 (withdrawalFlow.get ⟨1, by decide⟩) data rfl rfl rfl hstate hvalid]
    have h1 : getField (setField data "amount" (jsTrim userMessage)) "account"
        = some account := by
      rw [getField_setField_other _ _ _ _ (by decide)]; exact hacc
    have h3 := getField_setField_same data "amount" (jsTrim userMessage)
    unfold executeFlowAction
    have hf1 : ¬ "withdrawal" = "account_creation" := by decide
    have hf2 : ¬ "withdrawal" = "transfer" := by decide
    simp only [withdrawalFlow, List.get_eq_getElem, List.getElem_cons_succ,
      List.getElem_cons_zero, h1, h3, if_true, hf1, hf2, if_false, amountArg]
    have hnt := withdrawFunds_not_thrown env.withdrawErrs env.transactionId env.timestamp w.db
      (jsToUpperCase account) (.str (jsTrim userMessage)) "ATM Withdrawal"
    rcases hc : withdrawFunds env.withdrawErrs env.transactionId env.timestamp w.db
      (jsToUpperCase account) (.str (jsTrim userMessage)) "ATM Withdrawal" with ⟨db, o⟩
    rw [hc] at hnt
    cases o with
    | resolved r =>
      exact flowCompleted_of_parts w sessionId "withdrawal" _ db _ _
        (fun p hp => by injection hp with hp; subst hp; exact ⟨_, rfl⟩)
        (fun e he => by cases he)
    | rejected e =>
      exact flowCompleted_of_parts w sessionId "withdrawal" _ db _ _
        (fun p hp => by cases hp)
        (fun e' he => by injection he with he; subst he; exact ⟨_, rfl⟩)
    | thrown => exact absurd rfl hnt
  · intro account hstate hacc hvalid
    rw [final_step_executes env w userMessage sessionId "deposit" depositFlow
      1 (depositFlow.get ⟨1, by decide⟩) data rfl rfl rfl hstate hvalid]
    have h1 : getField (setField data "amount" (jsTrim userMessage)) "account"
        = some account := by
      rw [getField_setField_other _ _ _ _ (by decide)]; exact hacc
    have h3 := getField_setField_same data "amount" (jsTrim userMessage)
    unfold executeFlowAction
    have hf1 : ¬ "deposit" = "account_creation" := by decide
    have hf2 : ¬ "deposit" = "transfer" := by decide
    have hf3 : ¬ "deposit" = "withdrawal" := by decide
    simp only [depositFlow, List.get_eq_getElem, List.getElem_cons_succ,
      List.getElem_cons_zero, h1, h3, if_true, hf1, hf2, hf3, if_false, amountArg]
    have hnt := depositFunds_not_thrown env.depositErrs env.transactionId env.timestamp w.db
      (jsToUpperCase account) (.str (jsTrim userMessage)) "Cash Deposit"
    rcases hc : depositFunds env.depositErrs env.transactionId env.timestamp w.db
      (jsToUpperCase account) (.str (jsTrim userMessage)) "Cash Deposit" with ⟨db, o⟩
    rw [hc] at hnt
    cases o with
    | resolved r =>
      exact flowCompleted_of_parts w sessionId "deposit" _ db _ _
        (fun p hp => by injection hp with hp; subst hp; exact ⟨_, rfl⟩)
        (fun e he => by cases he)
    | rejected e =>
      exact flowCompleted_of_parts w sessionId "deposit" _ db _ _
        (fun p hp => by cases hp)
        (fun e' he => by injection he with he; subst he; exact ⟨_, rfl⟩)
    | thrown => exact absurd rfl hnt

theorem final_step_completes_witness :
    (getBankingBotResponse quietEnv
        (worldWith { currentFlow := some "transfer", currentStep := 2,
                     data := [("fromAccount", "acc001"), ("toAccount", "ACC002")],
                     waitingFor := some "amount" })
        "200" "s1").1.sessionStates "s1" = none ∧
      (getBankingBotResponse quietEnv
        (worldWith { currentFlow := some "transfer", currentStep := 2,
                     data := [("fromAccount", "acc001"), ("toAccount", "ACC002")],
                     waitingFor := some "amount" })
        "200" "s1").1.db
        = (transferFunds .none "t-1" "2024-01-01T00:00:00.000Z" seededDb "ACC001" "ACC002"
            (.str "200") "Fund Transfer").1 := by
  have h := (final_step_completes quietEnv
    (worldWith { currentFlow := some "transfer", currentStep := 2,
                 data := [("fromAccount", "acc001"), ("toAccount", "ACC002")],
                 waitingFor := some "amount" })
    "200" "s1" [("fromAccount", "acc001"), ("toAccount", "ACC002")]).2.1 "acc001" "ACC002"
    rfl rfl rfl (by decide!)
  exact ⟨h.2.1, h.1.trans (by decide!)⟩

/-- C18 (failing input). A message `cancel` or `stop` to a session that is in a flow is
not treated as a cancellation: the flow dispatch comes first and hands it to the current
step as input.  At the name step of account creation `cancel` passes the validation, is
stored as the customer name and the flow moves on to the account type; at an
account-number step it fails the validation and the step is prompted again.  In both
cases the session stays in its flow and the reply is not `operation_cancelled`. -/
theorem cancel_during_flow_is_step_input :
    ((getBankingBotResponse quietEnv (worldWith (startedFlow "account_creation" "name"))
        "cancel" "s1").1.sessionStates "s1"
        = some { currentFlow := some "account_creation", currentStep := 1,
                 data := [("name", "cancel")], waitingFor := some "accountType" } ∧
      (getBankingBotResponse quietEnv (worldWith (startedFlow "account_creation" "name"))
        "cancel" "s1").2
        = .response
            { text := (accountCreationFlow.get ⟨1, by decide⟩).prompt,
              type := "account_creation_step_accountType", data := none, error := none }) ∧
    ((getBankingBotResponse quietEnv (worldWith (startedFlow "transfer" "fromAccount"))
        "stop" "s1").1.sessionStates "s1"
        = some (startedFlow "transfer" "fromAccount") ∧
      (getBankingBotResponse quietEnv (worldWith (startedFlow "transfer" "fromAccount"))
        "stop" "s1").2
        = .response
            { text := (transferFlow.get ⟨0, by decide⟩).errorMessage ++ "\n\n" ++
                (transferFlow.get ⟨0, by decide⟩).prompt,
              type := "transfer_validation_error", data := none, error := none }) := by
  decide!

/-- C19. For an idle session (no entry, or an entry without current flow) and a message
that selects a flow, the session afterwards has that flow as `currentFlow`,
`currentStep = 0`, empty `data` and `waitingFor` the first step's field name; the reply
text ends with the first step's prompt and has type `<flow>_start`; the database and the
other sessions are as before. -/
theorem idle_message_starts_flow (env : Env) (w : World) (userMessage sessionId flow : String)
    (steps : List FlowStep) (first : FlowStep)
    (hidle : w.sessionStates sessionId = none ∨
      ∃ state, w.sessionStates sessionId = some state ∧ state.currentFlow = none)
    (hsel : selectedFlow (jsToLowerCase userMessage) = some flow)
    (hflow : flowSteps flow = some steps) (hfirst : steps[0]? = some first) :
    ∃ intro : String,
      getBankingBotResponse env w userMessage sessionId
        = ({ db := w.db,
             sessionStates := w.sessionStates.set sessionId
               { currentFlow := some flow, currentStep := 0, data := [],
                 waitingFor := some first.step } },
           .response { text := intro ++ first.prompt, type := flow ++ "_start",
                       data := none, error := none }) := by
  have hinit : ∃ store state, initializeSessionState w.sessionStates sessionId = (store, state) ∧
      state.currentFlow = none ∧
      ∀ st : SessionState, store.set sessionId st = w.sessionStates.set sessionId st := by
    rcases hidle with h | ⟨state, h, hc⟩
    · refine ⟨_, _, by unfold initializeSessionState; rw [h], rfl, ?_⟩
      intro st; exact SessionStore.set_set _ _ _ _
    · exact ⟨_, _, initializeSessionState_of_some _ _ _ h, hc, fun _ => rfl⟩
  obtain ⟨store, state, hi, hc, hset⟩ := hinit
  unfold selectedFlow at hsel
  unfold getBankingBotResponse
  simp only [hi, hc, Option.none_bind]
  split at hsel
  · rename_i h1
    injection hsel with hsel; subst hsel
    injection hflow with hflow; subst hflow
    injection hfirst with hfirst; subst hfirst
    simp only [h1, if_true, hset]
    exact ⟨_, rfl⟩
  · rename_i h1
    split at hsel
    · rename_i h2
      injection hsel with hsel; subst hsel
      injection hflow with hflow; subst hflow
      injection hfirst with hfirst; subst hfirst
      simp only [h1, h2, if_true, if_false, hset]
      exact ⟨_, rfl⟩
    · rename_i h2
      split at hsel
      · rename_i h3
        injection hsel with hsel; subst hsel
        injection hflow with hflow; subst hflow
        injection hfirst with hfirst; subst hfirst
        simp only [h1, h2, h3, if_true, if_false, hset]
        exact ⟨_, rfl⟩
      · rename_i h3
        split at hsel
        · rename_i h4
          injection hsel with hsel; subst hsel
          injection hflow with hflow; subst hflow
          injection hfirst with hfirst; subst hfirst
          simp only [h1, h2, h3, h4, if_true, if_false, hset]
          exact ⟨_, rfl⟩
        · cases hsel

theorem idle_message_starts_flow_witness :
    ∃ intro : String,
      getBankingBotResponse quietEnv { db := seededDb, sessionStates := SessionStore.empty }
          "I want to Transfer money" "s1"
        = ({ db := seededDb,
             sessionStates := SessionStore.empty.set "s1"
               { currentFlow := some "transfer", currentStep := 0, data := [],
                 waitingFor := some "fromAccount" } },
           .response
            { text := intro ++
                "Which account would you like to transfer FROM? " ++
                "(Enter account number like ACC001):",
              type := "transfer_start", data := none, error := none }) := by
  obtain ⟨intro, h⟩ := idle_message_starts_flow quietEnv
    { db := seededDb, sessionStates := SessionStore.empty } "I want to Transfer money" "s1"
    "transfer" transferFlow (transferFlow.get ⟨0, by decide⟩) (Or.inl rfl) (by decide) rfl rfl
  exact ⟨intro, h.trans (by simp [transferFlow, String.append_assoc])⟩

/-! ## The order of the checks of a transfer -/

theorem selectActive_beginTransaction (d : Db) (n : String) :
    d.beginTransaction.selectActive n = d.selectActive n := by
  unfold Db.beginTransaction
  split <;> rfl

/-- C23. `transferFunds` reports the first failure in a fixed order: a non-positive
amount; then equal account numbers; then a source that is missing or inactive (or whose
`SELECT` failed); then insufficient funds on the source, with the available and the
requested amount; then a destination that is missing or inactive (or whose `SELECT`
failed).  Each error is reported exactly when none of the earlier conditions holds, so
an underfunded active source with a missing destination yields insufficient funds. -/
theorem transferFunds_check_order (errs : TransferErrs) (transactionId timestamp : String)
    (d : Db) (fromAccount toAccount : String) (amount : JsValue) (description : String) :
    ((parseFloat amount).le (.fin 0) = true →
      (transferFunds errs transactionId timestamp d fromAccount toAccount amount
        description).2
        = .rejected (.ofMessage "Transfer amount must be greater than zero")) ∧
    ((parseFloat amount).le (.fin 0) = false → fromAccount = toAccount →
      (transferFunds errs transactionId timestamp d fromAccount toAccount amount
        description).2
        = .rejected (.ofMessage "Cannot transfer to the same account")) ∧
    ((parseFloat amount).le (.fin 0) = false → fromAccount ≠ toAccount →
      (errs.selectSource ≠ none ∨ d.selectActive fromAccount = none) →
      (transferFunds errs transactionId timestamp d fromAccount toAccount amount
        description).2
        = .rejected (.ofMessage "Source account not found or inactive")) ∧
    (∀ source : Account, (parseFloat amount).le (.fin 0) = false → fromAccount ≠ toAccount →
      errs.selectSource = none → d.selectActive fromAccount = some source →
      (parseFloat amount).gt (source.balance.add source.creditLimit) = true →
      (transferFunds errs transactionId timestamp d fromAccount toAccount amount
        description).2
        = .rejected
            { error := "Insufficient funds", details := none,
              available := some (toFixed (source.balance.add source.creditLimit) 2),
              requested := some (toFixed (parseFloat amount) 2) }) ∧
    (∀ source : Account, (parseFloat amount).le (.fin 0) = false → fromAccount ≠ toAccount →
      errs.selectSource = none → d.selectActive fromAccount = some source →
      (parseFloat amount).gt (source.balance.add source.creditLimit) = false →
      (errs.selectDest ≠ none ∨ d.selectActive toAccount = none) →
      (transferFunds errs transactionId timestamp d fromAccount toAccount amount
        description).2
        = .rejected (.ofMessage "Destination account not found or inactive")) := by
  refine ⟨?_, ?_, ?_, ?_, ?_⟩
  · intro h
    unfold transferFunds
    simp only [h, if_true]
  · intro h heq
    unfold transferFunds
    simp only [h, heq, if_true, Bool.false_eq_true, if_false]
  · intro h hne hsrc
    unfold transferFunds
    simp only [h, hne, Bool.false_eq_true, if_false, selectActive_beginTransaction]
    rcases hsrc with hsrc | hsrc
    · cases he : errs.selectSource with
      | none => exact absurd he hsrc
      | some m => rfl
    · rw [hsrc]
      cases errs.selectSource <;> rfl
  · intro source h hne herr hsel hgt
    unfold transferFunds
    simp only [h, hne, Bool.false_eq_true, if_false, selectActive_beginTransaction, herr, hsel,
      parseFloat_num, hgt, if_true]
  · intro source h hne herr hsel hgt hdst
    unfold transferFunds
    simp only [h, hne, Bool.false_eq_true, if_false, selectActive_beginTransaction, herr, hsel,
      parseFloat_num, hgt]
    rcases hdst with hdst | hdst
    · cases he : errs.selectDest with
      | none => exact absurd he hdst
      | some m => rfl
    · rw [hdst]
      cases errs.selectDest <;> rfl

theorem transferFunds_check_order_witness :
    seededDb.selectActive "ACC999" = none ∧
    (transferFunds .none "t-1" "2024-01-01T00:00:00.000Z" seededDb "ACC003" "ACC999"
        (.num (.fin 5000)) "Fund Transfer").2
      = .rejected
          { error := "Insufficient funds", details := none,
            available := some "3200.00", requested := some "5000.00" } :=
  ⟨by decide,
    ((transferFunds_check_order .none "t-1" "2024-01-01T00:00:00.000Z" seededDb "ACC003"
      "ACC999" (.num (.fin 5000)) "Fund Transfer").2.2.2.1
      { accountNumber := "ACC003", customerName := "Bob Johnson", balance := .fin 1200,
        accountType := "savings", status := "active", creditLimit := .fin 2000 }
      (by decide!) (by decide) rfl (by decide) (by decide!)).trans (by decide!)⟩

/-! ## Frame conditions -/

theorem sameExceptBalance_refl (touched : List String) (a : Account) :
    Account.sameExceptBalance touched a a :=
  ⟨rfl, rfl, rfl, rfl, rfl, fun _ => rfl⟩

theorem accountsFrame_refl (touched : List String) (d : Db) : Db.AccountsFrame touched d d := by
  unfold Db.AccountsFrame
  induction d.accounts with
  | nil => exact List.Forall₂.nil
  | cons a l ih => exact List.Forall₂.cons (sameExceptBalance_refl touched a) ih

theorem sameExceptBalance_updateRow (touched : List String) (n : String) (f : JsNum → JsNum)
    (hn : n ∈ touched) (a : Account) :
    Account.sameExceptBalance touched a (Db.updateRow n f a) := by
  unfold Db.updateRow
  split
  · rename_i h
    refine ⟨rfl, rfl, rfl, rfl, rfl, ?_⟩
    intro hnot
    exact absurd (h ▸ hn) hnot
  · exact sameExceptBalance_refl touched a

theorem forall₂_map_updateRow (touched : List String) (n : String) (f : JsNum → JsNum)
    (hn : n ∈ touched) (l : List Account) :
    List.Forall₂ (Account.sameExceptBalance touched) l (l.map (Db.updateRow n f)) := by
  induction l with
  | nil => exact List.Forall₂.nil
  | cons a l ih => exact List.Forall₂.cons (sameExceptBalance_updateRow touched n f hn a) ih

theorem sameExceptBalance_trans (touched : List String) (a b c : Account)
    (h1 : Account.sameExceptBalance touched a b) (h2 : Account.sameExceptBalance touched b c) :
    Account.sameExceptBalance touched a c := by
  obtain ⟨h11, h12, h13, h14, h15, h16⟩ := h1
  obtain ⟨h21, h22, h23, h24, h25, h26⟩ := h2
  refine ⟨h21.trans h11, h22.trans h12, h23.trans h13, h24.trans h14, h25.trans h15, ?_⟩
  intro hnot
  exact (h26 (h11 ▸ hnot)).trans (h16 hnot)

theorem forall₂_map_updateRow_twice (touched : List String) (n m : String)
    (f g : JsNum → JsNum) (hn : n ∈ touched) (hm : m ∈ touched) (l : List Account) :
    List.Forall₂ (Account.sameExceptBalance touched) l
      ((l.map (Db.updateRow n f)).map (Db.updateRow m g)) := by
  induction l with
  | nil => exact List.Forall₂.nil
  | cons a l ih =>
    exact List.Forall₂.cons
      (sameExceptBalance_trans touched a _ _ (sameExceptBalance_updateRow touched n f hn a)
        (sameExceptBalance_updateRow touched m g hm _)) ih

/-- C29. Frame conditions of the four mutating ledger functions, for every input and
every injected storage error, from a database without open transaction.  `depositFunds`
and `withdrawFunds` leave the accounts table with the same rows in the same order, each
with its `accountNumber`, `customerName`, `accountType`, `creditLimit` and `status`
unchanged, and with its `balance` unchanged unless it is the named account;
`transferFunds` likewise, with only the source and the destination balance allowed to
change.  `createAccount` leaves the transaction log unchanged and the accounts table
either unchanged (when it does not resolve) or extended at its end by exactly one row
(when it resolves). -/
theorem ledger_frame (d : Db) (hclosed : d.saved = none) :
    (∀ (errs : DepositErrs) (transactionId timestamp accountNumber : String)
        (amount : JsValue) (description : String),
      Db.AccountsFrame [accountNumber] d
        (depositFunds errs transactionId timestamp d accountNumber amount description).1) ∧
    (∀ (errs : WithdrawErrs) (transactionId timestamp accountNumber : String)
        (amount : JsValue) (description : String),
      Db.AccountsFrame [accountNumber] d
        (withdrawFunds errs transactionId timestamp d accountNumber amount description).1) ∧
    (∀ (errs : TransferErrs) (transactionId timestamp fromAccount toAccount : String)
        (amount : JsValue) (description : String),
      Db.AccountsFrame [fromAccount, toAccount] d
        (transferFunds errs transactionId timestamp d fromAccount toAccount amount
          description).1) ∧
    (∀ (err : Option String) (now : Nat) (customerName accountType : String)
        (initialDeposit : JsValue),
      (createAccount err now d customerName accountType initialDeposit).1.transactions
          = d.transactions ∧
      (((createAccount err now d customerName accountType initialDeposit).2.isResolved = false ∧
          (createAccount err now d customerName accountType initialDeposit).1.accounts
            = d.accounts) ∨
        ((createAccount err now d customerName accountType initialDeposit).2.isResolved = true ∧
          ∃ a : Account,
            (createAccount err now d customerName accountType initialDeposit).1.accounts
              = d.accounts ++ [a]))) := by
  refine ⟨?_, ?_, ?_, ?_⟩
  · intro errs transactionId timestamp accountNumber amount description
    rcases depositFunds_cases errs transactionId timestamp d accountNumber amount description
      hclosed with h | ⟨_, _, hacc, _⟩
    · rw [h.1]; exact accountsFrame_refl _ d
    · unfold Db.AccountsFrame
      rw [hacc]
      exact forall₂_map_updateRow _ _ _ (List.mem_singleton.mpr rfl) _
  · intro errs transactionId timestamp accountNumber amount description
    rcases withdrawFunds_cases errs transactionId timestamp d accountNumber amount description
      hclosed with h | ⟨_, _, hacc, _⟩
    · rw [h.1]; exact accountsFrame_refl _ d
    · unfold Db.AccountsFrame
      rw [hacc]
      exact forall₂_map_updateRow _ _ _ (List.mem_singleton.mpr rfl) _
  · intro errs transactionId timestamp fromAccount toAccount amount description
    rcases transferFunds_cases errs transactionId timestamp d fromAccount toAccount amount
      description hclosed with h | ⟨_, _, hacc, _⟩
    · rw [h.1]; exact accountsFrame_refl _ d
    · unfold Db.AccountsFrame
      rw [hacc]
      exact forall₂_map_updateRow_twice _ _ _ _ _ (by simp) (by simp) _
  · intro err now customerName accountType initialDeposit
    rcases createAccount_cases err now d customerName accountType initialDeposit with
      h | ⟨hres, hacc, htx, _⟩
    · exact ⟨by rw [h.1], Or.inl ⟨h.2, by rw [h.1]⟩⟩
    · exact ⟨htx, Or.inr ⟨hres, _, hacc⟩⟩

theorem ledger_frame_witness :
    Db.AccountsFrame ["ACC001", "ACC002"] seededDb
      (transferFunds .none "t-1" "2024-01-01T00:00:00.000Z" seededDb "ACC001" "ACC002"
        (.str "250.50") "Fund Transfer").1 :=
  (ledger_frame seededDb rfl).2.2.1 .none "t-1" "2024-01-01T00:00:00.000Z" "ACC001" "ACC002"
    (.str "250.50") "Fund Transfer"

/-! ## The credit-limit policy -/

theorem run_preserves_row_predicate (P : Account → Prop)
    (hupd : ∀ (n : String) (f : JsNum → JsNum) (a : Account), P a → P (Db.updateRow n f a))
    (hnew : ∀ (now : Nat) (customerName accountType : String) (initialDeposit : JsValue),
      P (createdAccount now customerName accountType initialDeposit))
    (d : Db) (hclosed : d.saved = none) (hd : ∀ a ∈ d.accounts, P a) (c : LedgerCall) :
    ∀ a ∈ (c.run d).accounts, P a := by
  have hmap : ∀ (n : String) (f : JsNum → JsNum) (l : List Account),
      (∀ a ∈ l, P a) → ∀ a ∈ l.map (Db.updateRow n f), P a := by
    intro n f l hl a ha
    obtain ⟨b, hb, rfl⟩ := List.mem_map.mp ha
    exact hupd n f b (hl b hb)
  cases c with
  | createAccount err now customerName accountType initialDeposit =>
    rcases createAccount_cases err now d customerName accountType initialDeposit with
      h | ⟨_, hacc, _⟩
    · show ∀ a ∈ (createAccount err now d customerName accountType initialDeposit).1.accounts,
        P a
      rw [h.1]; exact hd
    · show ∀ a ∈ (createAccount err now d customerName accountType initialDeposit).1.accounts,
        P a
      rw [hacc]
      intro a ha
      rcases List.mem_append.mp ha with ha | ha
      · exact hd a ha
      · rw [List.mem_singleton.mp ha]; exact hnew _ _ _ _
  | deposit errs transactionId timestamp accountNumber amount description =>
    rcases depositFunds_cases errs transactionId timestamp d accountNumber amount description
      hclosed with h | ⟨_, _, hacc, _⟩
    · show ∀ a ∈ (depositFunds errs transactionId timestamp d accountNumber amount
        description).1.accounts, P a
      rw [h.1]; exact hd
    · show ∀ a ∈ (depositFunds errs transactionId timestamp d accountNumber amount
        description).1.accounts, P a
      rw [hacc]; exact hmap _ _ _ hd
  | withdraw errs transactionId timestamp accountNumber amount description =>
    rcases withdrawFunds_cases errs transactionId timestamp d accountNumber amount description
      hclosed with h | ⟨_, _, hacc, _⟩
    · show ∀ a ∈ (withdrawFunds errs transactionId timestamp d accountNumber amount
        description).1.accounts, P a
      rw [h.1]; exact hd
    · show ∀ a ∈ (withdrawFunds errs transactionId timestamp d accountNumber amount
        description).1.accounts, P a
      rw [hacc]; exact hmap _ _ _ hd
  | transfer errs transactionId timestamp fromAccount toAccount amount description =>
    rcases transferFunds_cases errs transactionId timestamp d fromAccount toAccount amount
      description hclosed with h | ⟨_, _, hacc, _⟩
    · show ∀ a ∈ (transferFunds errs transactionId timestamp d fromAccount toAccount amount
        description).1.accounts, P a
      rw [h.1]; exact hd
    · show ∀ a ∈ (transferFunds errs transactionId timestamp d fromAccount toAccount amount
        description).1.accounts, P a
      rw [hacc]; exact hmap _ _ _ (hmap _ _ _ hd)

theorem runCalls_preserves_row_predicate (P : Account → Prop)
    (hupd : ∀ (n : String) (f : JsNum → JsNum) (a : Account), P a → P (Db.updateRow n f a))
    (hnew : ∀ (now : Nat) (customerName accountType : String) (initialDeposit : JsValue),
      P (createdAccount now customerName accountType initialDeposit))
    (calls : List LedgerCall) :
    ∀ d : Db, d.saved = none → (∀ a ∈ d.accounts, P a) →
      ∀ a ∈ (runCalls d calls).accounts, P a := by
  induction calls with
  | nil => intro d _ hd; exact hd
  | cons c cs ih =>
    intro d hclosed hd
    exact ih (c.run d) (run_closed d c hclosed)
      (run_preserves_row_predicate P hupd hnew d hclosed hd c)

theorem followsCreditPolicy_updateRow (n : String) (f : JsNum → JsNum) (a : Account)
    (h : a.FollowsCreditPolicy) : (Db.updateRow n f a).FollowsCreditPolicy := by
  unfold Db.updateRow
  split
  · exact h
  · exact h

theorem isSample_updateRow (n : String) (f : JsNum → JsNum) (a : Account)
    (h : a.IsSample) : (Db.updateRow n f a).IsSample := by
  unfold Db.updateRow
  split
  · exact h
  · exact h

/-- C25, the initial state. The seeded database is reachable (by no call at all) and its
checking account `ACC002` has credit limit `5000`, not `1000`; none of the five sample
accounts follows the policy of `createAccount`. -/
theorem seeded_accounts_break_credit_policy :
    Reachable seededDb ∧ (∀ a ∈ seededDb.accounts, ¬ a.FollowsCreditPolicy) ∧
    (∃ a ∈ seededDb.accounts, a.accountNumber = "ACC002" ∧ a.accountType = "checking" ∧
      a.creditLimit = .fin 5000) :=
  ⟨⟨[], Or.inr rfl⟩, by decide, ⟨_, List.mem_cons_of_mem _ (List.mem_cons_self _ _),
    rfl, rfl, rfl⟩⟩

/-- C25, amended. In every database reachable by sequentially executed calls, every
account either is one of the five sample accounts of `db.js`, with the number, name,
type, status and credit limit it was seeded with, or has a credit limit of `1000` when
its type is `checking` and `0` otherwise; from the empty database every account is of
the second kind. -/
theorem credit_policy_of_created_accounts (d : Db) (calls : List LedgerCall) :
    (d = runCalls seededDb calls →
      ∀ a ∈ d.accounts, a.IsSample ∨ a.FollowsCreditPolicy) ∧
    (d = runCalls emptyDb calls → ∀ a ∈ d.accounts, a.FollowsCreditPolicy) := by
  constructor
  · intro hd
    subst hd
    refine runCalls_preserves_row_predicate (fun a => a.IsSample ∨ a.FollowsCreditPolicy)
      ?_ ?_ calls seededDb rfl ?_
    · intro n f a h
      rcases h with h | h
      · exact Or.inl (isSample_updateRow n f a h)
      · exact Or.inr (followsCreditPolicy_updateRow n f a h)
    · intro now customerName accountType initialDeposit
      exact Or.inr rfl
    · intro a ha
      exact Or.inl ⟨a, ha, rfl, rfl, rfl, rfl, rfl⟩
  · intro hd
    subst hd
    refine runCalls_preserves_row_predicate (fun a => a.FollowsCreditPolicy)
      followsCreditPolicy_updateRow ?_ calls emptyDb rfl ?_
    · intro now customerName accountType initialDeposit
      exact rfl
    · intro a ha
      cases ha

theorem credit_policy_of_created_accounts_witness :
    ∀ a ∈ (runCalls seededDb
        [.createAccount none 1730800000123 "Ann Lee" "Checking" (.num (.fin 50)),
         .withdraw .none "t-1" "2024-01-01T00:00:00.000Z" "ACC800000123" (.str "20")
           "ATM Withdrawal"]).accounts,
      a.IsSample ∨ a.FollowsCreditPolicy :=
  (credit_policy_of_created_accounts _
    [.createAccount none 1730800000123 "Ann Lee" "Checking" (.num (.fin 50)),
     .withdraw .none "t-1" "2024-01-01T00:00:00.000Z" "ACC800000123" (.str "20")
       "ATM Withdrawal"]).1 rfl

/-! ## Decimal digits and the generated account number -/

theorem toDigits_length_of_ge (k : Nat) :
    ∀ n : Nat, 10 ^ k ≤ n → k + 1 ≤ (Nat.toDigits 10 n).length := by
  induction k with
  | zero => intro n _; exact toDigits_length_pos n
  | succ k ih =>
    intro n hn
    have h10 : 10 ≤ n := by
      have : 10 ^ 1 ≤ 10 ^ (k + 1) := Nat.pow_le_pow_right (by decide) (by omega)
      omega
    rw [toDigits_ge_ten n h10, List.length_append, List.length_singleton]
    have hdiv : 10 ^ k ≤ n / 10 := by
      rw [Nat.le_div_iff_mul_le (by decide)]
      rw [Nat.pow_succ] at hn
      exact hn
    have := ih (n / 10) hdiv
    omega

theorem sliceLast_append_singleton (k : Nat) (xs : List Char) (d : Char) :
    sliceLast (k + 1) (xs ++ [d]) = sliceLast k xs ++ [d] := by
  unfold sliceLast
  rw [List.length_append, List.length_singleton, List.drop_append_of_le_length (by omega)]
  congr 2
  omega

theorem padZeros_append_singleton (k : Nat) (xs : List Char) (d : Char) :
    padZeros (k + 1) (xs ++ [d]) = padZeros k xs ++ [d] := by
  unfold padZeros
  rw [List.length_append, List.length_singleton, ← List.append_assoc]
  congr 3
  omega

theorem sliceLast_toDigits (k : Nat) :
    ∀ n : Nat, 10 ^ k ≤ n →
      sliceLast (k + 1) (Nat.toDigits 10 n)
        = padZeros (k + 1) (Nat.toDigits 10 (n % 10 ^ (k + 1))) := by
  induction k with
  | zero =>
    intro n _
    have hr : n % 10 < 10 := Nat.mod_lt _ (by decide)
    simp only [Nat.zero_add, Nat.pow_one]
    rw [toDigits_lt_ten _ hr]
    by_cases h : n < 10
    · rw [toDigits_lt_ten n h, Nat.mod_eq_of_lt h]
      rfl
    · rw [toDigits_ge_ten n (by omega)]
      rw [sliceLast_append_singleton]
      simp [sliceLast, padZeros]
  | succ k ih =>
    intro n hn
    have h10 : 10 ≤ n := by
      have : 10 ^ 1 ≤ 10 ^ (k + 1) := Nat.pow_le_pow_right (by decide) (by omega)
      omega
    have hdiv : 10 ^ k ≤ n / 10 := by
      rw [Nat.le_div_iff_mul_le (by decide)]
      rw [Nat.pow_succ] at hn
      exact hn
    rw [toDigits_ge_ten n h10, sliceLast_append_singleton, ih (n / 10) hdiv]
    have hq : n % 10 ^ (k + 1 + 1) / 10 = n / 10 % 10 ^ (k + 1) := by
      rw [Nat.pow_succ 10 (k + 1), Nat.mul_comm, Nat.mod_mul_right_div_self]
    have hm : n % 10 ^ (k + 1 + 1) % 10 = n % 10 := by
      rw [Nat.pow_succ 10 (k + 1), Nat.mul_comm, Nat.mod_mul_right_mod]
    by_cases hr : n % 10 ^ (k + 1 + 1) < 10
    · rw [toDigits_lt_ten _ hr]
      have hz : n / 10 % 10 ^ (k + 1) = 0 := by
        rw [← hq]; exact Nat.div_eq_of_lt hr
      have hd : n % 10 ^ (k + 1 + 1) = n % 10 := by
        rw [← hm]; exact (Nat.mod_eq_of_lt hr).symm
      rw [hz, hd]
      simp [padZeros, Nat.toDigits, Nat.toDigitsCore, List.replicate_succ']
      rfl
    · rw [toDigits_ge_ten (n % 10 ^ (k + 1 + 1)) (by omega), padZeros_append_singleton, hq, hm]

/-! ## White space, `trim` and `parseFloat` -/

theorem ws_toNat_mem (c : Char) (h : isStrWhiteSpaceChar c = true) :
    c.toNat ∈ [9, 10, 11, 12, 13, 32, 160, 5760, 8192, 8193, 8194, 8195, 8196, 8197, 8198,
      8199, 8200, 8201, 8202, 8232, 8233, 8239, 8287, 12288, 65279] := by
  unfold isStrWhiteSpaceChar at h
  simp only [Bool.or_eq_true, decide_eq_true_eq, Bool.and_eq_true] at h
  simp only [List.mem_cons, List.mem_singleton, List.not_mem_nil, or_false]
  omega

theorem ws_elim (P : Char → Prop)
    (hP : ∀ n ∈ [9, 10, 11, 12, 13, 32, 160, 5760, 8192, 8193, 8194, 8195, 8196, 8197, 8198,
      8199, 8200, 8201, 8202, 8232, 8233, 8239, 8287, 12288, 65279], P (Char.ofNat n))
    (c : Char) (h : isStrWhiteSpaceChar c = true) : P c := by
  have := hP c.toNat (ws_toNat_mem c h)
  rwa [Char.ofNat_toNat] at this

theorem ws_props (c : Char) (h : isStrWhiteSpaceChar c = true) :
    c.isDigit = false ∧ c ≠ '.' ∧ c ≠ 'e' ∧ c ≠ 'E' ∧ c ≠ '+' ∧ c ≠ '-' ∧
      c ∉ "Infinity".toList ∧ jsToLowerChar c = [c] :=
  ws_elim (fun c => c.isDigit = false ∧ c ≠ '.' ∧ c ≠ 'e' ∧ c ≠ 'E' ∧ c ≠ '+' ∧ c ≠ '-' ∧
      c ∉ "Infinity".toList ∧ jsToLowerChar c = [c]) (by decide) c h

theorem takeWhile_isDigit_ws (W : List Char) (hW : ∀ w ∈ W, isStrWhiteSpaceChar w = true) :
    W.takeWhile Char.isDigit = [] := by
  cases W with
  | nil => rfl
  | cons w W =>
    have h := (ws_props w (hW w (List.mem_cons_self _ _))).1
    simp [List.takeWhile_cons, h]

theorem takeWhile_isDigit_append_ws (T W : List Char)
    (hW : ∀ w ∈ W, isStrWhiteSpaceChar w = true) :
    (T ++ W).takeWhile Char.isDigit = T.takeWhile Char.isDigit := by
  induction T with
  | nil => simp [takeWhile_isDigit_ws W hW]
  | cons t T ih =>
    simp only [List.cons_append, List.takeWhile_cons, ih]

theorem dropWhile_isDigit_append_ws (T W : List Char)
    (hW : ∀ w ∈ W, isStrWhiteSpaceChar w = true) :
    (T ++ W).dropWhile Char.isDigit = T.dropWhile Char.isDigit ++ W := by
  induction T with
  | nil =>
    cases W with
    | nil => rfl
    | cons w W =>
      have h := (ws_props w (hW w (List.mem_cons_self _ _))).1
      simp [List.dropWhile_cons, h]
  | cons t T ih =>
    simp only [List.cons_append, List.dropWhile_cons, ih]
    split <;> rfl

theorem isPrefixOf_append_ws (P : List Char) :
    ∀ (T W : List Char), (∀ p ∈ P, isStrWhiteSpaceChar p = false) →
      (∀ w ∈ W, isStrWhiteSpaceChar w = true) →
      P.isPrefixOf (T ++ W) = P.isPrefixOf T := by
  induction P with
  | nil => intro T W _ _; simp
  | cons p P ih =>
    intro T W hP hW
    cases T with
    | nil =>
      cases W with
      | nil => rfl
      | cons w W =>
        have hw := hW w (List.mem_cons_self _ _)
        have hp := hP p (List.mem_cons_self _ _)
        have hne : p ≠ w := by
          intro he; rw [he, hw] at hp; cases hp
        simp [List.isPrefixOf, hne]
    | cons t T =>
      show (p == t && P.isPrefixOf (T ++ W)) = (p == t && P.isPrefixOf T)
      rw [ih T W (fun q hq => hP q (List.mem_cons_of_mem _ hq)) hW]

theorem parseExponent_append_ws (r W : List Char)
    (hW : ∀ w ∈ W, isStrWhiteSpaceChar w = true) :
    parseExponent (r ++ W) = parseExponent r := by
  cases r with
  | nil =>
    cases W with
    | nil => rfl
    | cons w W =>
      obtain ⟨_, _, h3, h4, _⟩ := ws_props w (hW w (List.mem_cons_self _ _))
      simp [parseExponent, h3, h4]
  | cons c r =>
    simp only [List.cons_append, parseExponent]
    split
    · cases r with
      | nil =>
        cases W with
        | nil => rfl
        | cons w W =>
          obtain ⟨h1, _, _, _, h5, h6, _⟩ := ws_props w (hW w (List.mem_cons_self _ _))
          simp only [List.nil_append]
          split
          · rename_i heq; injection heq with heq _; exact absurd heq h5
          · rename_i heq; injection heq with heq _; exact absurd heq h6
          · simp [List.takeWhile_cons, h1]
      | cons c' t =>
        simp only [List.cons_append]
        split
        · rename_i heq
          injection heq with h1 h2
          subst h1; subst h2
          simp only [takeWhile_isDigit_append_ws _ W hW]
        · rename_i heq
          injection heq with h1 h2
          subst h1; subst h2
          simp only [takeWhile_isDigit_append_ws _ W hW]
        · rename_i hp hm
          have e : c' :: (t ++ W) = (c' :: t) ++ W := rfl
          rw [e, takeWhile_isDigit_append_ws _ W hW]
          split
          · rename_i hemp
            split
            · rename_i heq; injection heq with h1 h2; exact (hp (t ++ W) (by rw [h1])).elim
            · rename_i heq; injection heq with h1 h2; exact (hm (t ++ W) (by rw [h1])).elim
            · rfl
          · rename_i hemp
            split
            · rename_i heq; injection heq with h1 h2; exact (hp (t ++ W) (by rw [h1])).elim
            · rename_i heq; injection heq with h1 h2; exact (hm (t ++ W) (by rw [h1])).elim
            · rfl
    · rfl
theorem fractionDigits_append_ws (r1 W : List Char)
    (hW : ∀ w ∈ W, isStrWhiteSpaceChar w = true) :
    (match r1 ++ W with
      | '.' :: r => r.takeWhile Char.isDigit
      | _ => [])
    = (match r1 with
      | '.' :: r => r.takeWhile Char.isDigit
      | _ => []) := by
  cases r1 with
  | nil =>
    cases W with
    | nil => rfl
    | cons w W =>
      have h2 := (ws_props w (hW w (List.mem_cons_self _ _))).2.1
      simp only [List.nil_append]
      split
      · rename_i heq; injection heq with h _; exact absurd h h2
      · rfl
  | cons c r =>
    simp only [List.cons_append]
    split
    · rename_i heq
      injection heq with h1 h2
      subst h1; subst h2
      exact takeWhile_isDigit_append_ws _ W hW
    · rename_i hne
      split
      · rename_i heq; injection heq with h1 h2; exact (hne (r ++ W) (by rw [h1])).elim
      · rfl

theorem afterFraction_append_ws (r1 W : List Char)
    (hW : ∀ w ∈ W, isStrWhiteSpaceChar w = true) :
    (match r1 ++ W with
      | '.' :: r => r.dropWhile Char.isDigit
      | _ => r1 ++ W)
    = (match r1 with
      | '.' :: r => r.dropWhile Char.isDigit
      | _ => r1) ++ W := by
  cases r1 with
  | nil =>
    cases W with
    | nil => rfl
    | cons w W =>
      have h2 := (ws_props w (hW w (List.mem_cons_self _ _))).2.1
      simp only [List.nil_append]
      split
      · rename_i heq; injection heq with h _; exact absurd h h2
      · rfl
  | cons c r =>
    simp only [List.cons_append]
    split
    · rename_i heq
      injection heq with h1 h2
      subst h1; subst h2
      exact dropWhile_isDigit_append_ws _ W hW
    · rename_i hne
      split
      · rename_i heq; injection heq with h1 h2; exact (hne (r ++ W) (by rw [h1])).elim
      · rfl

theorem parseUnsigned_append_ws (negative : Bool) (T W : List Char)
    (hW : ∀ w ∈ W, isStrWhiteSpaceChar w = true) :
    parseUnsigned negative (T ++ W) = parseUnsigned negative T := by
  unfold parseUnsigned
  simp only [isPrefixOf_append_ws "Infinity".toList T W (by decide) hW, takeWhile_isDigit_append_ws T W hW,
    dropWhile_isDigit_append_ws T W hW, fractionDigits_append_ws _ W hW,
    afterFraction_append_ws _ W hW, parseExponent_append_ws _ W hW]

theorem trimChars_decompose (cs : List Char) :
    ∃ W : List Char, (∀ w ∈ W, isStrWhiteSpaceChar w = true) ∧
      cs.dropWhile isStrWhiteSpaceChar = trimChars cs ++ W ∧
      (trimChars cs).dropWhile isStrWhiteSpaceChar = trimChars cs := by
  have hdec0 : ∃ W : List Char, (∀ w ∈ W, isStrWhiteSpaceChar w = true) ∧
      cs.dropWhile isStrWhiteSpaceChar = trimChars cs ++ W := by
    refine ⟨((cs.dropWhile isStrWhiteSpaceChar).reverse.takeWhile isStrWhiteSpaceChar).reverse,
      ?_, ?_⟩
    · intro w hw
      rw [List.mem_reverse] at hw
      exact (List.mem_takeWhile_imp hw)
    · unfold trimChars
      rw [← List.reverse_append, List.takeWhile_append_dropWhile, List.reverse_reverse]
  obtain ⟨W, hW, hdec⟩ := hdec0
  refine ⟨W, hW, hdec, ?_⟩
  cases ht : trimChars cs with
  | nil => rfl
  | cons a t =>
    rw [ht] at hdec
    have hhead := List.head?_dropWhile_not isStrWhiteSpaceChar cs
    rw [hdec] at hhead
    have ha : isStrWhiteSpaceChar a = false := by
      simpa using hhead
    simp [List.dropWhile_cons, ha]

theorem decimalPrefixValue_trim (s : String) :
    decimalPrefixValue (jsTrim s) = decimalPrefixValue s := by
  obtain ⟨W, hW, hdec, hself⟩ := trimChars_decompose s.toList
  have key : (jsTrim s).toList = trimChars s.toList := rfl
  unfold decimalPrefixValue
  rw [key, hself, hdec]
  cases ht : trimChars s.toList with
  | nil =>
    simp only [List.nil_append]
    cases W with
    | nil => rfl
    | cons w W =>
      obtain ⟨_, _, _, _, h5, h6, _⟩ := ws_props w (hW w (List.mem_cons_self _ _))
      split
      · rename_i heq
        first
          | exact absurd rfl h5
          | (injection heq with h _; exact absurd h h5)
      · rename_i heq
        first
          | exact absurd rfl h6
          | (injection heq with h _; exact absurd h h6)
      · exact (parseUnsigned_append_ws false [] (w :: W) hW).symm
  | cons c t =>
    simp only [List.cons_append]
    split
    · rename_i heq
      injection heq with h1 h2
      subst h1; subst h2
      exact (parseUnsigned_append_ws false _ W hW).symm
    · rename_i heq
      injection heq with h1 h2
      subst h1; subst h2
      exact (parseUnsigned_append_ws true _ W hW).symm
    · rename_i hp hm
      split
      · rename_i heq; injection heq with h1 h2; exact (hp t (by rw [h1])).elim
      · rename_i heq; injection heq with h1 h2; exact (hm t (by rw [h1])).elim
      · exact (parseUnsigned_append_ws false (c :: t) W hW).symm

theorem parseFloatString_trim (s : String) :
    parseFloatString (jsTrim s) = parseFloatString s :=
  congrArg JsNum.toDouble (decimalPrefixValue_trim s)

theorem roundToDouble_ne_nan (q : ℚ) : roundToDouble q ≠ .nan := by
  intro h
  unfold roundToDouble at h
  split at h
  · cases h
  · split at h
    · cases h
    · cases h

theorem toDouble_eq_nan_iff (x : JsNum) : x.toDouble = .nan ↔ x = .nan := by
  cases x with
  | nan => exact ⟨fun _ => rfl, fun _ => rfl⟩
  | inf s => constructor <;> (intro h; cases h)
  | fin q => exact ⟨fun h => absurd h (roundToDouble_ne_nan q), fun h => by cases h⟩

theorem parseUnsigned_eq_nan_iff (negative : Bool) (cs : List Char) :
    parseUnsigned negative cs = .nan ↔
      ("Infinity".toList.isPrefixOf cs ||
        match cs with
        | '.' :: c :: _ => c.isDigit
        | c :: _ => c.isDigit
        | [] => false) = false := by
  unfold parseUnsigned
  cases hpre : "Infinity".toList.isPrefixOf cs with
  | true =>
    simp only [if_true, Bool.true_or]
    constructor <;> (intro h; cases h)
  | false =>
    simp only [Bool.false_eq_true, if_false, Bool.false_or]
    cases cs with
    | nil =>
      constructor
      · intro _; rfl
      · intro _; rfl
    | cons c r =>
      cases hd : c.isDigit with
      | true =>
        have hdot : c ≠ '.' := by
          intro e; rw [e] at hd; exact absurd hd (by decide)
        have hm : (match c :: r with
            | '.' :: c :: _ => c.isDigit
            | c :: _ => c.isDigit
            | [] => false) = true := by
          split
          · rename_i heq; injection heq with e _; exact absurd e hdot
          · rename_i heq; injection heq with e _; rw [← e]; exact hd
          · rename_i heq; cases heq
        rw [hm]
        simp only [List.takeWhile_cons, hd, if_true, List.isEmpty_cons, Bool.false_and,
          Bool.false_eq_true, if_false]
        constructor <;> (intro h; cases h)
      | false =>
        by_cases hdot : c = '.'
        · subst hdot
          cases r with
          | nil =>
            constructor
            · intro _; rfl
            · intro _; rfl
          | cons c2 r2 =>
            cases hd2 : c2.isDigit with
            | true =>
              have hm : (match '.' :: c2 :: r2 with
                  | '.' :: c :: _ => c.isDigit
                  | c :: _ => c.isDigit
                  | [] => false) = true := hd2
              rw [hm]
              simp only [List.takeWhile_cons, List.dropWhile_cons, hd, hd2, if_true,
                Bool.false_eq_true, if_false, List.isEmpty_cons, Bool.and_false,
                List.isEmpty_nil, Bool.true_and]
              constructor <;> (intro h; cases h)
            | false =>
              have hm : (match '.' :: c2 :: r2 with
                  | '.' :: c :: _ => c.isDigit
                  | c :: _ => c.isDigit
                  | [] => false) = false := hd2
              rw [hm]
              simp only [List.takeWhile_cons, List.dropWhile_cons, hd, hd2,
                Bool.false_eq_true, if_false, List.isEmpty_nil, Bool.and_self, if_true]
        · have hm : (match c :: r with
              | '.' :: c :: _ => c.isDigit
              | c :: _ => c.isDigit
              | [] => false) = false := by
            split
            · rename_i heq; injection heq with e _; exact absurd e hdot
            · rename_i heq; injection heq with e _; rw [← e]; exact hd
            · rfl
          have hfp : (match c :: r with
              | '.' :: r => r.takeWhile Char.isDigit
              | _ => ([] : List Char)) = [] := by
            split
            · rename_i heq; injection heq with e _; exact absurd e hdot
            · rfl
          rw [hm]
          simp only [List.takeWhile_cons, hd, List.dropWhile_cons, hfp, Bool.false_eq_true,
            if_false, List.isEmpty_nil, Bool.and_self, if_true]

theorem decimalPrefixValue_eq_nan_iff (input : String) :
    decimalPrefixValue input = .nan ↔ startsWithNumber input = false := by
  unfold decimalPrefixValue startsWithNumber
  generalize input.toList.dropWhile isStrWhiteSpaceChar = cs
  dsimp only
  split
  · exact parseUnsigned_eq_nan_iff false _
  · exact parseUnsigned_eq_nan_iff true _
  · exact parseUnsigned_eq_nan_iff false _

theorem parseFloatString_eq_nan_iff (input : String) :
    parseFloatString input = .nan ↔ startsWithNumber input = false :=
  (toDouble_eq_nan_iff _).trans (decimalPrefixValue_eq_nan_iff input)

/-! ## The amount steps -/

theorem positive_number_iff (x : JsNum) :
    (!x.isNaN && x.gt (.fin 0)) = true ↔ (∃ q : ℚ, x = .fin q ∧ 0 < q) ∨ x = .inf false := by
  cases x with
  | nan => simp [JsNum.isNaN]
  | inf s => cases s <;> simp [JsNum.isNaN, JsNum.gt, JsNum.lt]
  | fin q => simp [JsNum.isNaN, JsNum.gt, JsNum.lt]

theorem nonnegative_number_iff (x : JsNum) :
    (!x.isNaN && x.ge (.fin 0)) = true ↔ (∃ q : ℚ, x = .fin q ∧ 0 ≤ q) ∨ x = .inf false := by
  cases x with
  | nan => simp [JsNum.isNaN]
  | inf s => cases s <;> simp [JsNum.isNaN, JsNum.ge, JsNum.le, JsNum.lt]
  | fin q => simp [JsNum.isNaN, JsNum.ge, JsNum.le, JsNum.lt]

/-- C22. The `amount` step of the transfer, withdrawal and deposit flows accepts an
input exactly when `parseFloat` of it is a number greater than zero (a positive double or
`Infinity`), and the `initialDeposit` step exactly when it is a number that is at least
zero; `parseFloat` of an input is `NaN` exactly when the input has no numeric prefix
(after the leading white space and an optional sign there is neither `Infinity`, nor a
digit, nor a point followed by a digit), and such an input is rejected by all of these
steps; and the stored input, which is the trimmed one, parses to the value that was
validated, which is what the ledger call receives as `data.amount`. -/
theorem amount_step_accepts_iff (input : String) :
    (∀ step ∈ transferFlow ++ withdrawalFlow ++ depositFlow, step.step = "amount" →
      (step.validation input = true ↔
        ((∃ q : ℚ, parseFloat (.str input) = .fin q ∧ 0 < q) ∨
          parseFloat (.str input) = .inf false))) ∧
    (∀ step ∈ accountCreationFlow, step.step = "initialDeposit" →
      (step.validation input = true ↔
        ((∃ q : ℚ, parseFloat (.str input) = .fin q ∧ 0 ≤ q) ∨
          parseFloat (.str input) = .inf false))) ∧
    (parseFloat (.str input) = .nan ↔ startsWithNumber input = false) ∧
    (startsWithNumber input = false →
      ∀ step ∈ accountCreationFlow ++ transferFlow ++ withdrawalFlow ++ depositFlow,
        step.step = "amount" ∨ step.step = "initialDeposit" → step.validation input = false) ∧
    parseFloat (.str (jsTrim input)) = parseFloat (.str input) ∧
    (∀ data : List (String × String),
      parseFloat (amountArg (setField data "amount" (jsTrim input)))
        = parseFloat (.str input)) := by
  refine ⟨?_, ?_, parseFloatString_eq_nan_iff input, ?_, parseFloatString_trim input, ?_⟩
  · intro step hstep hname
    simp only [transferFlow, withdrawalFlow, depositFlow, List.cons_append, List.nil_append,
      List.mem_cons, List.mem_singleton, List.not_mem_nil, or_false] at hstep
    rcases hstep with rfl | rfl | rfl | rfl | rfl | rfl | rfl
    · exact absurd hname (by decide)
    · exact absurd hname (by decide)
    · exact positive_number_iff _
    · exact absurd hname (by decide)
    · exact positive_number_iff _
    · exact absurd hname (by decide)
    · exact positive_number_iff _
  · intro step hstep hname
    simp only [accountCreationFlow, List.mem_cons, List.mem_singleton, List.not_mem_nil,
      or_false] at hstep
    rcases hstep with rfl | rfl | rfl
    · exact absurd hname (by decide)
    · exact absurd hname (by decide)
    · exact nonnegative_number_iff _
  · intro h
    have hnan : parseFloat (.str input) = .nan := (parseFloatString_eq_nan_iff input).mpr h
    intro step hstep hname
    simp only [accountCreationFlow, transferFlow, withdrawalFlow, depositFlow,
      List.cons_append, List.nil_append, List.mem_cons, List.mem_singleton,
      List.not_mem_nil, or_false] at hstep
    rcases hstep with rfl | rfl | rfl | rfl | rfl | rfl | rfl | rfl | rfl | rfl
    · exact absurd hname (by decide)
    · exact absurd hname (by decide)
    · simp only [hnan]; rfl
    · exact absurd hname (by decide)
    · exact absurd hname (by decide)
    · simp only [hnan]; rfl
    · exact absurd hname (by decide)
    · simp only [hnan]; rfl
    · exact absurd hname (by decide)
    · simp only [hnan]; rfl
  · intro data
    unfold amountArg
    rw [getField_setField_same]
    exact parseFloatString_trim input

theorem amount_step_accepts_iff_witness :
    (∃ step, transferFlow[2]? = some step ∧ step.validation " 12.5 dollars " = true) ∧
    parseFloat (.str " 12.5 dollars ") = .fin (25 / 2) ∧
    (∃ step, withdrawalFlow[1]? = some step ∧ step.validation "+x" = false) ∧
    (∃ step, withdrawalFlow[1]? = some step ∧ ¬ step.validation "1e-400" = true) ∧
    (∃ step, accountCreationFlow[2]? = some step ∧ step.validation "-1e-400" = true) :=
  ⟨⟨_, rfl, ((amount_step_accepts_iff " 12.5 dollars ").1 _ (by simp [transferFlow]) rfl).mpr
      (Or.inl ⟨25 / 2, by decide!, by norm_num⟩)⟩,
    by decide!,
    ⟨_, rfl, (amount_step_accepts_iff "+x").2.2.2.1 (by decide) _ (by simp [withdrawalFlow])
      (Or.inl rfl)⟩,
    ⟨_, rfl, fun hv => by
      have h0 : parseFloat (.str "1e-400") = .fin 0 := by decide!
      rcases ((amount_step_accepts_iff "1e-400").1 _ (by simp [withdrawalFlow]) rfl).mp hv
        with ⟨q, hq, hpos⟩ | hinf
      · rw [h0] at hq
        injection hq with hq
        rw [← hq] at hpos
        exact absurd hpos (lt_irrefl 0)
      · rw [h0] at hinf
        cases hinf⟩,
    ⟨_, rfl, ((amount_step_accepts_iff "-1e-400").2.1 _ (by simp [accountCreationFlow])
      rfl).mpr (Or.inl ⟨0, by decide!, le_refl 0⟩)⟩⟩

/-! ## Strings without white space -/

theorem trimChars_eq_self (cs : List Char) (h : ∀ c ∈ cs, isStrWhiteSpaceChar c = false) :
    trimChars cs = cs := by
  have h1 : cs.dropWhile isStrWhiteSpaceChar = cs := by
    cases cs with
    | nil => rfl
    | cons c t => simp [List.dropWhile_cons, h c (List.mem_cons_self _ _)]
  unfold trimChars
  rw [h1]
  have h2 : List.rdropWhile isStrWhiteSpaceChar cs = cs := by
    rw [List.rdropWhile_eq_self_iff]
    intro hl
    simp [h _ (List.getLast_mem hl)]
  exact h2

theorem trimChars_idempotent (cs : List Char) : trimChars (trimChars cs) = trimChars cs := by
  obtain ⟨_, _, _, hself⟩ := trimChars_decompose cs
  have h2 : List.rdropWhile isStrWhiteSpaceChar (trimChars cs) = trimChars cs :=
    List.rdropWhile_idempotent isStrWhiteSpaceChar (cs.dropWhile isStrWhiteSpaceChar)
  show List.rdropWhile isStrWhiteSpaceChar ((trimChars cs).dropWhile isStrWhiteSpaceChar)
    = trimChars cs
  rw [hself, h2]

theorem jsTrim_idempotent (s : String) : jsTrim (jsTrim s) = jsTrim s := by
  unfold jsTrim
  exact congrArg String.mk (trimChars_idempotent s.toList)

theorem flatMap_singleton_of_forall (f : Char → List Char) (cs : List Char)
    (h : ∀ c ∈ cs, f c = [c]) : cs.flatMap f = cs := by
  induction cs with
  | nil => rfl
  | cons c t ih =>
    rw [List.flatMap_cons, h c (List.mem_cons_self _ _),
      ih (fun x hx => h x (List.mem_cons_of_mem _ hx))]
    rfl

theorem accountNumberPattern_test_chars (input : String) :
    accountNumberPattern.test input = true ↔
      ∃ a c₁ c₂ ds, input.toList = a :: c₁ :: c₂ :: ds ∧
        (a = 'A' ∨ a = 'a') ∧ (c₁ = 'C' ∨ c₁ = 'c') ∧ (c₂ = 'C' ∨ c₂ = 'c') ∧
        3 ≤ ds.length ∧ ∀ d ∈ ds, d.isDigit = true := by
  unfold Regex.test
  rw [List.any_eq_true]
  constructor
  · rintro ⟨i, _, hi⟩
    have hi2 : (accountNumberPattern.run i (input.toList.drop i)).isEmpty = false := by
      simpa using hi
    obtain ⟨h0, hrest⟩ := (accountNumberPattern_run i _).mp hi2
    subst h0
    simpa using hrest
  · intro h
    refine ⟨0, by simp, ?_⟩
    have := (accountNumberPattern_run 0 input.toList).mpr ⟨rfl, h⟩
    simpa using this

theorem generatedAccountNumber_toList (now : Nat) :
    (generatedAccountNumber now).toList
      = 'A' :: 'C' :: 'C' :: sliceLast 6 (Nat.toDigits 10 now) := by
  unfold generatedAccountNumber
  rw [String.toList, String.data_append]
  rfl

theorem sliceLast_mem (k : Nat) (cs : List Char) : ∀ c ∈ sliceLast k cs, c ∈ cs := by
  intro c hc
  exact List.mem_of_mem_drop hc

theorem generatedAccountNumber_chars (now : Nat) :
    ∀ c ∈ (generatedAccountNumber now).toList, c ∈ "AC0123456789".toList := by
  intro c hc
  rw [generatedAccountNumber_toList] at hc
  simp only [List.mem_cons] at hc
  rcases hc with rfl | rfl | rfl | hc
  · decide
  · decide
  · decide
  · have hsub : ∀ x ∈ "0123456789".toList, x ∈ "AC0123456789".toList := by decide
    exact hsub c (toDigits_mem now c (sliceLast_mem 6 _ c hc))

theorem jsTrim_eq_self (s : String) (h : ∀ c ∈ s.toList, isStrWhiteSpaceChar c = false) :
    jsTrim s = s := by
  unfold jsTrim
  rw [trimChars_eq_self _ h]
  rfl

theorem jsToUpperCase_eq_self (s : String) (h : ∀ c ∈ s.toList, jsToUpperChar c = [c]) :
    jsToUpperCase s = s := by
  unfold jsToUpperCase
  rw [flatMap_singleton_of_forall _ _ h]
  rfl

theorem generatedAccountNumber_trim_upper (now : Nat) :
    jsTrim (generatedAccountNumber now) = generatedAccountNumber now ∧
    jsToUpperCase (generatedAccountNumber now) = generatedAccountNumber now := by
  have h1 : ∀ c ∈ "AC0123456789".toList, isStrWhiteSpaceChar c = false := by decide
  have h2 : ∀ c ∈ "AC0123456789".toList, jsToUpperChar c = [c] := by decide
  exact ⟨jsTrim_eq_self _ (fun c hc => h1 c (generatedAccountNumber_chars now c hc)),
    jsToUpperCase_eq_self _ (fun c hc => h2 c (generatedAccountNumber_chars now c hc))⟩

theorem generatedAccountNumber_test (now : Nat) (h : 100 ≤ now) :
    accountNumberPattern.test (generatedAccountNumber now) = true := by
  rw [accountNumberPattern_test_chars]
  refine ⟨'A', 'C', 'C', sliceLast 6 (Nat.toDigits 10 now), generatedAccountNumber_toList now,
    Or.inl rfl, Or.inl rfl, Or.inl rfl, ?_, ?_⟩
  · have hlen := toDigits_length_of_ge 2 now (by simpa using h)
    unfold sliceLast
    rw [List.length_drop]
    omega
  · intro d hd
    have hdig : ∀ x ∈ "0123456789".toList, x.isDigit = true := by decide
    exact hdig d (toDigits_mem now d (sliceLast_mem 6 _ d hd))

/-- C30, short timestamps. The timestamps `123` and `1000123` are congruent modulo
`1000000`, yet `createAccount` generates `ACC123` at the first and `ACC000123` at the
second: `slice(-6)` keeps all the digits of a timestamp that has fewer than six, and
both accounts are inserted side by side. -/
theorem short_timestamp_number_differs :
    123 % 1000000 = 1000123 % 1000000 ∧
    generatedAccountNumber 123 = "ACC123" ∧ generatedAccountNumber 1000123 = "ACC000123" ∧
    ((runCalls emptyDb
        [.createAccount none 123 "Ann Lee" "savings" (.num (.fin 0)),
         .createAccount none 1000123 "Ann Lee" "savings" (.num (.fin 0))]).accounts.map
      (fun a => a.accountNumber)) = ["ACC123", "ACC000123"] := by
  refine ⟨by decide, by decide, by decide, by decide!⟩

/-- C30, amended. The account number `createAccount` resolves with is `ACC` followed by
the last six characters of the decimal timestamp: for a timestamp of at least `100000`
these are the six digits of the timestamp modulo `1000000`, zero-padded, and below
`1000000` they are all the digits of the timestamp.  For every timestamp of at least
`100` the number passes the account-number predicate of the flows and is left as it is by
the trimming and upper-casing a flow applies, and two timestamps of at least `100000`
that are congruent modulo `1000000` generate the same number. -/
theorem generatedAccountNumber_spec (now : Nat) :
    (∀ (err : Option String) (d : Db) (customerName accountType : String)
        (initialDeposit : JsValue) (r : CreateAccountResult),
      (createAccount err now d customerName accountType initialDeposit).2 = .resolved r →
      r.accountNumber = generatedAccountNumber now) ∧
    (100000 ≤ now →
      generatedAccountNumber now
        = "ACC" ++ String.mk (padZeros 6 (Nat.toDigits 10 (now % 1000000)))) ∧
    (now < 1000000 → generatedAccountNumber now = "ACC" ++ String.mk (Nat.toDigits 10 now)) ∧
    (100 ≤ now →
      accountNumberPattern.test (generatedAccountNumber now) = true ∧
      jsToUpperCase (jsTrim (generatedAccountNumber now)) = generatedAccountNumber now) ∧
    (∀ other : Nat, 100000 ≤ now → 100000 ≤ other → now % 1000000 = other % 1000000 →
      generatedAccountNumber other = generatedAccountNumber now) := by
  have hpad : ∀ n : Nat, 100000 ≤ n →
      generatedAccountNumber n
        = "ACC" ++ String.mk (padZeros 6 (Nat.toDigits 10 (n % 1000000))) := by
    intro n hn
    unfold generatedAccountNumber
    rw [sliceLast_toDigits 5 n (by simpa using hn)]
    rfl
  refine ⟨?_, hpad now, ?_, ?_, ?_⟩
  · intro err d customerName accountType initialDeposit r hr
    have hres : (createAccount err now d customerName accountType initialDeposit).2.isResolved
        = true := by rw [hr]; rfl
    rw [createAccount_resolved err now d customerName accountType initialDeposit hres] at hr
    injection hr with hr
    rw [← hr]
  · intro hlt
    unfold generatedAccountNumber sliceLast
    have hlen : (Nat.toDigits 10 now).length ≤ 6 :=
      Nat.toDigitsCore_length 10 (by decide) (now + 1) now 6 (by simpa using hlt) (by decide)
    rw [Nat.sub_eq_zero_of_le hlen, List.drop_zero]
  · intro h
    refine ⟨generatedAccountNumber_test now h, ?_⟩
    rw [(generatedAccountNumber_trim_upper now).1, (generatedAccountNumber_trim_upper now).2]
  · intro other h1 h2 hmod
    rw [hpad now h1, hpad other h2, hmod]

theorem generatedAccountNumber_spec_witness :
    generatedAccountNumber 1730800000123 = "ACC000123" ∧
    accountNumberPattern.test (generatedAccountNumber 1730800000123) = true ∧
    generatedAccountNumber 2000000000123 = generatedAccountNumber 1730800000123 :=
  ⟨((generatedAccountNumber_spec 1730800000123).2.1 (by decide)).trans (by decide),
    ((generatedAccountNumber_spec 1730800000123).2.2.2.1 (by decide)).1,
    (generatedAccountNumber_spec 1730800000123).2.2.2.2 2000000000123 (by decide) (by decide)
      (by decide)⟩

/-! ## Dispatch of the collected data -/

theorem flowCompleted_of_delete (w : World) (sessionId flow : String)
    (db : Db) (outcome : Outcome Payload) (reply : Reply)
    (hres : ∀ p : Payload, outcome = .resolved p →
      ∃ text : String, reply = .response
        { text := text, type := flow ++ "_success", data := some p, error := none })
    (hrej : ∀ e : LedgerError, outcome = .rejected e →
      ∃ text : String, reply = .response
        { text := text, type := "error", data := none, error := some (.ledger e) }) :
    FlowCompleted w sessionId flow
      ({ db := db, sessionStates := w.sessionStates.delete sessionId }, reply) db outcome := by
  refine ⟨rfl, SessionStore.delete_same _ _, ?_, hres, hrej⟩
  intro k hk
  simp [SessionStore.delete, hk]

theorem le_zero_false_of_positive (x : JsNum)
    (h : (!x.isNaN && x.gt (.fin 0)) = true) : x.le (.fin 0) = false := by
  cases x with
  | nan => simp [JsNum.isNaN] at h
  | inf s => cases s <;> simp_all [JsNum.isNaN, JsNum.gt, JsNum.le, JsNum.lt]
  | fin q =>
    simp only [JsNum.isNaN, Bool.not_false, Bool.true_and, JsNum.gt_fin,
      decide_eq_true_eq] at h
    rw [JsNum.le_fin]
    simp [h]

/-- C24. `executeFlowAction` hands the collected fields to the ledger function of the
flow, account numbers upper-cased: `createAccount(name, accountType,
parseFloat(initialDeposit))`, `transferFunds(upper(fromAccount), upper(toAccount),
amount, 'Fund Transfer')`, `withdrawFunds(upper(account), amount, 'ATM Withdrawal')`,
`depositFunds(upper(account), amount, 'Cash Deposit')`; the database afterwards is the
one that call leaves, the session entry is deleted and the reply carries the call's
payload or error.  Consequently a transfer whose two collected account numbers are
equal after upper-casing, with an amount accepted by the amount step, ends with the
error `Cannot transfer to the same account` and the database unchanged. -/
theorem executeFlowAction_dispatch (env : Env) (w : World) (sessionId : String)
    (data : List (String × String)) :
    (∀ name accountType initialDeposit : String,
      getField data "name" = some name → getField data "accountType" = some accountType →
      getField data "initialDeposit" = some initialDeposit →
      FlowCompleted w sessionId "account_creation"
        (executeFlowAction env w sessionId "account_creation" data)
        (createAccount env.createErr env.now w.db name accountType
          (.num (parseFloat (.str initialDeposit)))).1
        ((createAccount env.createErr env.now w.db name accountType
          (.num (parseFloat (.str initialDeposit)))).2.map .account)) ∧
    (∀ fromAccount toAccount amount : String,
      getField data "fromAccount" = some fromAccount →
      getField data "toAccount" = some toAccount → getField data "amount" = some amount →
      FlowCompleted w sessionId "transfer"
        (executeFlowAction env w sessionId "transfer" data)
        (transferFunds env.transferErrs env.transactionId env.timestamp w.db
          (jsToUpperCase fromAccount) (jsToUpperCase toAccount) (.str amount)
          "Fund Transfer").1
        ((transferFunds env.transferErrs env.transactionId env.timestamp w.db
          (jsToUpperCase fromAccount) (jsToUpperCase toAccount) (.str amount)
          "Fund Transfer").2.map .transfer)) ∧
    (∀ account amount : String,
      getField data "account" = some account → getField data "amount" = some amount →
      FlowCompleted w sessionId "withdrawal"
        (executeFlowAction env w sessionId "withdrawal" data)
        (withdrawFunds env.withdrawErrs env.transactionId env.timestamp w.db
          (jsToUpperCase account) (.str amount) "ATM Withdrawal").1
        ((withdrawFunds env.withdrawErrs env.transactionId env.timestamp w.db
          (jsToUpperCase account) (.str amount) "ATM Withdrawal").2.map .withdrawal)) ∧
    (∀ account amount : String,
      getField data "account" = some account → getField data "amount" = some amount →
      FlowCompleted w sessionId "deposit"
        (executeFlowAction env w sessionId "deposit" data)
        (depositFunds env.depositErrs env.transactionId env.timestamp w.db
          (jsToUpperCase account) (.str amount) "Cash Deposit").1
        ((depositFunds env.depositErrs env.transactionId env.timestamp w.db
          (jsToUpperCase account) (.str amount) "Cash Deposit").2.map .deposit)) ∧
    (∀ fromAccount toAccount amount : String,
      getField data "fromAccount" = some fromAccount →
      getField data "toAccount" = some toAccount → getField data "amount" = some amount →
      jsToUpperCase fromAccount = jsToUpperCase toAccount →
      (!(parseFloat (.str amount)).isNaN && (parseFloat (.str amount)).gt (.fin 0)) = true →
      (executeFlowAction env w sessionId "transfer" data).1.db = w.db ∧
      (executeFlowAction env w sessionId "transfer" data).2
        = .response (errorResponse (.ledger (.ofMessage "Cannot transfer to the same account")))) := by
  refine ⟨?_, ?_, ?_, ?_, ?_⟩
  · intro name accountType initialDeposit h1 h2 h3
    unfold executeFlowAction
    simp only [h1, h2, h3, if_true, createAccountArgs, Option.getD_some]
    have hnt := createAccount_not_thrown env.createErr env.now w.db name accountType
      (.num (parseFloat (.str initialDeposit)))
    rcases hc : createAccount env.createErr env.now w.db name accountType
      (.num (parseFloat (.str initialDeposit))) with ⟨db, o⟩
    rw [hc] at hnt
    cases o with
    | resolved r =>
      exact flowCompleted_of_delete w sessionId "account_creation" db _ _
        (fun p hp => by injection hp with hp; subst hp; exact ⟨_, rfl⟩)
        (fun e he => by cases he)
    | rejected e =>
      exact flowCompleted_of_delete w sessionId "account_creation" db _ _
        (fun p hp => by cases hp)
        (fun e' he => by injection he with he; subst he; exact ⟨_, rfl⟩)
    | thrown => exact absurd rfl hnt
  · intro fromAccount toAccount amount h1 h2 h3
    unfold executeFlowAction
    have hf1 : ¬ "transfer" = "account_creation" := by decide
    simp only [h1, h2, h3, if_true, hf1, if_false, amountArg]
    have hnt := transferFunds_not_thrown env.transferErrs env.transactionId env.timestamp w.db
      (jsToUpperCase fromAccount) (jsToUpperCase toAccount) (.str amount) "Fund Transfer"
    rcases hc : transferFunds env.transferErrs env.transactionId env.timestamp w.db
      (jsToUpperCase fromAccount) (jsToUpperCase toAccount) (.str amount)
      "Fund Transfer" with ⟨db, o⟩
    rw [hc] at hnt
    cases o with
    | resolved r =>
      exact flowCompleted_of_delete w sessionId "transfer" db _ _
        (fun p hp => by injection hp with hp; subst hp; exact ⟨_, rfl⟩)
        (fun e he => by cases he)
    | rejected e =>
      exact flowCompleted_of_delete w sessionId "transfer" db _ _
        (fun p hp => by cases hp)
        (fun e' he => by injection he with he; subst he; exact ⟨_, rfl⟩)
    | thrown => exact absurd rfl hnt
  · intro account amount h1 h3
    unfold executeFlowAction
    have hf1 : ¬ "withdrawal" = "account_creation" := by decide
    have hf2 : ¬ "withdrawal" = "transfer" := by decide
    simp only [h1, h3, if_true, hf1, hf2, if_false, amountArg]
    have hnt := withdrawFunds_not_thrown env.withdrawErrs env.transactionId env.timestamp w.db
      (jsToUpperCase account) (.str amount) "ATM Withdrawal"
    rcases hc : withdrawFunds env.withdrawErrs env.transactionId env.timestamp w.db
      (jsToUpperCase account) (.str amount) "ATM Withdrawal" with ⟨db, o⟩
    rw [hc] at hnt
    cases o with
    | resolved r =>
      exact flowCompleted_of_delete w sessionId "withdrawal" db _ _
        (fun p hp => by injection hp with hp; subst hp; exact ⟨_, rfl⟩)
        (fun e he => by cases he)
    | rejected e =>
      exact flowCompleted_of_delete w sessionId "withdrawal" db _ _
        (fun p hp => by cases hp)
        (fun e' he => by injection he with he; subst he; exact ⟨_, rfl⟩)
    | thrown => exact absurd rfl hnt
  · intro account amount h1 h3
    unfold executeFlowAction
    have hf1 : ¬ "deposit" = "account_creation" := by decide
    have hf2 : ¬ "deposit" = "transfer" := by decide
    have hf3 : ¬ "deposit" = "withdrawal" := by decide
    simp only [h1, h3, if_true, hf1, hf2, hf3, if_false, amountArg]
    have hnt := depositFunds_not_thrown env.depositErrs env.transactionId env.timestamp w.db
      (jsToUpperCase account) (.str amount) "Cash Deposit"
    rcases hc : depositFunds env.depositErrs env.transactionId env.timestamp w.db
      (jsToUpperCase account) (.str amount) "Cash Deposit" with ⟨db, o⟩
    rw [hc] at hnt
    cases o with
    | resolved r =>
      exact flowCompleted_of_delete w sessionId "deposit" db _ _
        (fun p hp => by injection hp with hp; subst hp; exact ⟨_, rfl⟩)
        (fun e he => by cases he)
    | rejected e =>
      exact flowCompleted_of_delete w sessionId "deposit" db _ _
        (fun p hp => by cases hp)
        (fun e' he => by injection he with he; subst he; exact ⟨_, rfl⟩)
    | thrown => exact absurd rfl hnt
  · intro fromAccount toAccount amount h1 h2 h3 hsame hpos
    have hle := le_zero_false_of_positive _ hpos
    have hcall : transferFunds env.transferErrs env.transactionId env.timestamp w.db
        (jsToUpperCase fromAccount) (jsToUpperCase toAccount) (.str amount) "Fund Transfer"
        = (w.db, .rejected (.ofMessage "Cannot transfer to the same account")) := by
      unfold transferFunds
      simp only [hle, hsame, Bool.false_eq_true, if_false, if_true]
    unfold executeFlowAction
    have hf1 : ¬ "transfer" = "account_creation" := by decide
    simp only [h1, h2, h3, if_true, hf1, if_false, amountArg, hcall]
    exact ⟨trivial, trivial⟩

theorem executeFlowAction_dispatch_witness :
    jsToUpperCase "acc001" = jsToUpperCase "ACC001" ∧
    (executeFlowAction quietEnv
        { db := seededDb, sessionStates := SessionStore.empty } "s1" "transfer"
        [("fromAccount", "acc001"), ("toAccount", "ACC001"), ("amount", "5")]).1.db
      = seededDb ∧
    (executeFlowAction quietEnv
        { db := seededDb, sessionStates := SessionStore.empty } "s1" "transfer"
        [("fromAccount", "acc001"), ("toAccount", "ACC001"), ("amount", "5")]).2
      = .response (errorResponse (.ledger (.ofMessage "Cannot transfer to the same account"))) :=
  ⟨by decide,
    (executeFlowAction_dispatch quietEnv { db := seededDb, sessionStates := SessionStore.empty }
      "s1" [("fromAccount", "acc001"), ("toAccount", "ACC001"), ("amount", "5")]).2.2.2.2
      "acc001" "ACC001" "5" rfl rfl rfl (by decide) (by decide!)⟩

/-- The transfer flow run through the chat on the seeded database: the account numbers
`acc001` and `ACC001` and the amount `5` end with the same-account error, and no balance
has changed. -/
theorem transfer_flow_same_account_after_upper_casing :
    let w0 : World := { db := seededDb, sessionStates := SessionStore.empty }
    let w1 := (getBankingBotResponse quietEnv w0 "transfer" "s1").1
    let w2 := (getBankingBotResponse quietEnv w1 "acc001" "s1").1
    let w3 := (getBankingBotResponse quietEnv w2 "ACC001" "s1").1
    (getBankingBotResponse quietEnv w3 "5" "s1").2
        = .response
            (errorResponse (.ledger (.ofMessage "Cannot transfer to the same account"))) ∧
      (getBankingBotResponse quietEnv w3 "5" "s1").1.db = seededDb ∧
      (getBankingBotResponse quietEnv w3 "5" "s1").1.sessionStates "s1" = none := by
  decide!

/-! ## The invariant of the session map -/

theorem wellFormed_idle (data : List (String × String)) (step : Nat)
    (waitingFor : Option String) :
    SessionState.WellFormed
      { currentFlow := none, currentStep := step, data := data, waitingFor := waitingFor } := by
  intro flow h
  cases h

theorem SessionStore.wellFormed_empty : SessionStore.empty.WellFormed := by
  intro k st h
  cases h

theorem SessionStore.wellFormed_set (s : SessionStore) (k : String) (st : SessionState)
    (hs : s.WellFormed) (hst : st.WellFormed) : (s.set k st).WellFormed := by
  intro k' st' h
  unfold SessionStore.set at h
  split at h
  · injection h with h; rw [← h]; exact hst
  · exact hs k' st' h

theorem SessionStore.wellFormed_delete (s : SessionStore) (k : String)
    (hs : s.WellFormed) : (s.delete k).WellFormed := by
  intro k' st' h
  unfold SessionStore.delete at h
  split at h
  · cases h
  · exact hs k' st' h

theorem wellFormed_initialize (s : SessionStore) (k : String) (hs : s.WellFormed) :
    (initializeSessionState s k).1.WellFormed ∧ (initializeSessionState s k).2.WellFormed ∧
      (initializeSessionState s k).1 k = some (initializeSessionState s k).2 := by
  unfold initializeSessionState
  split
  · rename_i st hst
    exact ⟨hs, hs k st hst, hst⟩
  · exact ⟨SessionStore.wellFormed_set s k _ hs (wellFormed_idle _ _ _), wellFormed_idle _ _ _,
      SessionStore.set_same _ _ _⟩

theorem wellFormed_startedFlow (flow : String) (steps : List FlowStep) (first : FlowStep)
    (hflow : flowSteps flow = some steps) (hfirst : steps[0]? = some first) :
    (startedFlow flow first.step).WellFormed := by
  intro flow' h
  injection h with h
  subst h
  exact ⟨steps, first, hflow, hfirst, rfl, by simp [startedFlow]⟩

theorem createAccountArgs_not_thrown (err : Option String) (now : Nat) (d : Db)
    (customerName accountType : Option String) (initialDeposit : JsValue) :
    (createAccountArgs err now d customerName accountType initialDeposit).2 ≠ .thrown := by
  unfold createAccountArgs
  split
  · exact createAccount_not_thrown _ _ _ _ _ _
  · split <;> (intro h; cases h)

theorem executeFlowAction_sessions (env : Env) (w : World) (sessionId flow : String)
    (steps : List FlowStep) (data : List (String × String))
    (hflow : flowSteps flow = some steps) :
    (executeFlowAction env w sessionId flow data).1.sessionStates
      = w.sessionStates.delete sessionId := by
  unfold executeFlowAction
  split
  · split
    · rfl
    · rfl
    · rename_i h
      exact absurd (congrArg Prod.snd h) (createAccountArgs_not_thrown _ _ _ _ _ _)
  · split
    · split
      · split
        · rfl
        · rfl
        · rename_i h
          exact absurd (congrArg Prod.snd h) (transferFunds_not_thrown _ _ _ _ _ _ _ _)
      · rfl
    · split
      · split
        · split
          · rfl
          · rfl
          · rename_i h
            exact absurd (congrArg Prod.snd h) (withdrawFunds_not_thrown _ _ _ _ _ _ _)
        · rfl
      · split
        · split
          · split
            · rfl
            · rfl
            · rename_i h
              exact absurd (congrArg Prod.snd h) (depositFunds_not_thrown _ _ _ _ _ _ _)
          · rfl
        · rename_i h1 h2 h3 h4
          unfold flowSteps at hflow
          simp only [h1, h2, h3, h4, if_false] at hflow
          cases hflow

theorem no_ws_of_lower_mem (x : String)
    (h : ["savings", "checking", "business"].contains (jsToLowerCase x) = true) :
    ∀ c ∈ x.toList, isStrWhiteSpaceChar c = false := by
  intro c hc
  by_contra hws
  have hws : isStrWhiteSpaceChar c = true := by simpa using hws
  have hlow : jsToLowerChar c = [c] := (ws_props c hws).2.2.2.2.2.2.2
  have hmem : c ∈ (jsToLowerCase x).toList := by
    show c ∈ x.toList.flatMap jsToLowerChar
    rw [List.mem_flatMap]
    exact ⟨c, hc, by rw [hlow]; exact List.mem_singleton.mpr rfl⟩
  have hall : ∀ s ∈ ["savings", "checking", "business"],
      ∀ c ∈ s.toList, isStrWhiteSpaceChar c = false := by decide
  have hin : jsToLowerCase x ∈ ["savings", "checking", "business"] := by
    simpa using h
  rw [hall _ hin c hmem] at hws
  cases hws

theorem no_ws_of_accountNumberPattern (x : String)
    (h : accountNumberPattern.test x = true) :
    ∀ c ∈ x.toList, isStrWhiteSpaceChar c = false := by
  obtain ⟨a, c₁, c₂, ds, hx, ha, h1, h2, _, hds⟩ := (accountNumberPattern_test_chars x).mp h
  intro c hc
  rw [hx] at hc
  simp only [List.mem_cons] at hc
  rcases hc with rfl | rfl | rfl | hc
  · rcases ha with rfl | rfl <;> decide
  · rcases h1 with rfl | rfl <;> decide
  · rcases h2 with rfl | rfl <;> decide
  · by_contra hws
    have hws : isStrWhiteSpaceChar c = true := by simpa using hws
    have := (ws_props c hws).1
    rw [hds c hc] at this
    cases this

theorem validation_trim (flow : String) (steps : List FlowStep) (step : FlowStep)
    (hflow : flowSteps flow = some steps) (hmem : step ∈ steps) (x : String)
    (h : step.validation x = true) : step.validation (jsTrim x) = true := by
  have hname : decide (jsLength (jsTrim x) ≥ 2) = true →
      decide (jsLength (jsTrim (jsTrim x)) ≥ 2) = true := by
    intro h; rw [jsTrim_idempotent]; exact h
  have htype : ["savings", "checking", "business"].contains (jsToLowerCase x) = true →
      ["savings", "checking", "business"].contains (jsToLowerCase (jsTrim x)) = true := by
    intro h; rw [jsTrim_eq_self x (no_ws_of_lower_mem x h)]; exact h
  have hacc : accountNumberPattern.test x = true →
      accountNumberPattern.test (jsTrim x) = true := by
    intro h; rw [jsTrim_eq_self x (no_ws_of_accountNumberPattern x h)]; exact h
  have hpos : (!(parseFloat (.str x)).isNaN && (parseFloat (.str x)).gt (.fin 0)) = true →
      (!(parseFloat (.str (jsTrim x))).isNaN && (parseFloat (.str (jsTrim x))).gt (.fin 0))
        = true := by
    intro h
    have e : parseFloat (.str (jsTrim x)) = parseFloat (.str x) := parseFloatString_trim x
    rw [e]; exact h
  have hnn : (!(parseFloat (.str x)).isNaN && (parseFloat (.str x)).ge (.fin 0)) = true →
      (!(parseFloat (.str (jsTrim x))).isNaN && (parseFloat (.str (jsTrim x))).ge (.fin 0))
        = true := by
    intro h
    have e : parseFloat (.str (jsTrim x)) = parseFloat (.str x) := parseFloatString_trim x
    rw [e]; exact h
  unfold flowSteps at hflow
  split at hflow
  · injection hflow with hflow; subst hflow
    simp only [accountCreationFlow, List.mem_cons, List.mem_singleton, List.not_mem_nil,
      or_false] at hmem
    rcases hmem with rfl | rfl | rfl
    · exact hname h
    · exact htype h
    · exact hnn h
  · split at hflow
    · injection hflow with hflow; subst hflow
      simp only [transferFlow, List.mem_cons, List.mem_singleton, List.not_mem_nil,
        or_false] at hmem
      rcases hmem with rfl | rfl | rfl
      · exact hacc h
      · exact hacc h
      · exact hpos h
    · split at hflow
      · injection hflow with hflow; subst hflow
        simp only [withdrawalFlow, List.mem_cons, List.mem_singleton, List.not_mem_nil,
          or_false] at hmem
        rcases hmem with rfl | rfl
        · exact hacc h
        · exact hpos h
      · split at hflow
        · injection hflow with hflow; subst hflow
          simp only [depositFlow, List.mem_cons, List.mem_singleton, List.not_mem_nil,
            or_false] at hmem
          rcases hmem with rfl | rfl
          · exact hacc h
          · exact hpos h
        · cases hflow

theorem step_names_nodup (flow : String) (steps : List FlowStep)
    (hflow : flowSteps flow = some steps) : (steps.map (fun s => s.step)).Nodup := by
  unfold flowSteps at hflow
  split at hflow
  · injection hflow with hflow; subst hflow; decide
  · split at hflow
    · injection hflow with hflow; subst hflow; decide
    · split at hflow
      · injection hflow with hflow; subst hflow; decide
      · split at hflow
        · injection hflow with hflow; subst hflow; decide
        · cases hflow

theorem not_mem_take_of_nodup (l : List String) (h : l.Nodup) :
    ∀ (i : Nat) (x : String), l[i]? = some x → x ∉ l.take i := by
  induction l with
  | nil => intro i x hx; simp at hx
  | cons a l ih =>
    intro i x hx
    cases i with
    | zero => simp
    | succ i =>
      rw [List.nodup_cons] at h
      simp only [List.getElem?_cons_succ] at hx
      have hxl : x ∈ l := List.getElem?_mem hx
      simp only [List.take_succ_cons, List.mem_cons, not_or]
      refine ⟨?_, ih h.2 i x hx⟩
      intro e
      rw [e] at hxl
      exact h.1 hxl

theorem setField_of_not_mem (data : List (String × String)) (key value : String)
    (h : key ∉ data.map Prod.fst) : setField data key value = data ++ [(key, value)] := by
  unfold setField
  have hany : data.any (fun p => decide (p.1 = key)) = false := by
    rw [List.any_eq_false]
    intro p hp hdec
    apply h
    rw [List.mem_map]
    exact ⟨p, hp, by simpa using hdec⟩
  simp [hany]

theorem forall₂_fields_keys (data : List (String × String)) (steps : List FlowStep)
    (h : List.Forall₂
      (fun (field : String × String) (s : FlowStep) =>
        field.1 = s.step ∧ jsTrim field.2 = field.2 ∧ s.validation field.2 = true)
      data steps) :
    data.map Prod.fst = steps.map (fun s => s.step) := by
  induction h with
  | nil => rfl
  | cons hab _ ih => simp [hab.1, ih]

theorem in_flow_validates (env : Env) (w : World) (userMessage sessionId flow : String)
    (steps : List FlowStep) (step : FlowStep) (st : SessionState)
    (hstate : w.sessionStates sessionId = some st) (hcur : st.currentFlow = some flow)
    (hflow : flowSteps flow = some steps) (hstep : steps[st.currentStep]? = some step)
    (hwait : st.waitingFor = some step.step) :
    getBankingBotResponse env w userMessage sessionId
      = if step.validation userMessage = false then
          (w, .response
            { text := step.errorMessage ++ "\n\n" ++ step.prompt,
              type := flow ++ "_validation_error", data := none, error := none })
        else
          advanceToNextStep env w sessionId flow steps
            { st with data := setField st.data step.step (jsTrim userMessage) } := by
  rw [inFlow_dispatch env w userMessage sessionId flow steps st hstate hcur hflow]
  have htr := step_name_truthy flow steps step hflow (List.getElem?_mem hstep)
  unfold processConversationalFlow
  simp only [initializeSessionState_of_some _ _ _ hstate, hstep, hwait, htr, Bool.or_true,
    if_true]
  cases hv : step.validation userMessage <;> simp

theorem idle_sessions (env : Env) (w : World) (userMessage sessionId : String)
    (hidle : (initializeSessionState w.sessionStates sessionId).2.currentFlow = none) :
    (getBankingBotResponse env w userMessage sessionId).1.sessionStates
        = (initializeSessionState w.sessionStates sessionId).1 ∨
    (getBankingBotResponse env w userMessage sessionId).1.sessionStates
        = (initializeSessionState w.sessionStates sessionId).1.delete sessionId ∨
    ∃ (flow : String) (steps : List FlowStep) (first : FlowStep),
      flowSteps flow = some steps ∧ steps[0]? = some first ∧
      (getBankingBotResponse env w userMessage sessionId).1.sessionStates
        = (initializeSessionState w.sessionStates sessionId).1.set sessionId
            (startedFlow flow first.step) := by
  generalize hr : getBankingBotResponse env w userMessage sessionId = r
  unfold getBankingBotResponse at hr
  simp only [hidle, Option.none_bind] at hr
  split at hr
  · subst hr
    exact Or.inr (Or.inr ⟨"account_creation", accountCreationFlow, _, rfl, rfl, rfl⟩)
  · split at hr
    · subst hr
      exact Or.inr (Or.inr ⟨"transfer", transferFlow, _, rfl, rfl, rfl⟩)
    · split at hr
      · subst hr
        exact Or.inr (Or.inr ⟨"withdrawal", withdrawalFlow, _, rfl, rfl, rfl⟩)
      · split at hr
        · subst hr
          exact Or.inr (Or.inr ⟨"deposit", depositFlow, _, rfl, rfl, rfl⟩)
        · repeat' split at hr
          all_goals subst hr
          all_goals first
            | exact Or.inl rfl
            | exact Or.inr (Or.inl rfl)

theorem advance_wellFormed (env : Env) (w : World) (userMessage sessionId flow : String)
    (steps : List FlowStep) (step : FlowStep) (st : SessionState)
    (hw : w.sessionStates.WellFormed) (hcur : st.currentFlow = some flow)
    (hflow : flowSteps flow = some steps) (hstep : steps[st.currentStep]? = some step)
    (hdata : List.Forall₂
      (fun (field : String × String) (s : FlowStep) =>
        field.1 = s.step ∧ jsTrim field.2 = field.2 ∧ s.validation field.2 = true)
      st.data (steps.take st.currentStep))
    (hvalid : step.validation userMessage = true) :
    (advanceToNextStep env w sessionId flow steps
      { st with data := setField st.data step.step (jsTrim userMessage) }).1.sessionStates.WellFormed := by
  unfold advanceToNextStep
  dsimp only
  split
  · rw [executeFlowAction_sessions env _ sessionId flow steps _ hflow]
    dsimp only
    rw [SessionStore.delete_set]
    exact SessionStore.wellFormed_delete _ _ hw
  · rename_i hlt
    apply SessionStore.wellFormed_set _ _ _ hw
    intro flow' hflow'
    have hf : flow = flow' := by
      have : st.currentFlow = some flow' := hflow'
      rw [hcur] at this
      injection this with this
    subst hf
    refine ⟨steps, steps.get ⟨st.currentStep + 1, Nat.lt_of_not_le hlt⟩, hflow, ?_, rfl, ?_⟩
    · exact List.getElem?_eq_getElem _
    · show List.Forall₂ _ (setField st.data step.step (jsTrim userMessage))
        (steps.take (st.currentStep + 1))
      have hkeys := forall₂_fields_keys _ _ hdata
      have hnot : step.step ∉ st.data.map Prod.fst := by
        rw [hkeys, List.map_take]
        apply not_mem_take_of_nodup _ (step_names_nodup flow steps hflow)
        rw [List.getElem?_map, hstep]
        rfl
      rw [setField_of_not_mem _ _ _ hnot, List.take_succ, hstep]
      exact List.rel_append hdata
        (List.Forall₂.cons
          ⟨rfl, jsTrim_idempotent userMessage,
            validation_trim flow steps step hflow (List.getElem?_mem hstep) userMessage hvalid⟩
          List.Forall₂.nil)

theorem wellFormed_step (env : Env) (w : World) (userMessage sessionId : String)
    (hw : w.sessionStates.WellFormed) :
    (getBankingBotResponse env w userMessage sessionId).1.sessionStates.WellFormed := by
  obtain ⟨h1, h2, h3⟩ := wellFormed_initialize w.sessionStates sessionId hw
  have hidle : (initializeSessionState w.sessionStates sessionId).2.currentFlow = none →
      (getBankingBotResponse env w userMessage sessionId).1.sessionStates.WellFormed := by
    intro hidle
    rcases idle_sessions env w userMessage sessionId hidle with h | h | ⟨flow, steps, first,
      hflow, hfirst, h⟩
    · rw [h]; exact h1
    · rw [h]; exact SessionStore.wellFormed_delete _ _ h1
    · rw [h]
      exact SessionStore.wellFormed_set _ _ _ h1 (wellFormed_startedFlow flow steps first hflow
        hfirst)
  cases hs : w.sessionStates sessionId with
  | none =>
    apply hidle
    unfold initializeSessionState
    rw [hs]
  | some st =>
    cases hcur : st.currentFlow with
    | none =>
      apply hidle
      rw [initializeSessionState_of_some _ _ _ hs]
      exact hcur
    | some flow =>
      obtain ⟨steps, step, hflow, hstep, hwait, hdata⟩ := hw sessionId st hs flow hcur
      rw [in_flow_validates env w userMessage sessionId flow steps step st hs hcur hflow hstep
        hwait]
      cases hv : step.validation userMessage with
      | false =>
        simp only [if_true]
        exact hw
      | true =>
        simp only [Bool.true_eq_false, if_false]
        exact advance_wellFormed env w userMessage sessionId flow steps step st hw hcur hflow
          hstep hdata hv

theorem wellFormed_runMessages (messages : List (Env × String × String)) :
    ∀ w : World, w.sessionStates.WellFormed →
      (runMessages w messages).sessionStates.WellFormed := by
  induction messages with
  | nil => intro w hw; exact hw
  | cons m ms ih =>
    intro w hw
    exact ih _ (wellFormed_step m.1 w m.2.1 m.2.2 hw)

/-- C27. After any sequence of messages handled by `getBankingBotResponse` from a world
with an empty session map (any database, any environment and session id per message),
every session entry that has a current flow is well formed: the flow is one of the four,
`currentStep` indexes one of its steps, `waitingFor` is that step's field name, and
`data` holds exactly the fields of the steps before it, in order, each with a trimmed
value accepted by its step's validation predicate.  Hence the next message of such a
session is validated against the current step: `getBankingBotResponse` answers a rejected
input with the step's error and prompt and hands an accepted one to the advance of the
flow, so neither the branch that skips validation nor the branch for a missing current
step is taken. -/
theorem session_invariant (db : Db) (messages : List (Env × String × String))
    (sessionId : String) (st : SessionState)
    (h : (runMessages { db := db, sessionStates := SessionStore.empty } messages).sessionStates
      sessionId = some st) :
    st.WellFormed ∧
    ∀ flow : String, st.currentFlow = some flow →
      ∃ (steps : List FlowStep) (step : FlowStep),
        flowSteps flow = some steps ∧ steps[st.currentStep]? = some step ∧
        (decide (st.currentStep > 0) || truthy st.waitingFor) = true ∧
        ∀ (env : Env) (userMessage : String),
          getBankingBotResponse env
              (runMessages { db := db, sessionStates := SessionStore.empty } messages)
              userMessage sessionId
            = if step.validation userMessage = false then
                (runMessages { db := db, sessionStates := SessionStore.empty } messages,
                  .response
                    { text := step.errorMessage ++ "\n\n" ++ step.prompt,
                      type := flow ++ "_validation_error", data := none, error := none })
              else
                advanceToNextStep env
                  (runMessages { db := db, sessionStates := SessionStore.empty } messages)
                  sessionId flow steps
                  { st with data := setField st.data step.step (jsTrim userMessage) } := by
  have hwf := wellFormed_runMessages messages
    { db := db, sessionStates := SessionStore.empty } SessionStore.wellFormed_empty
  refine ⟨hwf sessionId st h, ?_⟩
  intro flow hcur
  obtain ⟨steps, step, hflow, hstep, hwait, _⟩ := hwf sessionId st h flow hcur
  refine ⟨steps, step, hflow, hstep, ?_, ?_⟩
  · rw [hwait, step_name_truthy flow steps step hflow (List.getElem?_mem hstep)]
    simp
  · intro env userMessage
    exact in_flow_validates env _ userMessage sessionId flow steps step st h hcur hflow hstep
      hwait

theorem session_invariant_witness :
    SessionState.WellFormed
      { currentFlow := some "deposit", currentStep := 1, data := [("account", "acc001")],
        waitingFor := some "amount" } :=
  (session_invariant seededDb
    [(quietEnv, "I want to deposit", "s1"), (quietEnv, "nonsense", "s1"),
     (quietEnv, " acc001", "s2"), (quietEnv, "acc001", "s1")] "s1"
    { currentFlow := some "deposit", currentStep := 1, data := [("account", "acc001")],
      waitingFor := some "amount" } (by decide!)).1

/-! ## Flow validation and ledger validation -/

theorem createAccount_rejection_of_valid_args (err : Option String) (now : Nat) (d : Db)
    (customerName accountType : String) (initialDeposit : JsValue)
    (h1 : (parseFloat initialDeposit).lt (.fin 0) = false)
    (h2 : decide (jsLength (jsTrim customerName) ≥ 2) = true)
    (h3 : validAccountTypes.contains (jsToLowerCase accountType) = true)
    (e : LedgerError)
    (he : (createAccount err now d customerName accountType initialDeposit).2 = .rejected e) :
    e.error = "Failed to create account" := by
  have h2' : jsLength (jsTrim customerName) ≥ 2 := by simpa using h2
  have hne : customerName ≠ "" := by
    intro hempty
    rw [hempty] at h2'
    exact absurd h2' (by decide)
  have hname : (decide (customerName = "") || decide (jsLength (jsTrim customerName) < 2))
      = false := by
    simp [hne]
    omega
  unfold createAccount at he
  simp only [h1, hname, h3, Bool.false_eq_true, if_false, Bool.not_true] at he
  split at he
  · injection he with he; rw [← he]
  · injection he with he; rw [← he]
  · cases he

theorem transferFunds_rejection_of_positive (errs : TransferErrs)
    (transactionId timestamp : String) (d : Db) (fromAccount toAccount : String)
    (amount : JsValue) (description : String)
    (h : (parseFloat amount).le (.fin 0) = false) (e : LedgerError)
    (he : (transferFunds errs transactionId timestamp d fromAccount toAccount amount
      description).2 = .rejected e) :
    e.error ∈ ["Cannot transfer to the same account", "Source account not found or inactive",
      "Insufficient funds", "Destination account not found or inactive",
      "Failed to debit source account", "Failed to credit destination account",
      "Failed to record transaction"] := by
  unfold transferFunds at he
  simp only [h, Bool.false_eq_true, if_false] at he
  repeat' split at he
  all_goals first
    | cases he; done
    | (injection he with he; rw [← he]; simp [LedgerError.ofMessage])

theorem withdrawFunds_rejection_of_positive (errs : WithdrawErrs)
    (transactionId timestamp : String) (d : Db) (accountNumber : String)
    (amount : JsValue) (description : String)
    (h : (parseFloat amount).le (.fin 0) = false) (e : LedgerError)
    (he : (withdrawFunds errs transactionId timestamp d accountNumber amount
      description).2 = .rejected e) :
    e.error ∈ ["Account not found or inactive", "Insufficient funds for withdrawal",
      "Failed to process withdrawal", "Failed to record transaction"] := by
  unfold withdrawFunds at he
  simp only [h, Bool.false_eq_true, if_false] at he
  repeat' split at he
  all_goals first
    | cases he; done
    | (injection he with he; rw [← he]; simp [LedgerError.ofMessage])

theorem depositFunds_rejection_of_positive (errs : DepositErrs)
    (transactionId timestamp : String) (d : Db) (accountNumber : String)
    (amount : JsValue) (description : String)
    (h : (parseFloat amount).le (.fin 0) = false) (e : LedgerError)
    (he : (depositFunds errs transactionId timestamp d accountNumber amount
      description).2 = .rejected e) :
    e.error ∈ ["Account not found or inactive", "Failed to process deposit",
      "Failed to record transaction", "Failed to get updated balance"] := by
  unfold depositFunds at he
  simp only [h, Bool.false_eq_true, if_false] at he
  repeat' split at he
  all_goals first
    | cases he; done
    | (injection he with he; rw [← he]; simp [LedgerError.ofMessage])

theorem nonnegative_not_lt (x : JsNum)
    (h : (!x.isNaN && x.ge (.fin 0)) = true) : x.lt (.fin 0) = false := by
  cases x with
  | nan => simp [JsNum.isNaN] at h
  | inf s => cases s <;> simp_all [JsNum.isNaN, JsNum.ge, JsNum.le, JsNum.lt]
  | fin q =>
    simp only [JsNum.isNaN, Bool.not_false, Bool.true_and, JsNum.ge, JsNum.le_fin,
      decide_eq_true_eq] at h
    simp [JsNum.lt, h]

theorem fields_of_two_steps (data : List (String × String)) (s₁ s₂ : FlowStep)
    (h : List.Forall₂
      (fun (field : String × String) (s : FlowStep) =>
        field.1 = s.step ∧ jsTrim field.2 = field.2 ∧ s.validation field.2 = true)
      data [s₁, s₂]) :
    ∃ v₁ v₂ : String, data = [(s₁.step, v₁), (s₂.step, v₂)] ∧
      s₁.validation v₁ = true ∧ s₂.validation v₂ = true := by
  cases h with
  | cons h1 t1 =>
    cases t1 with
    | cons h2 t2 =>
      cases t2
      rename_i f1 f2
      refine ⟨f1.2, f2.2, ?_, h1.2.2, h2.2.2⟩
      rw [← h1.1, ← h2.1]

theorem fields_of_one_step (data : List (String × String)) (s₁ : FlowStep)
    (h : List.Forall₂
      (fun (field : String × String) (s : FlowStep) =>
        field.1 = s.step ∧ jsTrim field.2 = field.2 ∧ s.validation field.2 = true)
      data [s₁]) :
    ∃ v₁ : String, data = [(s₁.step, v₁)] ∧ s₁.validation v₁ = true := by
  cases h with
  | cons h1 t1 =>
    cases t1
    rename_i f1
    refine ⟨f1.2, ?_, h1.2.2⟩
    rw [← h1.1]

theorem executeFlowAction_error (env : Env) (w : World) (sessionId flow : String)
    (data : List (String × String)) (r : BotResponse) (e : LedgerError)
    (hr : (executeFlowAction env w sessionId flow data).2 = .response r)
    (he : r.error = some (.ledger e)) :
    (flow = "account_creation" ∧
      (createAccountArgs env.createErr env.now w.db (getField data "name")
        (getField data "accountType")
        (.num (parseFloat (match getField data "initialDeposit" with
          | some s => .str s
          | none => .num .nan)))).2 = .rejected e) ∨
    (flow = "transfer" ∧ ∃ fromAccount toAccount : String,
      getField data "fromAccount" = some fromAccount ∧
      getField data "toAccount" = some toAccount ∧
      (transferFunds env.transferErrs env.transactionId env.timestamp w.db
        (jsToUpperCase fromAccount) (jsToUpperCase toAccount) (amountArg data)
        "Fund Transfer").2 = .rejected e) ∨
    (flow = "withdrawal" ∧ ∃ account : String, getField data "account" = some account ∧
      (withdrawFunds env.withdrawErrs env.transactionId env.timestamp w.db
        (jsToUpperCase account) (amountArg data) "ATM Withdrawal").2 = .rejected e) ∨
    (flow = "deposit" ∧ ∃ account : String, getField data "account" = some account ∧
      (depositFunds env.depositErrs env.transactionId env.timestamp w.db
        (jsToUpperCase account) (amountArg data) "Cash Deposit").2 = .rejected e) := by
  unfold executeFlowAction at hr
  split at hr
  · rename_i hflow
    refine Or.inl ⟨hflow, ?_⟩
    split at hr
    · injection hr with hr; rw [← hr] at he; cases he
    · rename_i heq
      injection hr with hr
      rw [← hr] at he
      injection he with he
      injection he with he
      rw [heq, he]
    · cases hr
  · split at hr
    · rename_i hflow
      refine Or.inr (Or.inl ⟨hflow, ?_⟩)
      split at hr
      · rename_i f t hf ht
        refine ⟨f, t, hf, ht, ?_⟩
        split at hr
        · injection hr with hr; rw [← hr] at he; cases he
        · rename_i heq
          injection hr with hr
          rw [← hr] at he
          injection he with he
          injection he with he
          rw [heq, he]
        · cases hr
      · injection hr with hr; rw [← hr] at he; cases he
    · split at hr
      · rename_i hflow
        refine Or.inr (Or.inr (Or.inl ⟨hflow, ?_⟩))
        split at hr
        · rename_i a ha
          refine ⟨a, ha, ?_⟩
          split at hr
          · injection hr with hr; rw [← hr] at he; cases he
          · rename_i heq
            injection hr with hr
            rw [← hr] at he
            injection he with he
            injection he with he
            rw [heq, he]
          · cases hr
        · injection hr with hr; rw [← hr] at he; cases he
      · split at hr
        · rename_i hflow
          refine Or.inr (Or.inr (Or.inr ⟨hflow, ?_⟩))
          split at hr
          · rename_i a ha
            refine ⟨a, ha, ?_⟩
            split at hr
            · injection hr with hr; rw [← hr] at he; cases he
            · rename_i heq
              injection hr with hr
              rw [← hr] at he
              injection he with he
              injection he with he
              rw [heq, he]
            · cases hr
          · injection hr with hr; rw [← hr] at he; cases he
        · cases hr

theorem amountArg_setField (data : List (String × String)) (value : String) :
    amountArg (setField data "amount" value) = .str value := by
  unfold amountArg
  rw [getField_setField_same]

/-- C28. Flow validation implies ledger validation.  In every world reached by chat
messages from an empty session map, whatever message a session that is in a flow
receives next, the reply never carries one of the argument-validation errors of the
ledger that the steps have already excluded: `Initial deposit cannot be negative`,
`Valid customer name is required`, `Invalid account type. Must be savings, checking, or
business`, or `Transfer`, `Withdrawal` or `Deposit amount must be greater than zero`.
The only argument check of the ledger a completed flow can still fail is the
same-account check of a transfer. -/
theorem flow_validation_implies_ledger_validation (db : Db)
    (messages : List (Env × String × String)) (sessionId : String) (st : SessionState)
    (h : (runMessages { db := db, sessionStates := SessionStore.empty } messages).sessionStates
      sessionId = some st)
    (flow : String) (hcur : st.currentFlow = some flow)
    (env : Env) (userMessage : String) (r : BotResponse) (e : LedgerError)
    (hr : (getBankingBotResponse env
      (runMessages { db := db, sessionStates := SessionStore.empty } messages)
      userMessage sessionId).2 = .response r)
    (he : r.error = some (.ledger e)) :
    e.error ∉ ["Initial deposit cannot be negative", "Valid customer name is required",
      "Invalid account type. Must be savings, checking, or business",
      "Transfer amount must be greater than zero",
      "Withdrawal amount must be greater than zero",
      "Deposit amount must be greater than zero"] := by
  have hwf := wellFormed_runMessages messages
    { db := db, sessionStates := SessionStore.empty } SessionStore.wellFormed_empty
  obtain ⟨steps, step, hflow, hstep, hwait, hdata⟩ := hwf sessionId st h flow hcur
  rw [in_flow_validates env _ userMessage sessionId flow steps step st h hcur hflow hstep
    hwait] at hr
  cases hv : step.validation userMessage with
  | false =>
    rw [hv] at hr
    simp only [if_true] at hr
    injection hr with hr
    rw [← hr] at he
    cases he
  | true =>
    rw [hv] at hr
    simp only [Bool.true_eq_false, if_false] at hr
    have hvt := validation_trim flow steps step hflow (List.getElem?_mem hstep) userMessage hv
    unfold advanceToNextStep at hr
    dsimp only at hr
    split at hr
    · rename_i hge
      have herr := executeFlowAction_error env _ sessionId flow _ r e hr he
      have hlt : st.currentStep < steps.length := by
        by_contra hcon
        rw [List.getElem?_eq_none (by omega)] at hstep
        cases hstep
      unfold flowSteps at hflow
      split at hflow
      · rename_i hname
        injection hflow with hflow
        subst hflow
        have hcs : st.currentStep = 2 := by
          have : accountCreationFlow.length = 3 := rfl
          omega
        rw [hcs] at hstep hdata
        have hstep2 : accountCreationFlow.get ⟨2, by decide⟩ = step := by
          have : accountCreationFlow[2]? = some (accountCreationFlow.get ⟨2, by decide⟩) := rfl
          rw [this] at hstep
          injection hstep
        subst hstep2
        obtain ⟨v₁, v₂, hd, hv1, hv2⟩ := fields_of_two_steps st.data
          (accountCreationFlow.get ⟨0, by decide⟩) (accountCreationFlow.get ⟨1, by decide⟩) hdata
        rcases herr with ⟨_, hc⟩ | ⟨hf, _⟩ | ⟨hf, _⟩ | ⟨hf, _⟩
        · have hg1 : getField (setField st.data "initialDeposit" (jsTrim userMessage)) "name"
              = some v₁ := by
            rw [getField_setField_other _ _ _ _ (by decide), hd]; rfl
          have hg2 : getField (setField st.data "initialDeposit" (jsTrim userMessage))
              "accountType" = some v₂ := by
            rw [getField_setField_other _ _ _ _ (by decide), hd]; rfl
          have hg3 := getField_setField_same st.data "initialDeposit" (jsTrim userMessage)
          have hc2 : (createAccount env.createErr env.now
              (runMessages { db := db, sessionStates := SessionStore.empty } messages).db v₁ v₂
              (.num (parseFloat (.str (jsTrim userMessage))))).2 = .rejected e := by
            have hc' := hc
            simp only [accountCreationFlow, List.get_eq_getElem, List.getElem_cons_succ,
              List.getElem_cons_zero, hg1, hg2, hg3, createAccountArgs, Option.getD_some]
              at hc'
            exact hc'
          have herror := createAccount_rejection_of_valid_args _ _ _ _ _ _
            (nonnegative_not_lt _ hvt) hv1 hv2 e hc2
          rw [herror]
          decide
        · rw [hname] at hf; exact absurd hf (by decide)
        · rw [hname] at hf; exact absurd hf (by decide)
        · rw [hname] at hf; exact absurd hf (by decide)
      · split at hflow
        · rename_i hname
          injection hflow with hflow
          subst hflow
          have hcs : st.currentStep = 2 := by
            have : transferFlow.length = 3 := rfl
            omega
          rw [hcs] at hstep
          have hstep2 : transferFlow.get ⟨2, by decide⟩ = step := by
            have : transferFlow[2]? = some (transferFlow.get ⟨2, by decide⟩) := rfl
            rw [this] at hstep
            injection hstep
          subst hstep2
          rcases herr with ⟨hf, _⟩ | ⟨_, f, t, _, _, hc⟩ | ⟨hf, _⟩ | ⟨hf, _⟩
          · rw [hname] at hf; exact absurd hf (by decide)
          · have hc' := hc
            simp only [transferFlow, List.get_eq_getElem, List.getElem_cons_succ,
              List.getElem_cons_zero, amountArg_setField] at hc'
            have hmem := transferFunds_rejection_of_positive _ _ _ _ _ _ _ _
              (le_zero_false_of_positive _ hvt) e hc'
            intro hbad
            revert hmem
            generalize e.error = m at hbad
            simp only [List.mem_cons, List.mem_singleton, List.not_mem_nil, or_false] at hbad ⊢
            rcases hbad with rfl | rfl | rfl | rfl | rfl | rfl <;> decide
          · rw [hname] at hf; exact absurd hf (by decide)
          · rw [hname] at hf; exact absurd hf (by decide)
        · split at hflow
          · rename_i hname
            injection hflow with hflow
            subst hflow
            have hcs : st.currentStep = 1 := by
              have : withdrawalFlow.length = 2 := rfl
              omega
            rw [hcs] at hstep
            have hstep2 : withdrawalFlow.get ⟨1, by decide⟩ = step := by
              have : withdrawalFlow[1]? = some (withdrawalFlow.get ⟨1, by decide⟩) := rfl
              rw [this] at hstep
              injection hstep
            subst hstep2
            rcases herr with ⟨hf, _⟩ | ⟨hf, _⟩ | ⟨_, a, _, hc⟩ | ⟨hf, _⟩
            · rw [hname] at hf; exact absurd hf (by decide)
            · rw [hname] at hf; exact absurd hf (by decide)
            · have hc' := hc
              simp only [withdrawalFlow, List.get_eq_getElem, List.getElem_cons_succ,
                List.getElem_cons_zero, amountArg_setField] at hc'
              have hmem := withdrawFunds_rejection_of_positive _ _ _ _ _ _ _
                (le_zero_false_of_positive _ hvt) e hc'
              intro hbad
              revert hmem
              generalize e.error = m at hbad
              simp only [List.mem_cons, List.mem_singleton, List.not_mem_nil, or_false]
                at hbad ⊢
              rcases hbad with rfl | rfl | rfl | rfl | rfl | rfl <;> decide
            · rw [hname] at hf; exact absurd hf (by decide)
          · split at hflow
            · rename_i hname
              injection hflow with hflow
              subst hflow
              have hcs : st.currentStep = 1 := by
                have : depositFlow.length = 2 := rfl
                omega
              rw [hcs] at hstep
              have hstep2 : depositFlow.get ⟨1, by decide⟩ = step := by
                have : depositFlow[1]? = some (depositFlow.get ⟨1, by decide⟩) := rfl
                rw [this] at hstep
                injection hstep
              subst hstep2
              rcases herr with ⟨hf, _⟩ | ⟨hf, _⟩ | ⟨hf, _⟩ | ⟨_, a, _, hc⟩
              · rw [hname] at hf; exact absurd hf (by decide)
              · rw [hname] at hf; exact absurd hf (by decide)
              · rw [hname] at hf; exact absurd hf (by decide)
              · have hc' := hc
                simp only [depositFlow, List.get_eq_getElem, List.getElem_cons_succ,
                  List.getElem_cons_zero, amountArg_setField] at hc'
                have hmem := depositFunds_rejection_of_positive _ _ _ _ _ _ _
                  (le_zero_false_of_positive _ hvt) e hc'
                intro hbad
                revert hmem
                generalize e.error = m at hbad
                simp only [List.mem_cons, List.mem_singleton, List.not_mem_nil, or_false]
                  at hbad ⊢
                rcases hbad with rfl | rfl | rfl | rfl | rfl | rfl <;> decide
            · cases hflow
    · injection hr with hr
      rw [← hr] at he
      cases he

theorem flow_validation_implies_ledger_validation_witness :
    (runMessages { db := seededDb, sessionStates := SessionStore.empty }
        [(quietEnv, "transfer", "s1"), (quietEnv, "acc001", "s1"),
         (quietEnv, "ACC001", "s1")]).sessionStates "s1"
      = some
          { currentFlow := some "transfer", currentStep := 2,
            data := [("fromAccount", "acc001"), ("toAccount", "ACC001")],
            waitingFor := some "amount" } ∧
    (getBankingBotResponse quietEnv
        (runMessages { db := seededDb, sessionStates := SessionStore.empty }
          [(quietEnv, "transfer", "s1"), (quietEnv, "acc001", "s1"),
           (quietEnv, "ACC001", "s1")]) "5" "s1").2
      = .response
          (errorResponse (.ledger (.ofMessage "Cannot transfer to the same account"))) ∧
    (LedgerError.ofMessage "Cannot transfer to the same account").error ∉
      ["Initial deposit cannot be negative", "Valid customer name is required",
        "Invalid account type. Must be savings, checking, or business",
        "Transfer amount must be greater than zero",
        "Withdrawal amount must be greater than zero",
        "Deposit amount must be greater than zero"] :=
  ⟨by decide!, by decide!,
    flow_validation_implies_ledger_validation seededDb
      [(quietEnv, "transfer", "s1"), (quietEnv, "acc001", "s1"), (quietEnv, "ACC001", "s1")]
      "s1"
      { currentFlow := some "transfer", currentStep := 2,
        data := [("fromAccount", "acc001"), ("toAccount", "ACC001")],
        waitingFor := some "amount" }
      (by decide!) "transfer" rfl quietEnv "5"
      (errorResponse (.ledger (.ofMessage "Cannot transfer to the same account")))
      (.ofMessage "Cannot transfer to the same account") (by decide!) rfl⟩

/-! ## Balances and the transaction log -/

theorem replayLedger_concat (txs : List Transaction) (t : Transaction) (n : String)
    (o : JsNum) :
    replayLedger (txs ++ [t]) n o = applyRecord n (replayLedger txs n o) t := by
  unfold replayLedger
  rw [List.foldl_append]
  rfl

theorem replayLedger_of_not_referenced (txs : List Transaction) (n : String) :
    ∀ o : JsNum, (∀ t ∈ txs, t.fromAccount ≠ some n ∧ t.toAccount ≠ some n) →
      replayLedger txs n o = o := by
  induction txs with
  | nil => intro o _; rfl
  | cons t txs ih =>
    intro o h
    have ht := h t (List.mem_cons_self _ _)
    have hstep : applyRecord n o t = o := by
      unfold applyRecord
      simp only [ht.1, ht.2, if_false]
    show replayLedger txs n (applyRecord n o t) = o
    rw [hstep]
    exact ih o (fun u hu => h u (List.mem_cons_of_mem _ hu))

theorem number_mem_of_selectActive (d : Db) (n : String) (a : Account)
    (h : d.selectActive n = some a) : n ∈ d.accounts.map (fun a => a.accountNumber) := by
  rw [List.mem_map]
  exact ⟨a, mem_of_selectActive d n a h, (selectActive_accountNumber d n a h).1⟩

theorem forall₂_replay_map (txs txs' : List Transaction) (g : Account → Account)
    (hg : ∀ (a : Account) (o : String × JsNum), Account.BalanceReplaysLedger txs a o →
      Account.BalanceReplaysLedger txs' (g a) o)
    (l : List Account) (os : List (String × JsNum))
    (h : List.Forall₂ (Account.BalanceReplaysLedger txs) l os) :
    List.Forall₂ (Account.BalanceReplaysLedger txs') (l.map g) os := by
  induction h with
  | nil => exact List.Forall₂.nil
  | cons hab _ ih => exact List.Forall₂.cons (hg _ _ hab) ih

theorem deposit_row_replays (txs : List Transaction) (transactionId n description : String)
    (amount : JsNum) (a : Account) (o : String × JsNum)
    (h : Account.BalanceReplaysLedger txs a o) :
    Account.BalanceReplaysLedger (txs ++ [depositRecord transactionId n amount description])
      (Db.updateRow n (fun b => b.add amount) a) o := by
  obtain ⟨hn, hb⟩ := h
  unfold Account.BalanceReplaysLedger
  rw [replayLedger_concat]
  unfold applyRecord
  have hfrom : (depositRecord transactionId n amount description).fromAccount ≠ some o.1 := by
    intro hc; cases hc
  have hra : (depositRecord transactionId n amount description).amount = amount := rfl
  simp only [hfrom, if_false, hra]
  unfold Db.updateRow
  by_cases hcase : a.accountNumber = n
  · have hto : (depositRecord transactionId n amount description).toAccount = some o.1 := by
      show some n = some o.1
      rw [← hn, hcase]
    simp only [hcase, hto, if_true]
    refine ⟨by rw [← hn, hcase], ?_⟩
    show a.balance.add amount = _
    rw [hb]
  · have hto : (depositRecord transactionId n amount description).toAccount ≠ some o.1 := by
      intro hc
      have hc' : some n = some o.1 := hc
      injection hc' with hc'
      exact hcase (by rw [hn, hc'])
    simp only [hcase, hto, if_false]
    exact ⟨hn, hb⟩

theorem withdrawal_row_replays (txs : List Transaction) (transactionId n description : String)
    (amount : JsNum) (a : Account) (o : String × JsNum)
    (h : Account.BalanceReplaysLedger txs a o) :
    Account.BalanceReplaysLedger (txs ++ [withdrawalRecord transactionId n amount description])
      (Db.updateRow n (fun b => b.sub amount) a) o := by
  obtain ⟨hn, hb⟩ := h
  unfold Account.BalanceReplaysLedger
  rw [replayLedger_concat]
  unfold applyRecord
  have hto : (withdrawalRecord transactionId n amount description).toAccount ≠ some o.1 := by
    intro hc; cases hc
  have hra : (withdrawalRecord transactionId n amount description).amount = amount := rfl
  simp only [hto, if_false, hra]
  unfold Db.updateRow
  by_cases hcase : a.accountNumber = n
  · have hfrom : (withdrawalRecord transactionId n amount description).fromAccount
        = some o.1 := by
      show some n = some o.1
      rw [← hn, hcase]
    simp only [hcase, hfrom, if_true]
    refine ⟨by rw [← hn, hcase], ?_⟩
    show a.balance.sub amount = _
    rw [hb]
  · have hfrom : (withdrawalRecord transactionId n amount description).fromAccount
        ≠ some o.1 := by
      intro hc
      have hc' : some n = some o.1 := hc
      injection hc' with hc'
      exact hcase (by rw [hn, hc'])
    simp only [hcase, hfrom, if_false]
    exact ⟨hn, hb⟩

theorem transfer_row_replays (txs : List Transaction)
    (transactionId f t description : String) (hne : f ≠ t)
    (amount : JsNum) (a : Account) (o : String × JsNum)
    (h : Account.BalanceReplaysLedger txs a o) :
    Account.BalanceReplaysLedger (txs ++ [transferRecord transactionId f t amount description])
      (Db.updateRow t (fun b => b.add amount) (Db.updateRow f (fun b => b.sub amount) a)) o := by
  obtain ⟨hn, hb⟩ := h
  unfold Account.BalanceReplaysLedger
  rw [replayLedger_concat]
  unfold applyRecord
  have hrf : (transferRecord transactionId f t amount description).fromAccount = some f := rfl
  have hrt : (transferRecord transactionId f t amount description).toAccount = some t := rfl
  have hra : (transferRecord transactionId f t amount description).amount = amount := rfl
  rw [hrf, hrt, hra]
  unfold Db.updateRow
  by_cases hf : a.accountNumber = f
  · have hnt : ¬ a.accountNumber = t := by rw [hf]; exact hne
    have h1 : some f = some o.1 := by rw [← hn, hf]
    have h2 : ¬ some t = some o.1 := by
      intro hc; injection hc with hc; exact hnt (by rw [hn, hc])
    simp only [hf, hne, h1, h2, if_true, if_false]
    refine ⟨by rw [← hn, hf], ?_⟩
    show a.balance.sub amount = _
    rw [hb]
  · by_cases ht : a.accountNumber = t
    · have h1 : ¬ some f = some o.1 := by
        intro hc; injection hc with hc; exact hf (by rw [hn, hc])
      have h2 : some t = some o.1 := by rw [← hn, ht]
      have hne2 : ¬ t = f := fun e => hne e.symm
      simp only [hf, ht, hne2, h1, h2, if_true, if_false]
      refine ⟨by rw [← hn, ht], ?_⟩
      show a.balance.add amount = _
      rw [hb]
    · have h1 : ¬ some f = some o.1 := by
        intro hc; injection hc with hc; exact hf (by rw [hn, hc])
      have h2 : ¬ some t = some o.1 := by
        intro hc; injection hc with hc; exact ht (by rw [hn, hc])
      simp only [hf, ht, h1, h2, if_false]
      exact ⟨hn, hb⟩

theorem foreignKeys_append (d d' : Db) (t : Transaction)
    (hnum : d'.accounts.map (fun a => a.accountNumber)
      = d.accounts.map (fun a => a.accountNumber))
    (htx : d'.transactions = d.transactions ++ [t]) (hfk : d.ForeignKeysHold)
    (ht : ∀ n : String, (t.fromAccount = some n ∨ t.toAccount = some n) →
      n ∈ d.accounts.map (fun a => a.accountNumber)) : d'.ForeignKeysHold := by
  intro u hu n hn
  rw [hnum]
  rw [htx] at hu
  rcases List.mem_append.mp hu with hu | hu
  · exact hfk u hu n hn
  · rw [List.mem_singleton.mp hu] at hn
    exact ht n hn

theorem run_preserves_replay (d : Db) (os : List (String × JsNum)) (c : LedgerCall)
    (hclosed : d.saved = none) (huniq : d.UniqueAccountNumbers) (hfk : d.ForeignKeysHold)
    (hbal : d.BalancesReplayLedger os) :
    (c.run d).UniqueAccountNumbers ∧ (c.run d).ForeignKeysHold ∧
      (c.run d).BalancesReplayLedger (os ++ c.opened d) := by
  cases c with
  | createAccount err now customerName accountType initialDeposit =>
    rcases createAccount_cases err now d customerName accountType initialDeposit with
      h | ⟨hres, hacc, htx, _, hany, _⟩
    · have hrun : (LedgerCall.createAccount err now customerName accountType
          initialDeposit).run d = d := h.1
      have hop : (LedgerCall.createAccount err now customerName accountType
          initialDeposit).opened d = [] := by
        simp only [LedgerCall.opened, h.2, Bool.false_eq_true, if_false]
      rw [hrun, hop, List.append_nil]
      exact ⟨huniq, hfk, hbal⟩
    · have hop : (LedgerCall.createAccount err now customerName accountType
          initialDeposit).opened d
          = [(generatedAccountNumber now, parseFloat initialDeposit)] := by
        simp only [LedgerCall.opened, hres, if_true]
      have hnot : generatedAccountNumber now ∉ d.accounts.map (fun a => a.accountNumber) := by
        intro hmem
        rw [List.mem_map] at hmem
        obtain ⟨a, ha, hn⟩ := hmem
        rw [List.any_eq_false] at hany
        exact hany a ha (by simpa using hn)
      rw [hop]
      show ((createAccount err now d customerName accountType initialDeposit).1).UniqueAccountNumbers
        ∧ ((createAccount err now d customerName accountType initialDeposit).1).ForeignKeysHold
        ∧ ((createAccount err now d customerName accountType initialDeposit).1).BalancesReplayLedger
            (os ++ [(generatedAccountNumber now, parseFloat initialDeposit)])
      refine ⟨?_, ?_, ?_⟩
      · unfold Db.UniqueAccountNumbers
        rw [hacc, List.map_append, List.nodup_append]
        refine ⟨huniq, List.nodup_singleton _, ?_⟩
        intro x hx hx'
        rw [List.map_singleton, List.mem_singleton] at hx'
        rw [hx'] at hx
        exact hnot hx
      · intro t ht n hn
        rw [htx] at ht
        rw [hacc, List.map_append]
        exact List.mem_append_left _ (hfk t ht n hn)
      · unfold Db.BalancesReplayLedger
        rw [hacc, htx]
        refine List.rel_append hbal (List.Forall₂.cons ⟨rfl, ?_⟩ List.Forall₂.nil)
        show parseFloat initialDeposit = _
        rw [replayLedger_of_not_referenced]
        intro t ht
        exact ⟨fun hc => hnot (hfk t ht _ (Or.inl hc)), fun hc => hnot (hfk t ht _ (Or.inr hc))⟩
  | deposit errs transactionId timestamp accountNumber amount description =>
    rcases depositFunds_cases errs transactionId timestamp d accountNumber amount description
      hclosed with h | ⟨_, htx, hacc, _, account, hsel, _⟩
    · have hrun : (LedgerCall.deposit errs transactionId timestamp accountNumber amount
          description).run d = d := h.1
      rw [hrun]
      simp only [LedgerCall.opened, List.append_nil]
      exact ⟨huniq, hfk, hbal⟩
    · show ((depositFunds errs transactionId timestamp d accountNumber amount
          description).1).UniqueAccountNumbers
        ∧ ((depositFunds errs transactionId timestamp d accountNumber amount
          description).1).ForeignKeysHold
        ∧ ((depositFunds errs transactionId timestamp d accountNumber amount
          description).1).BalancesReplayLedger (os ++ [])
      have hnum : (depositFunds errs transactionId timestamp d accountNumber amount
          description).1.accounts.map (fun a => a.accountNumber)
          = d.accounts.map (fun a => a.accountNumber) := by
        rw [hacc]; exact map_accountNumber_updateRow _ _ _
      refine ⟨?_, ?_, ?_⟩
      · unfold Db.UniqueAccountNumbers
        rw [hnum]; exact huniq
      · refine foreignKeys_append d _ _ hnum htx hfk ?_
        intro n hn
        rcases hn with hn | hn
        · cases hn
        · have hn' : some accountNumber = some n := hn
          injection hn' with hn'
          rw [← hn']
          exact number_mem_of_selectActive d accountNumber account hsel
      · unfold Db.BalancesReplayLedger
        rw [hacc, htx, List.append_nil]
        exact forall₂_replay_map _ _ _
          (deposit_row_replays _ transactionId accountNumber description _) _ _ hbal
  | withdraw errs transactionId timestamp accountNumber amount description =>
    rcases withdrawFunds_cases errs transactionId timestamp d accountNumber amount description
      hclosed with h | ⟨_, htx, hacc, _, account, hsel, _⟩
    · have hrun : (LedgerCall.withdraw errs transactionId timestamp accountNumber amount
          description).run d = d := h.1
      rw [hrun]
      simp only [LedgerCall.opened, List.append_nil]
      exact ⟨huniq, hfk, hbal⟩
    · show ((withdrawFunds errs transactionId timestamp d accountNumber amount
          description).1).UniqueAccountNumbers
        ∧ ((withdrawFunds errs transactionId timestamp d accountNumber amount
          description).1).ForeignKeysHold
        ∧ ((withdrawFunds errs transactionId timestamp d accountNumber amount
          description).1).BalancesReplayLedger (os ++ [])
      have hnum : (withdrawFunds errs transactionId timestamp d accountNumber amount
          description).1.accounts.map (fun a => a.accountNumber)
          = d.accounts.map (fun a => a.accountNumber) := by
        rw [hacc]; exact map_accountNumber_updateRow _ _ _
      refine ⟨?_, ?_, ?_⟩
      · unfold Db.UniqueAccountNumbers
        rw [hnum]; exact huniq
      · refine foreignKeys_append d _ _ hnum htx hfk ?_
        intro n hn
        rcases hn with hn | hn
        · have hn' : some accountNumber = some n := hn
          injection hn' with hn'
          rw [← hn']
          exact number_mem_of_selectActive d accountNumber account hsel
        · cases hn
      · unfold Db.BalancesReplayLedger
        rw [hacc, htx, List.append_nil]
        exact forall₂_replay_map _ _ _
          (withdrawal_row_replays _ transactionId accountNumber description _) _ _ hbal
  | transfer errs transactionId timestamp fromAccount toAccount amount description =>
    rcases transferFunds_cases errs transactionId timestamp d fromAccount toAccount amount
      description hclosed with h | ⟨_, htx, hacc, _, hne, source, dest, hsrc, hdst, _⟩
    · have hrun : (LedgerCall.transfer errs transactionId timestamp fromAccount toAccount
          amount description).run d = d := h.1
      rw [hrun]
      simp only [LedgerCall.opened, List.append_nil]
      exact ⟨huniq, hfk, hbal⟩
    · show ((transferFunds errs transactionId timestamp d fromAccount toAccount amount
          description).1).UniqueAccountNumbers
        ∧ ((transferFunds errs transactionId timestamp d fromAccount toAccount amount
          description).1).ForeignKeysHold
        ∧ ((transferFunds errs transactionId timestamp d fromAccount toAccount amount
          description).1).BalancesReplayLedger (os ++ [])
      have hnum : (transferFunds errs transactionId timestamp d fromAccount toAccount amount
          description).1.accounts.map (fun a => a.accountNumber)
          = d.accounts.map (fun a => a.accountNumber) := by
        rw [hacc, map_accountNumber_updateRow, map_accountNumber_updateRow]
      refine ⟨?_, ?_, ?_⟩
      · unfold Db.UniqueAccountNumbers
        rw [hnum]; exact huniq
      · refine foreignKeys_append d _ _ hnum htx hfk ?_
        intro n hn
        rcases hn with hn | hn
        · have hn' : some fromAccount = some n := hn
          injection hn' with hn'
          rw [← hn']
          exact number_mem_of_selectActive d fromAccount source hsrc
        · have hn' : some toAccount = some n := hn
          injection hn' with hn'
          rw [← hn']
          exact number_mem_of_selectActive d toAccount dest hdst
      · unfold Db.BalancesReplayLedger
        rw [hacc, htx, List.append_nil, List.map_map]
        exact forall₂_replay_map _ _ _
          (transfer_row_replays _ transactionId fromAccount toAccount description hne _) _ _
          hbal

theorem runCalls_preserves_replay (calls : List LedgerCall) :
    ∀ (d : Db) (os : List (String × JsNum)), d.saved = none → d.UniqueAccountNumbers →
      d.ForeignKeysHold → d.BalancesReplayLedger os →
      (runCalls d calls).saved = none ∧ (runCalls d calls).UniqueAccountNumbers ∧
        (runCalls d calls).ForeignKeysHold ∧
        (runCalls d calls).BalancesReplayLedger (os ++ openedBy d calls) := by
  induction calls with
  | nil =>
    intro d os hclosed huniq hfk hbal
    simp only [openedBy, List.append_nil]
    exact ⟨hclosed, huniq, hfk, hbal⟩
  | cons c cs ih =>
    intro d os hclosed huniq hfk hbal
    obtain ⟨h1, h2, h3⟩ := run_preserves_replay d os c hclosed huniq hfk hbal
    have := ih (c.run d) (os ++ c.opened d) (run_closed d c hclosed) h1 h2 h3
    simp only [openedBy, ← List.append_assoc]
    exact this

theorem balances_replay_initially (d : Db) (htx : d.transactions = []) :
    d.BalancesReplayLedger (d.accounts.map (fun a => (a.accountNumber, a.balance))) := by
  unfold Db.BalancesReplayLedger
  rw [htx]
  induction d.accounts with
  | nil => exact List.Forall₂.nil
  | cons a l ih => exact List.Forall₂.cons ⟨rfl, rfl⟩ ih

/-- C26 (counterexample). The balance is not the opening balance plus the credits minus
the debits, and a transfer does not keep the total.  An account opened with `0.1` that
receives deposits of `0.2` and of `0.3` holds `0.6000000000000001`, while the opening
balance plus the sum of the two amounts is `0.6`, in double arithmetic, and another
number again in exact arithmetic.  A transfer of `0.1` from an account that holds `0.3`
to one that holds `0.7` changes the sum of the two balances from `1` to
`0.9999999999999999`. -/
theorem ledger_identity_broken_by_rounding :
    ¬ (runCalls emptyDb
        [.createAccount none 1730800000123 "Ann Lee" "savings" (.str "0.1"),
         .deposit .none "t-1" "2024-01-01T00:00:00.000Z" "ACC000123" (.str "0.2")
           "Cash Deposit",
         .deposit .none "t-2" "2024-01-01T00:00:00.000Z" "ACC000123" (.str "0.3")
           "Cash Deposit"]).BalancesMatchLedger
      (openingBalances emptyDb
        [.createAccount none 1730800000123 "Ann Lee" "savings" (.str "0.1"),
         .deposit .none "t-1" "2024-01-01T00:00:00.000Z" "ACC000123" (.str "0.2")
           "Cash Deposit",
         .deposit .none "t-2" "2024-01-01T00:00:00.000Z" "ACC000123" (.str "0.3")
           "Cash Deposit"]) ∧
    (runCalls emptyDb
        [.createAccount none 1730800000123 "Ann Lee" "savings" (.str "0.1"),
         .deposit .none "t-1" "2024-01-01T00:00:00.000Z" "ACC000123" (.str "0.2")
           "Cash Deposit",
         .deposit .none "t-2" "2024-01-01T00:00:00.000Z" "ACC000123" (.str "0.3")
           "Cash Deposit"]).accounts.map (fun a => a.balance)
      = [.fin (1351079888211149 / 2251799813685248)] ∧
    (parseFloat (.str "0.1")).add
        ((parseFloat (.str "0.2")).add ((parseFloat (.str "0.3")).add (.fin 0)))
      = .fin (5404319552844595 / 9007199254740992) ∧
    (1351079888211149 / 2251799813685248 : ℚ)
      ≠ 3602879701896397 / 36028797018963968 + 3602879701896397 / 18014398509481984
        + 5404319552844595 / 18014398509481984 ∧
    parseFloat (.str "0.6") ≠ .fin (1351079888211149 / 2251799813685248) ∧
    parseFloat (.str "0.3") = .fin (5404319552844595 / 18014398509481984) ∧
    parseFloat (.str "0.7") = .fin (3152519739159347 / 4503599627370496) ∧
    (runCalls emptyDb
        [.createAccount none 1730800000123 "Ann Lee" "savings" (.str "0.3"),
         .createAccount none 1730800000456 "Bob Ray" "savings" (.str "0.7")]).totalBalance
      = .fin 1 ∧
    (transferFunds .none "t-1" "2024-01-01T00:00:00.000Z"
        (runCalls emptyDb
          [.createAccount none 1730800000123 "Ann Lee" "savings" (.str "0.3"),
           .createAccount none 1730800000456 "Bob Ray" "savings" (.str "0.7")])
        "ACC000123" "ACC000456" (.str "0.1") "Fund Transfer").1.totalBalance
      = .fin (9007199254740991 / 9007199254740992) := by
  refine ⟨?_, by decide!, by decide!, by norm_num, by decide!, by decide!, by decide!,
    by decide!, by decide!⟩
  intro h
  have hacc : (runCalls emptyDb
        [.createAccount none 1730800000123 "Ann Lee" "savings" (.str "0.1"),
         .deposit .none "t-1" "2024-01-01T00:00:00.000Z" "ACC000123" (.str "0.2")
           "Cash Deposit",
         .deposit .none "t-2" "2024-01-01T00:00:00.000Z" "ACC000123" (.str "0.3")
           "Cash Deposit"]).accounts
      = [{ accountNumber := "ACC000123", customerName := "Ann Lee",
           balance := .fin (1351079888211149 / 2251799813685248), accountType := "savings",
           status := "active", creditLimit := .fin 0 }] := by decide!
  have hop : openingBalances emptyDb
        [.createAccount none 1730800000123 "Ann Lee" "savings" (.str "0.1"),
         .deposit .none "t-1" "2024-01-01T00:00:00.000Z" "ACC000123" (.str "0.2")
           "Cash Deposit",
         .deposit .none "t-2" "2024-01-01T00:00:00.000Z" "ACC000123" (.str "0.3")
           "Cash Deposit"]
      = [("ACC000123", .fin (3602879701896397 / 36028797018963968))] := by decide!
  unfold Db.BalancesMatchLedger at h
  rw [hacc, hop] at h
  cases h with
  | cons h1 _ => exact absurd h1.2 (by decide!)

/-- C26 (amended). After any sequence of `createAccount`, `depositFunds`,
`withdrawFunds` and `transferFunds` calls, each run after the previous one has ended, from
the empty or the seeded database (any arguments, any injected storage errors): the
accounts are, in table order, the accounts of the start followed by the accounts opened
since, and the balance of each is what the transaction rows make of its opening balance
(the seed balance, or the parsed initial deposit) when they are applied one after the
other in the order of the log, in double arithmetic: the amount of a row is added if the
account is its `to_account` and subtracted if it is its `from_account`.  `createAccount`
leaves the transaction log as it is, so an initial deposit is never recorded as a
transaction. -/
theorem balances_replay_ledger (d0 : Db) (calls : List LedgerCall)
    (hd0 : d0 = emptyDb ∨ d0 = seededDb) :
    (runCalls d0 calls).BalancesReplayLedger (openingBalances d0 calls) ∧
    (∀ (err : Option String) (now : Nat) (customerName accountType : String)
        (initialDeposit : JsValue),
      (createAccount err now (runCalls d0 calls) customerName accountType
        initialDeposit).1.transactions = (runCalls d0 calls).transactions) := by
  have hstart : d0.saved = none ∧ d0.UniqueAccountNumbers ∧ d0.ForeignKeysHold ∧
      d0.transactions = [] := by
    rcases hd0 with rfl | rfl
    · exact ⟨rfl, by decide, (fun t ht => by cases ht), rfl⟩
    · exact ⟨rfl, by decide, (fun t ht => by cases ht), rfl⟩
  obtain ⟨hclosed, huniq, hfk, htx⟩ := hstart
  obtain ⟨_, _, _, h4⟩ := runCalls_preserves_replay calls d0 _ hclosed huniq hfk
    (balances_replay_initially d0 htx)
  refine ⟨h4, ?_⟩
  intro err now customerName accountType initialDeposit
  rcases createAccount_cases err now (runCalls d0 calls) customerName accountType
    initialDeposit with h | ⟨_, _, htx', _⟩
  · rw [h.1]
  · exact htx'

theorem balances_replay_ledger_witness :
    openingBalances seededDb
        [.deposit .none "t-1" "2024-01-01T00:00:00.000Z" "ACC001" (.str "100") "Cash Deposit",
         .createAccount none 1730800000123 "Ann Lee" "checking" (.num (.fin 50)),
         .transfer .none "t-2" "2024-01-01T00:00:00.000Z" "ACC001" "ACC000123" (.str "25.5")
           "Fund Transfer"]
      = [("ACC001", .fin 5000), ("ACC002", .fin 3500), ("ACC003", .fin 1200),
         ("ACC004", .fin 7500), ("ACC005", .fin 2800), ("ACC000123", .fin 50)] ∧
    (runCalls seededDb
        [.deposit .none "t-1" "2024-01-01T00:00:00.000Z" "ACC001" (.str "100") "Cash Deposit",
         .createAccount none 1730800000123 "Ann Lee" "checking" (.num (.fin 50)),
         .transfer .none "t-2" "2024-01-01T00:00:00.000Z" "ACC001" "ACC000123" (.str "25.5")
           "Fund Transfer"]).BalancesReplayLedger
      (openingBalances seededDb
        [.deposit .none "t-1" "2024-01-01T00:00:00.000Z" "ACC001" (.str "100") "Cash Deposit",
         .createAccount none 1730800000123 "Ann Lee" "checking" (.num (.fin 50)),
         .transfer .none "t-2" "2024-01-01T00:00:00.000Z" "ACC001" "ACC000123" (.str "25.5")
           "Fund Transfer"]) :=
  ⟨by decide!,
    (balances_replay_ledger seededDb
      [.deposit .none "t-1" "2024-01-01T00:00:00.000Z" "ACC001" (.str "100") "Cash Deposit",
       .createAccount none 1730800000123 "Ann Lee" "checking" (.num (.fin 50)),
       .transfer .none "t-2" "2024-01-01T00:00:00.000Z" "ACC001" "ACC000123" (.str "25.5")
         "Fund Transfer"] (Or.inr rfl)).1⟩

/-! ## Two withdrawals, one after the other -/

/-- Two calls `withdrawFunds(A, 80)` on an account with balance `100` and no credit,
the second started after the first has ended: the first resolves, the second is rejected
for insufficient funds, the balance ends at `20` and one row is recorded. -/
theorem two_withdrawals_in_sequence :
    let d0 := dbOf [plainAccount "A" 100 0]
    let first := withdrawFunds .none "t-1" "2024-01-01T00:00:00.000Z" d0 "A" (.num (.fin 80))
      "ATM Withdrawal"
    let second := withdrawFunds .none "t-2" "2024-01-01T00:00:01.000Z" first.1 "A"
      (.num (.fin 80)) "ATM Withdrawal"
    first.2.isResolved = true ∧
      second.2 = .rejected
        { error := "Insufficient funds for withdrawal", details := none,
          available := some "20.00", requested := some "80.00" } ∧
      second.1.accounts.map (fun a => a.balance) = [.fin 20] ∧
      second.1.transactions.length = 1 := by
  decide!

end Bankbot
